import Mathlib

/-!
# terraform-plugin-framework: attribute validation, value conversion and
# protocol containers

A shallow embedding of the parts of the framework that the specification's
claims are about, followed by the theorems that settle them.

Layout: the dynamic (wire) value model of `tftypes`, attribute paths,
diagnostics, attribute types and typed values, the schema tree, then the
operations (`AttributeValidate`, `ValueAs`), then the theorems.

Go maps are association lists: iteration order is the list order.
Go interface values with methods (`attr.Type`, `tfsdk.AttributeValidator`)
are records of functions, so theorems quantify over every implementation.
-/

namespace Fw

/-! ## Go errors -/

/-- Modelled from the spec: Go `error` values: a sentinel made by `errors.New`,
a plain formatted error, or an error wrapping another one with `%w`. Go's
`errors` package is not among the sources. -/
inductive GoError where
  | sentinel (msg : String)
  | plain (msg : String)
  | wrap (pre : String) (inner : GoError) (post : String)
  deriving DecidableEq, Repr

/-- Modelled from the spec: the text of `err.Error()`. Go's `errors` package is
not among the sources. -/
def GoError.Error : GoError → String
  | .sentinel m => m
  | .plain m => m
  | .wrap pre inner post => pre ++ inner.Error ++ post

/-- Modelled from the spec: the test `errors.Is(err, target)`: `target` is
`err` or is wrapped by it. Go's `errors` package is not among the sources. -/
def GoError.Is (e target : GoError) : Bool :=
  if e = target then true
  else match e with
    | .wrap _ inner _ => inner.Is target
    | _ => false

/-- Modelled from the spec: the sentinel `tftypes.ErrInvalidStep`. Go's
`errors` package is not among the sources. -/
def ErrInvalidStep : GoError := .sentinel "step cannot be applied to this value"

/-! ## tftypes: wire types and dynamic values -/

/-- Modelled from the spec: the wire type descriptors of `tftypes.Type`.
Package `tftypes` of terraform-plugin-go is a dependency, not among the
sources. -/
inductive TfType where
  | string
  | number
  | bool
  | list (ElementType : TfType)
  | set (ElementType : TfType)
  | map (ElementType : TfType)
  | object (AttributeTypes : List (String × TfType))
  deriving Repr

/-- Modelled from the spec: structural equality of wire types,
`tftypes.Type.Equal`. Object attribute maps are compared entry by entry in list
order. Package `tftypes` of terraform-plugin-go is a dependency, not among the
sources. -/
def TfType.Equal : TfType → TfType → Bool
  | .string, .string => true
  | .number, .number => true
  | .bool, .bool => true
  | .list a, .list b => a.Equal b
  | .set a, .set b => a.Equal b
  | .map a, .map b => a.Equal b
  | .object as, .object bs => equalFields as bs
  | _, _ => false
where
  /-- Entry-wise comparison of two attribute-type maps. -/
  equalFields : List (String × TfType) → List (String × TfType) → Bool
    | [], [] => true
    | (n, a) :: as, (m, b) :: bs => n == m && a.Equal b && equalFields as bs
    | _, _ => false

/-- Modelled from the spec: the rendering `tftypes.Type.String()`. Package
`tftypes` of terraform-plugin-go is a dependency, not among the sources. -/
def TfType.render : TfType → String
  | .string => "tftypes.String"
  | .number => "tftypes.Number"
  | .bool => "tftypes.Bool"
  | .list e => "tftypes.List[" ++ e.render ++ "]"
  | .set e => "tftypes.Set[" ++ e.render ++ "]"
  | .map e => "tftypes.Map[" ++ e.render ++ "]"
  | .object as => "tftypes.Object[" ++ renderFields as ++ "]"
where
  /-- The entries of an object type, comma separated. -/
  renderFields : List (String × TfType) → String
    | [] => ""
    | [(n, t)] => "\"" ++ n ++ "\":" ++ t.render
    | (n, t) :: rest => "\"" ++ n ++ "\":" ++ t.render ++ ", " ++ renderFields rest

/-- Modelled from the spec: the dynamic values of `tftypes.Value`: a null
(whose type is absent for the zero `Value` of Go), an unknown of some type, or
a known payload. Numbers are kept as integers; no claim depends on their
fractional part. Package `tftypes` of terraform-plugin-go is a dependency, not
among the sources. -/
inductive TfValue where
  | null (typ : Option TfType)
  | unknown (typ : TfType)
  | string (s : String)
  | number (n : Int)
  | bool (b : Bool)
  | list (ElementType : TfType) (elems : List TfValue)
  | set (ElementType : TfType) (elems : List TfValue)
  | map (ElementType : TfType) (elems : List (String × TfValue))
  | object (AttributeTypes : List (String × TfType)) (attrs : List (String × TfValue))
  deriving Repr

/-- Modelled from the spec: the zero `tftypes.Value{}`: no type, no payload.
Package `tftypes` of terraform-plugin-go is a dependency, not among the
sources. -/
def TfValue.zero : TfValue := .null none

/-- Modelled from the spec: the constructor `tftypes.NewValue(typ, nil)`.
Package `tftypes` of terraform-plugin-go is a dependency, not among the
sources. -/
def TfValue.NewNull (typ : TfType) : TfValue := .null (some typ)

/-- Modelled from the spec: the type `val.Type()`, absent for the zero value.
Package `tftypes` of terraform-plugin-go is a dependency, not among the
sources. -/
def TfValue.Type : TfValue → Option TfType
  | .null t => t
  | .unknown t => some t
  | .string _ => some .string
  | .number _ => some .number
  | .bool _ => some .bool
  | .list e _ => some (.list e)
  | .set e _ => some (.set e)
  | .map e _ => some (.map e)
  | .object ts _ => some (.object ts)

/-- Modelled from the spec: the test `val.IsNull()`. Package `tftypes` of
terraform-plugin-go is a dependency, not among the sources. -/
def TfValue.IsNull : TfValue → Bool
  | .null _ => true
  | _ => false

/-- Modelled from the spec: the test `val.IsKnown()`. Package `tftypes` of
terraform-plugin-go is a dependency, not among the sources. -/
def TfValue.IsKnown : TfValue → Bool
  | .unknown _ => false
  | _ => true

/-- Modelled from the spec: equality of two optional wire types. Package
`tftypes` of terraform-plugin-go is a dependency, not among the sources. -/
def TfType.equalOpt : Option TfType → Option TfType → Bool
  | none, none => true
  | some a, some b => a.Equal b
  | _, _ => false

/-- Modelled from the spec: structural equality of dynamic values,
`tftypes.Value.Equal`. Package `tftypes` of terraform-plugin-go is a
dependency, not among the sources. -/
def TfValue.Equal : TfValue → TfValue → Bool
  | .null a, .null b => TfType.equalOpt a b
  | .unknown a, .unknown b => a.Equal b
  | .string a, .string b => a == b
  | .number a, .number b => a == b
  | .bool a, .bool b => a == b
  | .list ta as, .list tb bs => ta.Equal tb && equalElems as bs
  | .set ta as, .set tb bs => ta.Equal tb && equalElems as bs
  | .map ta as, .map tb bs => ta.Equal tb && equalEntries as bs
  | .object ta as, .object tb bs => TfType.Equal.equalFields ta tb && equalEntries as bs
  | _, _ => false
where
  /-- Element-wise comparison. -/
  equalElems : List TfValue → List TfValue → Bool
    | [], [] => true
    | a :: as, b :: bs => a.Equal b && equalElems as bs
    | _, _ => false
  /-- Entry-wise comparison. -/
  equalEntries : List (String × TfValue) → List (String × TfValue) → Bool
    | [], [] => true
    | (n, a) :: as, (m, b) :: bs => n == m && a.Equal b && equalEntries as bs
    | _, _ => false

/-- Modelled from the spec: the rendering `tftypes.Value.String()`; string
payloads are quoted without escaping. Package `tftypes` of terraform-plugin-go
is a dependency, not among the sources. -/
def TfValue.render : TfValue → String
  | .null none => "invalid typeless tftypes.Value<>"
  | .null (some t) => t.render ++ "<null>"
  | .unknown t => t.render ++ "<unknown>"
  | .string s => "tftypes.String<\"" ++ s ++ "\">"
  | .number n => "tftypes.Number<\"" ++ toString n ++ "\">"
  | .bool b => "tftypes.Bool<\"" ++ toString b ++ "\">"
  | .list e vs => (TfType.list e).render ++ "<" ++ renderElems vs ++ ">"
  | .set e vs => (TfType.set e).render ++ "<" ++ renderElems vs ++ ">"
  | .map e vs => (TfType.map e).render ++ "<" ++ renderEntries vs ++ ">"
  | .object ts vs => (TfType.object ts).render ++ "<" ++ renderEntries vs ++ ">"
where
  /-- Elements, comma separated. -/
  renderElems : List TfValue → String
    | [] => ""
    | [v] => v.render
    | v :: rest => v.render ++ ", " ++ renderElems rest
  /-- Entries, comma separated. -/
  renderEntries : List (String × TfValue) → String
    | [] => ""
    | [(n, v)] => "\"" ++ n ++ "\":" ++ v.render
    | (n, v) :: rest => "\"" ++ n ++ "\":" ++ v.render ++ ", " ++ renderEntries rest

/-! ## Attribute paths -/

/-- Modelled from the spec: one addressing step of `tftypes.AttributePath`.
Package `tftypes` of terraform-plugin-go is a dependency, not among the
sources. -/
inductive PathStep where
  | AttributeName (name : String)
  | ElementKeyInt (index : Int)
  | ElementKeyString (key : String)
  | ElementKeyValue (value : TfValue)
  deriving Repr

/-- Modelled from the spec: an attribute path: its steps from the root; the
empty list is the root. Package `tftypes` of terraform-plugin-go is a
dependency, not among the sources. -/
abbrev Path := List PathStep

/-- Modelled from the spec: the empty path, `tftypes.NewAttributePath()` and
`attrpath.New()`. Package `tftypes` of terraform-plugin-go is a dependency, not
among the sources. -/
def Path.New : Path := []

/-- Modelled from the spec: copy-on-append of a named-field step. Package
`tftypes` of terraform-plugin-go is a dependency, not among the sources. -/
def Path.WithAttributeName (p : Path) (name : String) : Path := p ++ [.AttributeName name]

/-- Modelled from the spec: copy-on-append of an integer-index step. Package
`tftypes` of terraform-plugin-go is a dependency, not among the sources. -/
def Path.WithElementKeyInt (p : Path) (i : Int) : Path := p ++ [.ElementKeyInt i]

/-- Modelled from the spec: copy-on-append of a string-key step. Package
`tftypes` of terraform-plugin-go is a dependency, not among the sources. -/
def Path.WithElementKeyString (p : Path) (k : String) : Path := p ++ [.ElementKeyString k]

/-- Modelled from the spec: copy-on-append of an element-value step. Package
`tftypes` of terraform-plugin-go is a dependency, not among the sources. -/
def Path.WithElementKeyValue (p : Path) (v : TfValue) : Path := p ++ [.ElementKeyValue v]

/-- The lookup `m[key]` in a Go map kept as an association list. -/
def lookup {α : Type} (key : String) : List (String × α) → Option α
  | [] => none
  | (k, v) :: rest => if k = key then some v else lookup key rest

/-- Modelled from the spec: one step into a dynamic value,
`Value.ApplyTerraform5AttributePathStep`: null and unknown values admit no
step, and a step of the wrong kind or to an absent member is `ErrInvalidStep`.
Package `tftypes` of terraform-plugin-go is a dependency, not among the
sources. -/
def TfValue.ApplyTerraform5AttributePathStep (val : TfValue) (step : PathStep) :
    Except GoError TfValue :=
  match val, step with
  | .object _ attrs, .AttributeName name =>
    match lookup name attrs with
    | some v => .ok v
    | none => .error ErrInvalidStep
  | .map _ elems, .ElementKeyString key =>
    match lookup key elems with
    | some v => .ok v
    | none => .error ErrInvalidStep
  | .list _ elems, .ElementKeyInt i =>
    if i < 0 then .error ErrInvalidStep
    else match elems.get? i.toNat with
      | some v => .ok v
      | none => .error ErrInvalidStep
  | .set _ elems, .ElementKeyValue key =>
    match elems.find? (fun el => el.Equal key) with
    | some v => .ok v
    | none => .error ErrInvalidStep
  | _, _ => .error ErrInvalidStep

/-- Modelled from the spec: the walk `tftypes.WalkAttributePath`: the value
reached, or the steps that remained (the failing one first) with the error.
Package `tftypes` of terraform-plugin-go is a dependency, not among the
sources. -/
def WalkAttributePath : TfValue → Path → Except (Path × GoError) TfValue
  | v, [] => .ok v
  | v, step :: rest =>
    match v.ApplyTerraform5AttributePathStep step with
    | .ok next => WalkAttributePath next rest
    | .error e => .error (step :: rest, e)

/-! ## Diagnostics -/

/-- Modelled from the spec: severity of a diagnostic. The rest of package
`diag` is not among the sources. -/
inductive Severity where
  | Error
  | Warning
  deriving DecidableEq, Repr

/-- Modelled from the spec: what a diagnostic says, without its path: a plain
error or warning (`diag.NewErrorDiagnostic`, `diag.NewWarningDiagnostic`) or
one of the two structured conversion diagnostics of `internal/reflect`. Go type
identities and the schema type are kept by name. The rest of package `diag` is
not among the sources. -/
inductive DiagnosticBody where
  | ErrorDiagnostic (summary detail : String)
  | WarningDiagnostic (summary detail : String)
  | DiagIntoIncompatibleType (Val : TfValue) (TargetType : String) (Err : GoError)
  | DiagNewAttributeValueIntoWrongType (ValType TargetType SchemaType : String)
  deriving Repr

/-- Modelled from the spec: a diagnostic: a body, and the attribute path when
it was made by `withPath`. The rest of package `diag` is not among the sources.
-/
structure Diagnostic where
  body : DiagnosticBody
  path : Option Path
  deriving Repr

/-- Modelled from the spec: an ordered collection of diagnostics,
`diag.Diagnostics`. The rest of package `diag` is not among the sources. -/
abbrev Diagnostics := List Diagnostic

/-- Modelled from the spec: severity of a diagnostic; both conversion
diagnostics are errors. The rest of package `diag` is not among the sources. -/
def Diagnostic.Severity (d : Diagnostic) : Severity :=
  match d.body with
  | .WarningDiagnostic _ _ => .Warning
  | _ => .Error

/-- Modelled from the spec: summary of a diagnostic. The rest of package `diag`
is not among the sources. -/
def Diagnostic.Summary (d : Diagnostic) : String :=
  match d.body with
  | .ErrorDiagnostic s _ => s
  | .WarningDiagnostic s _ => s
  | .DiagIntoIncompatibleType _ _ _ => "Value Conversion Error"
  | .DiagNewAttributeValueIntoWrongType _ _ _ => "Value Conversion Error"

/-- Modelled from the spec: detail of a diagnostic; a conversion diagnostic
words its fields. The rest of package `diag` is not among the sources. -/
def Diagnostic.Detail (d : Diagnostic) : String :=
  match d.body with
  | .ErrorDiagnostic _ x => x
  | .WarningDiagnostic _ x => x
  | .DiagIntoIncompatibleType v t err =>
    "An unexpected error was encountered trying to convert " ++ v.render ++ " into " ++ t
      ++ ". This is always an error in the provider. Please report the following to the "
      ++ "provider developer:\n\n" ++ err.Error
  | .DiagNewAttributeValueIntoWrongType v t s =>
    "An unexpected error was encountered trying to convert into a Terraform value. This is "
      ++ "always an error in the provider. Please report the following to the provider "
      ++ "developer:\n\nCannot use attr.Value " ++ t ++ ", only " ++ v
      ++ " is supported because " ++ s ++ " is the type in the schema"

/-- Modelled from the spec: the constructor `diag.NewErrorDiagnostic`. The rest
of package `diag` is not among the sources. -/
def NewErrorDiagnostic (summary detail : String) : Diagnostic :=
  { body := .ErrorDiagnostic summary detail, path := none }

/-- Modelled from the spec: the constructor `diag.NewWarningDiagnostic`. The
rest of package `diag` is not among the sources. -/
def NewWarningDiagnostic (summary detail : String) : Diagnostic :=
  { body := .WarningDiagnostic summary detail, path := none }

/-- Modelled from the spec: the wrapper `withPath{Diagnostic: d, path: path}`,
also `diag.WithPath`. The rest of package `diag` is not among the sources. -/
def withPath (d : Diagnostic) (path : Path) : Diagnostic :=
  { body := d.body, path := some path }

/-- NewAttributeWarningDiagnostic returns a new warning severity diagnostic
with the given summary, detail, and path
(`diag/attribute_warning_diagnostic.go`). -/
def NewAttributeWarningDiagnostic (path : Path) (summary detail : String) : Diagnostic :=
  withPath (NewWarningDiagnostic summary detail) path

/-- Modelled from the spec: the constructor `diag.NewAttributeErrorDiagnostic`,
the error counterpart of `NewAttributeWarningDiagnostic`. The rest of package
`diag` is not among the sources. -/
def NewAttributeErrorDiagnostic (path : Path) (summary detail : String) : Diagnostic :=
  withPath (NewErrorDiagnostic summary detail) path

/-- Modelled from the spec: the query `diags.HasError()`: some element has
severity Error. The rest of package `diag` is not among the sources. -/
def Diagnostics.HasError (diags : Diagnostics) : Bool :=
  diags.any (fun d => d.Severity = .Error)

/-- Modelled from the spec: the method `diags.Append(in...)`: insertion order
is preserved. The rest of package `diag` is not among the sources. -/
def Diagnostics.Append (diags more : Diagnostics) : Diagnostics := diags ++ more

/-- Modelled from the spec: the method `diags.AddAttributeError(path, summary,
detail)`. The rest of package `diag` is not among the sources. -/
def Diagnostics.AddAttributeError (diags : Diagnostics) (path : Path)
    (summary detail : String) : Diagnostics :=
  diags.Append [NewAttributeErrorDiagnostic path summary detail]

/-- Modelled from the spec: the method `diags.AddAttributeWarning(path,
summary, detail)`. The rest of package `diag` is not among the sources. -/
def Diagnostics.AddAttributeWarning (diags : Diagnostics) (path : Path)
    (summary detail : String) : Diagnostics :=
  diags.Append [NewAttributeWarningDiagnostic path summary detail]

/-- Modelled from the spec: the method `diags.AddError(summary, detail)`. The
rest of package `diag` is not among the sources. -/
def Diagnostics.AddError (diags : Diagnostics) (summary detail : String) : Diagnostics :=
  diags.Append [NewErrorDiagnostic summary detail]

/-! ## Typed attribute values and attribute types -/

/-- Modelled from the spec: the typed values of `attr.Value`: the framework's
`types.String`, `types.Number`, `types.Bool`, `types.List`, `types.Set`,
`types.Map`, `types.Object`, and a provider-defined value that embeds one of
them under its own Go type (`testtypes.String` embeds a `types.String`).
Element types are kept as wire types. Packages `attr` and `types` are not among
the sources. -/
inductive AttrValue where
  | StringValue (Unknown Null : Bool) (Value : String)
  | NumberValue (Unknown Null : Bool) (Value : Int)
  | BoolValue (Unknown Null : Bool) (Value : Bool)
  | ListValue (Unknown Null : Bool) (Elems : List AttrValue) (ElemType : TfType)
  | SetValue (Unknown Null : Bool) (Elems : List AttrValue) (ElemType : TfType)
  | MapValue (Unknown Null : Bool) (Elems : List (String × AttrValue)) (ElemType : TfType)
  | ObjectValue (Unknown Null : Bool) (Attrs : List (String × AttrValue))
      (AttrTypes : List (String × TfType))
  | ProviderValue (goType schemaType : String) (inner : AttrValue)
  deriving Repr

/-- Modelled from the spec: the wire type a typed value renders to. Packages
`attr` and `types` are not among the sources. -/
def AttrValue.TerraformType : AttrValue → TfType
  | .StringValue _ _ _ => .string
  | .NumberValue _ _ _ => .number
  | .BoolValue _ _ _ => .bool
  | .ListValue _ _ _ t => .list t
  | .SetValue _ _ _ t => .set t
  | .MapValue _ _ _ t => .map t
  | .ObjectValue _ _ _ ts => .object ts
  | .ProviderValue _ _ inner => inner.TerraformType

/-- Modelled from the spec: the method `ToTerraformValue`: the dynamic value of
a typed value. The unknown flag is looked at before the null flag. Packages
`attr` and `types` are not among the sources. -/
def AttrValue.ToTerraformValue : AttrValue → TfValue
  | .StringValue u n v => if u then .unknown .string else if n then .NewNull .string else .string v
  | .NumberValue u n v => if u then .unknown .number else if n then .NewNull .number else .number v
  | .BoolValue u n v => if u then .unknown .bool else if n then .NewNull .bool else .bool v
  | .ListValue u n es t =>
    if u then .unknown (.list t) else if n then .NewNull (.list t) else .list t (elems es)
  | .SetValue u n es t =>
    if u then .unknown (.set t) else if n then .NewNull (.set t) else .set t (elems es)
  | .MapValue u n es t =>
    if u then .unknown (.map t) else if n then .NewNull (.map t) else .map t (entries es)
  | .ObjectValue u n as ts =>
    if u then .unknown (.object ts) else if n then .NewNull (.object ts)
    else .object ts (entries as)
  | .ProviderValue _ _ inner => inner.ToTerraformValue
where
  /-- Element-wise rendering. -/
  elems : List AttrValue → List TfValue
    | [] => []
    | v :: rest => v.ToTerraformValue :: elems rest
  /-- Entry-wise rendering. -/
  entries : List (String × AttrValue) → List (String × TfValue)
    | [] => []
    | (k, v) :: rest => (k, v.ToTerraformValue) :: entries rest

/-- Modelled from the spec: the concrete Go type of a typed value, what
`reflect.TypeOf` reports. Packages `attr` and `types` are not among the
sources. -/
def AttrValue.GoType : AttrValue → String
  | .StringValue _ _ _ => "types.String"
  | .NumberValue _ _ _ => "types.Number"
  | .BoolValue _ _ _ => "types.Bool"
  | .ListValue _ _ _ _ => "types.List"
  | .SetValue _ _ _ _ => "types.Set"
  | .MapValue _ _ _ _ => "types.Map"
  | .ObjectValue _ _ _ _ => "types.Object"
  | .ProviderValue g _ _ => g

/-- Modelled from the spec: the name of the schema type `val.Type(ctx)` of a
typed value. Packages `attr` and `types` are not among the sources. -/
def AttrValue.SchemaType : AttrValue → String
  | .StringValue _ _ _ => "types.StringType"
  | .NumberValue _ _ _ => "types.NumberType"
  | .BoolValue _ _ _ => "types.BoolType"
  | .ListValue _ _ _ t => "types.ListType[" ++ t.render ++ "]"
  | .SetValue _ _ _ t => "types.SetType[" ++ t.render ++ "]"
  | .MapValue _ _ _ t => "types.MapType[" ++ t.render ++ "]"
  | .ObjectValue _ _ _ ts => "types.ObjectType[" ++ TfType.render.renderFields ts ++ "]"
  | .ProviderValue _ s _ => s

/-- Modelled from the spec: an attribute type, `attr.Type`, as its capability
set: the Go type of the implementation, the wire type descriptor, the
constructor of typed values, and the optional validation hook of
`attr.TypeWithValidate`. Packages `attr` and `types` are not among the sources.
-/
structure AttrType where
  GoType : String
  TerraformType : TfType
  ValueFromTerraform : TfValue → Except GoError AttrValue
  Validate : Option (TfValue → Path → Diagnostics) := none

/-- Modelled from the spec: element-wise construction: the first failure aborts
the whole list. Packages `attr` and `types` are not among the sources. -/
def constructElems (f : TfValue → Except GoError AttrValue) :
    List TfValue → Except GoError (List AttrValue)
  | [] => .ok []
  | v :: rest =>
    match f v with
    | .error e => .error e
    | .ok a =>
      match constructElems f rest with
      | .error e => .error e
      | .ok as => .ok (a :: as)

/-- Modelled from the spec: entry-wise construction with one element type: the
first failure aborts. Packages `attr` and `types` are not among the sources. -/
def constructEntries (f : TfValue → Except GoError AttrValue) :
    List (String × TfValue) → Except GoError (List (String × AttrValue))
  | [] => .ok []
  | (k, v) :: rest =>
    match f v with
    | .error e => .error e
    | .ok a =>
      match constructEntries f rest with
      | .error e => .error e
      | .ok as => .ok ((k, a) :: as)

/-- Modelled from the spec: Field-wise construction of an object: each field is
built by the type declared under its name; the first failure aborts. Packages
`attr` and `types` are not among the sources. -/
def constructFields (types : List (String × AttrType)) :
    List (String × TfValue) → Except GoError (List (String × AttrValue))
  | [] => .ok []
  | (k, v) :: rest =>
    match lookup k types with
    | none => .error (.plain ("no attribute type declared for " ++ k))
    | some t =>
      match t.ValueFromTerraform v with
      | .error e => .error e
      | .ok a =>
        match constructFields types rest with
        | .error e => .error e
        | .ok as => .ok ((k, a) :: as)

/-- Modelled from the spec: the type-conversion error of a primitive type given
a payload of another kind: the Go target of the conversion and the payload it
expected. Packages `attr` and `types` are not among the sources. -/
def unmarshalError (v : TfValue) (target expected : String) : GoError :=
  .plain ("can't unmarshal " ++ (v.Type.map TfType.render).getD "" ++ " into " ++ target
    ++ ", expected " ++ expected)

/-- Modelled from the spec: the type-conversion error of a composite type given
a dynamic value of another shape. Packages `attr` and `types` are not among the
sources. -/
def shapeError (v : TfValue) (kind : String) (elem : AttrType) : GoError :=
  .plain ("can't use " ++ v.render ++ " as value of " ++ kind ++ " with ElementType "
    ++ elem.GoType ++ ", can only use " ++ elem.TerraformType.render ++ " values")

/-- Modelled from the spec: `types.StringType` (package `types` is not among
the sources). Spec 4.2: a typed value is constructed from a dynamic value and
construction fails when the primitive kind does not match. -/
def StringType : AttrType :=
  { GoType := "types.primitive"
    TerraformType := .string
    ValueFromTerraform := fun v =>
      match v with
      | .unknown _ => .ok (.StringValue true false "")
      | .null _ => .ok (.StringValue false true "")
      | .string s => .ok (.StringValue false false s)
      | other => .error (unmarshalError other "*string" "string") }

/-- Modelled from the spec: `types.NumberType`, see `StringType`. -/
def NumberType : AttrType :=
  { GoType := "types.primitive"
    TerraformType := .number
    ValueFromTerraform := fun v =>
      match v with
      | .unknown _ => .ok (.NumberValue true false 0)
      | .null _ => .ok (.NumberValue false true 0)
      | .number n => .ok (.NumberValue false false n)
      | other => .error (unmarshalError other "*big.Float" "*big.Float") }

/-- Modelled from the spec: `types.BoolType`, see `StringType`. -/
def BoolType : AttrType :=
  { GoType := "types.primitive"
    TerraformType := .bool
    ValueFromTerraform := fun v =>
      match v with
      | .unknown _ => .ok (.BoolValue true false false)
      | .null _ => .ok (.BoolValue false true false)
      | .bool b => .ok (.BoolValue false false b)
      | other => .error (unmarshalError other "*bool" "boolean") }

/-- Modelled from the spec: `types.ListType{ElemType}`. Spec 4.2: the dynamic
value must have the shape of the type's wire type, elements are constructed
element-wise and a nested failure aborts the enclosing value. The zero
dynamic value constructs the typed null. -/
def ListType (ElemType : AttrType) : AttrType :=
  { GoType := "types.ListType"
    TerraformType := .list ElemType.TerraformType
    ValueFromTerraform := fun v =>
      match v.Type with
      | none => .ok (.ListValue false true [] ElemType.TerraformType)
      | some t =>
        if t.Equal (.list ElemType.TerraformType) then
          match v with
          | .list _ elems =>
            match constructElems ElemType.ValueFromTerraform elems with
            | .ok es => .ok (.ListValue false false es ElemType.TerraformType)
            | .error e => .error e
          | .unknown _ => .ok (.ListValue true false [] ElemType.TerraformType)
          | _ => .ok (.ListValue false true [] ElemType.TerraformType)
        else .error (shapeError v "List" ElemType) }

/-- Modelled from the spec: `types.SetType{ElemType}`, see `ListType`. -/
def SetType (ElemType : AttrType) : AttrType :=
  { GoType := "types.SetType"
    TerraformType := .set ElemType.TerraformType
    ValueFromTerraform := fun v =>
      match v.Type with
      | none => .ok (.SetValue false true [] ElemType.TerraformType)
      | some t =>
        if t.Equal (.set ElemType.TerraformType) then
          match v with
          | .set _ elems =>
            match constructElems ElemType.ValueFromTerraform elems with
            | .ok es => .ok (.SetValue false false es ElemType.TerraformType)
            | .error e => .error e
          | .unknown _ => .ok (.SetValue true false [] ElemType.TerraformType)
          | _ => .ok (.SetValue false true [] ElemType.TerraformType)
        else .error (shapeError v "Set" ElemType) }

/-- Modelled from the spec: `types.MapType{ElemType}`, see `ListType`. -/
def MapType (ElemType : AttrType) : AttrType :=
  { GoType := "types.MapType"
    TerraformType := .map ElemType.TerraformType
    ValueFromTerraform := fun v =>
      match v.Type with
      | none => .ok (.MapValue false true [] ElemType.TerraformType)
      | some t =>
        if t.Equal (.map ElemType.TerraformType) then
          match v with
          | .map _ elems =>
            match constructEntries ElemType.ValueFromTerraform elems with
            | .ok es => .ok (.MapValue false false es ElemType.TerraformType)
            | .error e => .error e
          | .unknown _ => .ok (.MapValue true false [] ElemType.TerraformType)
          | _ => .ok (.MapValue false true [] ElemType.TerraformType)
        else .error (shapeError v "Map" ElemType) }

/-- Modelled from the spec: the wire types of a map of attribute types.
Packages `attr` and `types` are not among the sources. -/
def terraformTypes : List (String × AttrType) → List (String × TfType)
  | [] => []
  | (k, t) :: rest => (k, t.TerraformType) :: terraformTypes rest

/-- Modelled from the spec: `types.ObjectType{AttrTypes}`. Spec 4.2: fields
are constructed field-wise and a nested failure aborts the enclosing value. -/
def ObjectType (AttrTypes : List (String × AttrType)) : AttrType :=
  { GoType := "types.ObjectType"
    TerraformType := .object (terraformTypes AttrTypes)
    ValueFromTerraform := fun v =>
      match v.Type with
      | none => .ok (.ObjectValue false true [] (terraformTypes AttrTypes))
      | some t =>
        if t.Equal (.object (terraformTypes AttrTypes)) then
          match v with
          | .object _ attrs =>
            match constructFields AttrTypes attrs with
            | .ok as => .ok (.ObjectValue false false as (terraformTypes AttrTypes))
            | .error e => .error e
          | .unknown _ => .ok (.ObjectValue true false [] (terraformTypes AttrTypes))
          | _ => .ok (.ObjectValue false true [] (terraformTypes AttrTypes))
        else .error (.plain ("can't use " ++ v.render ++ " as value of Object, can only use "
          ++ (TfType.object (terraformTypes AttrTypes)).render ++ " values")) }

/-! ## Schema tree -/

/-- Modelled from the spec: the response of an attribute validation,
`tfsdk.ValidateAttributeResponse`: the diagnostics accumulated so far. Package
`tfsdk` has only tests among the sources. -/
structure ValidateAttributeResponse where
  Diagnostics : Diagnostics
  deriving Repr

/-- Modelled from the spec: a custom validator, `tfsdk.AttributeValidator`: its
`Validate` method reads the request (the attribute path, the typed value of the
attribute, the raw config) and rewrites the shared response. The schema of the
config is not handed to a validator here: a schema is made of attributes, which
hold the validators. Package `tfsdk` has only tests among the sources. -/
structure AttributeValidator where
  Validate : Path → Option AttrValue → TfValue →
    ValidateAttributeResponse → ValidateAttributeResponse

/-- Modelled from the spec: the nesting variants of nested attributes,
`tfsdk.NestingMode`. Package `tfsdk` has only tests among the sources. -/
inductive NestingMode where
  | NestingModeSingle
  | NestingModeList
  | NestingModeSet
  | NestingModeMap
  deriving DecidableEq, Repr

mutual
/-- Modelled from the spec: an attribute definition, `tfsdk.Attribute`: an
optional type, optional nested attributes, the presence flags, the deprecation
notice (empty when there is none) and the validators in declared order. Package
`tfsdk` has only tests among the sources. -/
inductive Attribute where
  | mk (typ : Option AttrType) (Attributes : Option NestedAttributes)
      (Required Optional Computed : Bool) (DeprecationMessage : String)
      (Validators : List AttributeValidator)
/-- Modelled from the spec: Nested attributes, `tfsdk.NestedAttributes`: a
nesting variant around an inner map of attributes. Package `tfsdk` has only
tests among the sources. -/
inductive NestedAttributes where
  | mk (NestingMode : NestingMode) (Attributes : List (String × Attribute))
end

/-- Modelled from the spec: field `Type` of an attribute. Package `tfsdk` has
only tests among the sources. -/
def Attribute.Type : Attribute → Option AttrType
  | .mk t _ _ _ _ _ _ => t

/-- Modelled from the spec: field `Attributes` of an attribute. Package `tfsdk`
has only tests among the sources. -/
def Attribute.Attributes : Attribute → Option NestedAttributes
  | .mk _ n _ _ _ _ _ => n

/-- Modelled from the spec: field `Required` of an attribute. Package `tfsdk`
has only tests among the sources. -/
def Attribute.Required : Attribute → Bool
  | .mk _ _ r _ _ _ _ => r

/-- Modelled from the spec: field `Optional` of an attribute. Package `tfsdk`
has only tests among the sources. -/
def Attribute.Optional : Attribute → Bool
  | .mk _ _ _ o _ _ _ => o

/-- Modelled from the spec: field `Computed` of an attribute. Package `tfsdk`
has only tests among the sources. -/
def Attribute.Computed : Attribute → Bool
  | .mk _ _ _ _ c _ _ => c

/-- Modelled from the spec: field `DeprecationMessage` of an attribute. Package
`tfsdk` has only tests among the sources. -/
def Attribute.DeprecationMessage : Attribute → String
  | .mk _ _ _ _ _ d _ => d

/-- Modelled from the spec: field `Validators` of an attribute. Package `tfsdk`
has only tests among the sources. -/
def Attribute.Validators : Attribute → List AttributeValidator
  | .mk _ _ _ _ _ _ vs => vs

/-- Modelled from the spec: the method `GetNestingMode` of nested attributes.
Package `tfsdk` has only tests among the sources. -/
def NestedAttributes.GetNestingMode : NestedAttributes → NestingMode
  | .mk m _ => m

/-- Modelled from the spec: the method `GetAttributes` of nested attributes.
Package `tfsdk` has only tests among the sources. -/
def NestedAttributes.GetAttributes : NestedAttributes → List (String × Attribute)
  | .mk _ as => as

/-- Modelled from the spec: the constructor `tfsdk.SingleNestedAttributes`.
Package `tfsdk` has only tests among the sources. -/
def SingleNestedAttributes (attrs : List (String × Attribute)) : NestedAttributes :=
  .mk .NestingModeSingle attrs

/-- Modelled from the spec: the constructor `tfsdk.ListNestedAttributes`.
Package `tfsdk` has only tests among the sources. -/
def ListNestedAttributes (attrs : List (String × Attribute)) : NestedAttributes :=
  .mk .NestingModeList attrs

/-- Modelled from the spec: the constructor `tfsdk.SetNestedAttributes`.
Package `tfsdk` has only tests among the sources. -/
def SetNestedAttributes (attrs : List (String × Attribute)) : NestedAttributes :=
  .mk .NestingModeSet attrs

/-- Modelled from the spec: the constructor `tfsdk.MapNestedAttributes`.
Package `tfsdk` has only tests among the sources. -/
def MapNestedAttributes (attrs : List (String × Attribute)) : NestedAttributes :=
  .mk .NestingModeMap attrs

/-- Modelled from the spec: the type of an attribute that declares neither
`Type` nor `Attributes`: it constructs nothing. Package `tfsdk` has only tests
among the sources. -/
def missingType : AttrType :=
  { GoType := "nil"
    TerraformType := .object []
    ValueFromTerraform := fun _ => .error (.plain "attribute declares no type") }

mutual
/-- Modelled from the spec: the attribute type an attribute resolves to: the
type of its nested attributes when it has them, its declared type otherwise.
Package `tfsdk` has only tests among the sources. -/
def Attribute.attributeType : Attribute → AttrType
  | .mk _ (some n) _ _ _ _ _ => n.AttributeType
  | .mk (some t) none _ _ _ _ _ => t
  | .mk none none _ _ _ _ _ => missingType
/-- Modelled from the spec: the attribute type of nested attributes (spec 3):
Single is one object-shaped instance, List, Set and Map are collections of
object-shaped instances. Package `tfsdk` has only tests among the sources. -/
def NestedAttributes.AttributeType : NestedAttributes → AttrType
  | .mk .NestingModeSingle as => ObjectType (attributeTypes as)
  | .mk .NestingModeList as => ListType (ObjectType (attributeTypes as))
  | .mk .NestingModeSet as => SetType (ObjectType (attributeTypes as))
  | .mk .NestingModeMap as => MapType (ObjectType (attributeTypes as))
/-- Modelled from the spec: the attribute types of a map of attributes. Package
`tfsdk` has only tests among the sources. -/
def attributeTypes : List (String × Attribute) → List (String × AttrType)
  | [] => []
  | (k, a) :: rest => (k, a.attributeType) :: attributeTypes rest
end

/-- Modelled from the spec: a schema, `tfsdk.Schema`: a map from attribute name
to attribute, and a version. Package `tfsdk` has only tests among the sources.
-/
structure Schema where
  Attributes : List (String × Attribute)
  Version : Int := 0

/-- Modelled from the spec: the attribute type of a whole schema: the object of
its attributes. Package `tfsdk` has only tests among the sources. -/
def Schema.AttributeType (s : Schema) : AttrType := ObjectType (attributeTypes s.Attributes)

/-- Modelled from the spec: the wire type of a schema, `Schema.TerraformType`.
Package `tfsdk` has only tests among the sources. -/
def Schema.TerraformType (s : Schema) : TfType := s.AttributeType.TerraformType

/-- Modelled from the spec: a configuration, `tfsdk.Config`: a raw dynamic
value and its schema. Package `tfsdk` has only tests among the sources. -/
structure Config where
  Raw : TfValue
  Schema : Schema

/-- Modelled from the spec: the request of an attribute validation,
`tfsdk.ValidateAttributeRequest`. Package `tfsdk` has only tests among the
sources. -/
structure ValidateAttributeRequest where
  AttributePath : Path
  AttributeConfig : Option AttrValue := none
  Config : Config

/-! ## The validation engine -/

/-- A call made while an attribute is validated. The log of calls is kept
beside the response so that what did and did not run can be stated. -/
inductive Event where
  | ReadConfig (path : Path)
  | TypeValidate (path : Path) (raw : TfValue)
  | ValueFromTerraform (path : Path) (raw : TfValue)
  | Validator (path : Path) (index : Nat) (seen : Diagnostics)
  | Nested (path : Path)
  deriving Repr

/-- The state threaded through a validation: the shared response and the log
of calls made so far, oldest first. -/
structure ValidateState where
  resp : ValidateAttributeResponse
  events : List Event
  deriving Repr

/-- A fresh response and an empty log. -/
def ValidateState.fresh : ValidateState := { resp := { Diagnostics := [] }, events := [] }

/-- The diagnostics of the response held by a state. -/
def ValidateState.Diagnostics (st : ValidateState) : Diagnostics := st.resp.Diagnostics

/-- Appends diagnostics to the response of a state. -/
def ValidateState.append (st : ValidateState) (ds : Fw.Diagnostics) : ValidateState :=
  { st with resp := { Diagnostics := st.resp.Diagnostics.Append ds } }

/-- Logs one call. -/
def ValidateState.log (st : ValidateState) (e : Event) : ValidateState :=
  { st with events := st.events ++ [e] }

/-- Modelled from the spec: the sentence that ends the detail of every
structural defect. `internal/fwserver/attribute_validation.go` is not among the
sources. -/
def defectTail : String :=
  ". This is always a problem with the provider and should be reported to the provider developer."

/-- Modelled from the spec: the three structural checks of spec 4.3, in order:
the detail of the first invariant that the attribute violates, if any.
`internal/fwserver/attribute_validation.go` is not among the sources. -/
def structuralDefect (a : Attribute) : Option String :=
  if a.Attributes.isNone && a.Type.isNone then
    some ("Attribute must define either Attributes or Type" ++ defectTail)
  else if a.Attributes.isSome && a.Type.isSome then
    some ("Attribute cannot define both Attributes and Type" ++ defectTail)
  else if !a.Required && !a.Optional && !a.Computed then
    some ("Attribute missing Required, Optional, or Computed definition" ++ defectTail)
  else none

/-- Modelled from the spec: step 2 of spec 4.4: the dynamic value at the path
in the raw config; a step that cannot be taken yields a null value of the
attribute's type. `internal/fwserver/attribute_validation.go` is not among the
sources. -/
def ConfigTerraformValueAtPath (raw : TfValue) (t : AttrType) (path : Path) : TfValue :=
  match WalkAttributePath raw path with
  | .ok v => v
  | .error _ => TfValue.NewNull t.TerraformType

/-- Modelled from the spec: the lead of the detail of a "Configuration Read
Error". `internal/fwserver/attribute_validation.go` is not among the sources.
-/
def configReadErrorLead : String :=
  "An unexpected error was encountered trying to read an attribute from the configuration. "
    ++ "This is always an error in the provider. Please report the following to the provider "
    ++ "developer:\n\n"

/-- Modelled from the spec: steps 2 to 4 of spec 4.4, the read of the
attribute's value from the config: walk to the dynamic value, run the type's
validation hook when there is one and stop on an error of it, then construct
the typed value; a construction failure is one "Configuration Read Error" at
the path. The typed value is returned when all of this went through.
`internal/fwserver/attribute_validation.go` is not among the sources. -/
def ConfigGetAttributeValue (t : AttrType) (raw : TfValue) (path : Path)
    (st : ValidateState) : Option AttrValue × ValidateState :=
  let tfValue := ConfigTerraformValueAtPath raw t path
  let st := st.log (.ReadConfig path)
  let hooked : Diagnostics × ValidateState :=
    match t.Validate with
    | some hook => (hook tfValue path, (st.log (.TypeValidate path tfValue)).append (hook tfValue path))
    | none => ([], st)
  if hooked.1.HasError then (none, hooked.2)
  else
    match t.ValueFromTerraform tfValue with
    | .error err =>
      (none, (hooked.2.log (.ValueFromTerraform path tfValue)).append
        [NewAttributeErrorDiagnostic path "Configuration Read Error"
          (configReadErrorLead ++ err.Error)])
    | .ok v => (some v, hooked.2.log (.ValueFromTerraform path tfValue))

/-- Modelled from the spec: step 5 of spec 4.4: the deprecation warning of an
attribute that carries a deprecation message, for a value that is not null. An
unknown value is not null and warns (the parenthesis of step 5, property 4 of
spec 8 and the test case `deprecation-message-unknown`).
`internal/fwserver/attribute_validation.go` is not among the sources. -/
def deprecationWarning (a : Attribute) (path : Path) (v : AttrValue) : Diagnostics :=
  if a.DeprecationMessage ≠ "" ∧ !v.ToTerraformValue.IsNull then
    [NewAttributeWarningDiagnostic path "Attribute Deprecated" a.DeprecationMessage]
  else []

/-- Modelled from the spec: step 6 of spec 4.4: the validators in declared
order, all on the same request and on the one shared response; `index` is the
position of the first of them in the declared list.
`internal/fwserver/attribute_validation.go` is not among the sources. -/
def runValidators (path : Path) (v : Option AttrValue) (raw : TfValue) :
    List AttributeValidator → Nat → ValidateState → ValidateState
  | [], _, st => st
  | validator :: rest, index, st =>
    runValidators path v raw rest (index + 1)
      { resp := validator.Validate path v raw st.resp
        events := st.events ++ [.Validator path index st.resp.Diagnostics] }

/-- Modelled from the spec: the instances of a nested attribute that are
present in its typed value, each as the element-key steps that lead to it: none
for the one instance of a known Single object, the index for List, the key for
Map, the element's dynamic value for Set. Null and unknown values have no
instance. `internal/fwserver/attribute_validation.go` is not among the sources.
-/
def presentInstances (mode : NestingMode) (v : AttrValue) : List (List PathStep) :=
  match mode, v with
  | .NestingModeSingle, .ObjectValue false false _ _ => [[]]
  | .NestingModeList, .ListValue false false elems _ =>
    (List.range elems.length).map (fun idx => [.ElementKeyInt (Int.ofNat idx)])
  | .NestingModeMap, .MapValue false false elems _ =>
    elems.map (fun kv => [.ElementKeyString kv.1])
  | .NestingModeSet, .SetValue false false elems _ =>
    elems.map (fun e => [.ElementKeyValue e.ToTerraformValue])
  | _, _ => []

mutual
/-- Modelled from the spec: `AttributeValidate` of `internal/fwserver`
(`attribute_validation.go` is not among the sources; its test is). It follows
the algorithm of spec 4.4 step by step: the structural checks of 4.3, the read
of the value (steps 2 to 4), the deprecation warning (5), the validators (6)
and the nested attributes (7). Diagnostics are appended to the shared
response. -/
def AttributeValidate (a : Attribute) (req : ValidateAttributeRequest)
    (st : ValidateState) : ValidateState :=
  match structuralDefect a with
  | some detail =>
    st.append [NewAttributeErrorDiagnostic req.AttributePath "Invalid Attribute Definition" detail]
  | none =>
    match ConfigGetAttributeValue a.attributeType req.Config.Raw req.AttributePath st with
    | (none, st1) => st1
    | (some v, st1) =>
      let st2 := st1.append (deprecationWarning a req.AttributePath v)
      let st3 := runValidators req.AttributePath (some v) req.Config.Raw a.Validators 0 st2
      match a with
      | .mk _ none _ _ _ _ _ => st3
      | .mk _ (some (.mk mode children)) _ _ _ _ _ =>
        (presentInstances mode v).foldl
          (fun acc key => validateChildren children req key acc) st3
/-- Modelled from the spec: step 7, over the child attributes of one instance:
the child path is the path of the nested attribute, the element-key steps of
the instance and the name of the child.
`internal/fwserver/attribute_validation.go` is not among the sources. -/
def validateChildren (children : List (String × Attribute)) (req : ValidateAttributeRequest)
    (key : List PathStep) : ValidateState → ValidateState :=
  match children with
  | [] => fun st => st
  | (name, child) :: rest => fun st =>
    let childPath := Path.WithAttributeName (req.AttributePath ++ key) name
    validateChildren rest req key
      (AttributeValidate child { AttributePath := childPath, Config := req.Config }
        (st.log (.Nested childPath)))
end

/-- Step 7 of spec 4.4 on its own: the nested attributes of an attribute
validated for the typed value `v`, instance by instance. -/
def validateNestedAttributes (a : Attribute) (req : ValidateAttributeRequest) (v : AttrValue)
    (st : ValidateState) : ValidateState :=
  match a.Attributes with
  | none => st
  | some n =>
    (presentInstances n.GetNestingMode v).foldl
      (fun acc key => validateChildren n.GetAttributes req key acc) st

/-- The diagnostics of the type's validation hook on the dynamic value at the
path; none when the type has no hook. -/
def hookDiagnostics (t : AttrType) (tfValue : TfValue) (path : Path) : Diagnostics :=
  match t.Validate with
  | some hook => hook tfValue path
  | none => []

/-- The call of the type's validation hook, as logged; nothing when the type
has no hook. -/
def hookEvents (t : AttrType) (tfValue : TfValue) (path : Path) : List Event :=
  match t.Validate with
  | some _ => [.TypeValidate path tfValue]
  | none => []

/-- The path an event was logged for. -/
def Event.path : Event → Path
  | .ReadConfig p => p
  | .TypeValidate p _ => p
  | .ValueFromTerraform p _ => p
  | .Validator p _ _ => p
  | .Nested p => p

/-! ## The conversion engine -/

/-- The Go type `int64` holds the integers from `-2^63` to `2^63 - 1`. -/
def fitsInt64 (n : Int) : Bool := decide (-(2 ^ 63 : Int) ≤ n) && decide (n < (2 ^ 63 : Int))

/-- Modelled from the spec: the target handed to `ValueAs`, with what it points
at: the generic `attr.Value` placeholder, a Go string, a Go `int64`, a Go bool,
or a concrete typed value (a target that implements the typed-value
capability). `tfsdk/value_as.go` and `internal/reflect` are not among the
sources. -/
inductive Target where
  | Generic (v : Option AttrValue)
  | GoString (s : String)
  | GoInt64 (n : Int)
  | GoBool (b : Bool)
  | Typed (v : AttrValue)
  deriving Repr

/-- Modelled from the spec: the Go type of what a target points at.
`tfsdk/value_as.go` and `internal/reflect` are not among the sources. -/
def Target.GoType : Target → String
  | .Generic _ => "attr.Value"
  | .GoString _ => "string"
  | .GoInt64 _ => "int64"
  | .GoBool _ => "bool"
  | .Typed v => v.GoType

/-- Modelled from the spec: the diagnostic of a source that the target cannot
represent: an IncompatibleType diagnostic at the root path, naming the dynamic
value and the target's type. `tfsdk/value_as.go` and `internal/reflect` are not
among the sources. -/
def incompatibleType (raw : TfValue) (dest : Target) (target expected : String) : Diagnostic :=
  withPath
    { body := .DiagIntoIncompatibleType raw dest.GoType
        (match raw with
         | .unknown _ => .plain "unhandled unknown value"
         | .null _ => .plain "unhandled null value"
         | _ => unmarshalError raw target expected)
      path := none }
    Path.New

/-- Modelled from the spec: `tfsdk.ValueAs` (`value_as.go` is not among the
sources; its test is). Spec 4.5: a generic target is assigned the source and
nothing can fail; a target that implements the typed-value capability takes a
source of its own concrete type and otherwise gets a WrongType diagnostic
naming both concrete types and the schema type; a primitive target takes a
source whose dynamic value it can represent and otherwise gets an
IncompatibleType diagnostic naming the dynamic value and the target's type.
Failure diagnostics carry the root path and leave the target as it was. -/
def ValueAs (val : AttrValue) (target : Target) : Target × Diagnostics :=
  match target with
  | .Generic _ => (.Generic (some val), [])
  | .Typed t =>
    if val.GoType = t.GoType then (.Typed val, [])
    else (target, [withPath
      { body := .DiagNewAttributeValueIntoWrongType val.GoType t.GoType val.SchemaType
        path := none } Path.New])
  | .GoString _ =>
    match val.ToTerraformValue with
    | .string s => (.GoString s, [])
    | raw => (target, [incompatibleType raw target "*string" "string"])
  | .GoInt64 _ =>
    match val.ToTerraformValue with
    | .number n =>
      if fitsInt64 n then (.GoInt64 n, [])
      else (target, [incompatibleType (.number n) target "int64" "a number that fits"])
    | raw => (target, [incompatibleType raw target "*big.Float" "*big.Float"])
  | .GoBool _ =>
    match val.ToTerraformValue with
    | .bool b => (.GoBool b, [])
    | raw => (target, [incompatibleType raw target "*bool" "boolean"])

/-! ## Fixtures of the test suites -/

/-- The variable `testErrorDiagnostic1` of `attribute_validation_test.go`. -/
def testErrorDiagnostic1 : Diagnostic :=
  NewErrorDiagnostic "Error Diagnostic 1" "This is an error."

/-- The variable `testErrorDiagnostic2` of `attribute_validation_test.go`. -/
def testErrorDiagnostic2 : Diagnostic :=
  NewErrorDiagnostic "Error Diagnostic 2" "This is an error."

/-- The variable `testWarningDiagnostic1` of `attribute_validation_test.go`. -/
def testWarningDiagnostic1 : Diagnostic :=
  NewWarningDiagnostic "Warning Diagnostic 1" "This is a warning."

/-- The variable `testWarningDiagnostic2` of `attribute_validation_test.go`. -/
def testWarningDiagnostic2 : Diagnostic :=
  NewWarningDiagnostic "Warning Diagnostic 2" "This is a warning."

/-- The validator `testErrorAttributeValidator` of
`attribute_validation_test.go`: it appends the first error to an empty response
and the second error otherwise. -/
def testErrorAttributeValidator : AttributeValidator :=
  { Validate := fun _ _ _ resp =>
      if resp.Diagnostics.length = 0 then
        { Diagnostics := resp.Diagnostics.Append [testErrorDiagnostic1] }
      else
        { Diagnostics := resp.Diagnostics.Append [testErrorDiagnostic2] } }

/-- The validator `testWarningAttributeValidator` of
`attribute_validation_test.go`: it appends the first warning to an empty
response and the second warning otherwise. -/
def testWarningAttributeValidator : AttributeValidator :=
  { Validate := fun _ _ _ resp =>
      if resp.Diagnostics.length = 0 then
        { Diagnostics := resp.Diagnostics.Append [testWarningDiagnostic1] }
      else
        { Diagnostics := resp.Diagnostics.Append [testWarningDiagnostic2] } }

/-- Modelled from the spec: `testtypes.TestErrorDiagnostic` (its file is not
among the sources): an error diagnostic at the given path. -/
def TestErrorDiagnostic (path : Path) : Diagnostic :=
  NewAttributeErrorDiagnostic path "Error Diagnostic" "This is an error."

/-- Modelled from the spec: `testtypes.TestWarningDiagnostic` (its file is not
among the sources): a warning diagnostic at the given path. -/
def TestWarningDiagnostic (path : Path) : Diagnostic :=
  NewAttributeWarningDiagnostic path "Warning Diagnostic" "This is a warning."

/-- The method `ValueFromTerraform` shared by the provider-defined test types:
the framework type constructs the value, which is then held in the provider's
own value type, with the creating type recorded. -/
def providerValueFromTerraform (base : AttrType) (goType createdBy : String) (v : TfValue) :
    Except GoError AttrValue :=
  match base.ValueFromTerraform v with
  | .error err => .error err
  | .ok res => .ok (.ProviderValue goType createdBy res)

/-- The type `NumberTypeWithValidateError` of `numberwithvalidate.go`: a number
type whose hook reports one error at the path. -/
def NumberTypeWithValidateError : AttrType :=
  { GoType := "testtypes.NumberTypeWithValidateError"
    TerraformType := .number
    ValueFromTerraform :=
      providerValueFromTerraform NumberType "testtypes.Number" "testtypes.NumberTypeWithValidateError"
    Validate := some (fun _ path => [TestErrorDiagnostic path]) }

/-- The type `NumberTypeWithValidateWarning` of `numberwithvalidate.go`: a
number type whose hook reports one warning at the path. -/
def NumberTypeWithValidateWarning : AttrType :=
  { GoType := "testtypes.NumberTypeWithValidateWarning"
    TerraformType := .number
    ValueFromTerraform :=
      providerValueFromTerraform NumberType "testtypes.Number"
        "testtypes.NumberTypeWithValidateWarning"
    Validate := some (fun _ path => [TestWarningDiagnostic path]) }

/-- The type `testtypes.StringTypeWithValidateError` used by the validation
tests, the string counterpart of `NumberTypeWithValidateError`. -/
def StringTypeWithValidateError : AttrType :=
  { GoType := "testtypes.StringTypeWithValidateError"
    TerraformType := .string
    ValueFromTerraform :=
      providerValueFromTerraform StringType "testtypes.String" "testtypes.StringTypeWithValidateError"
    Validate := some (fun _ path => [TestErrorDiagnostic path]) }

/-- The type `testtypes.StringTypeWithValidateWarning` used by the validation
tests, the string counterpart of `NumberTypeWithValidateWarning`. -/
def StringTypeWithValidateWarning : AttrType :=
  { GoType := "testtypes.StringTypeWithValidateWarning"
    TerraformType := .string
    ValueFromTerraform :=
      providerValueFromTerraform StringType "testtypes.String"
        "testtypes.StringTypeWithValidateWarning"
    Validate := some (fun _ path => [TestWarningDiagnostic path]) }

/-- The path `tftypes.NewAttributePath().WithAttributeName("test")` of every
case of `TestAttributeValidate`. -/
def testPath : Path := Path.New.WithAttributeName "test"

/-- The request of a case of `TestAttributeValidate`: the raw config is an
object whose one attribute `test` has the given wire type and value, and the
schema declares the one attribute `test`. -/
def testRequest (a : Attribute) (t : TfType) (v : TfValue) : ValidateAttributeRequest :=
  { AttributePath := testPath
    Config := { Raw := .object [("test", t)] [("test", v)]
                Schema := { Attributes := [("test", a)] } } }

/-- The wire type of the nested object of the nested-attribute cases. -/
def nestedObjectType : TfType := .object [("nested_attr", .string)]

/-- The nested object of the nested-attribute cases. -/
def nestedObjectValue : TfValue :=
  .object [("nested_attr", .string)] [("nested_attr", .string "testvalue")]

/-- The outer attribute of the cases `nested-attr-*-validation`: required,
with one nested required string attribute `nested_attr` that carries
`testErrorAttributeValidator`. -/
def nestedValidationAttribute (mode : NestingMode) : Attribute :=
  .mk none
    (some (.mk mode
      [("nested_attr", .mk (some StringType) none true false false ""
        [testErrorAttributeValidator])]))
    true false false "" []

/-- The outer attribute of the cases `nested-attr-*-no-validation`: as
`nestedValidationAttribute`, without the validator. -/
def nestedPlainAttribute (mode : NestingMode) : Attribute :=
  .mk none
    (some (.mk mode [("nested_attr", .mk (some StringType) none true false false "" [])]))
    true false false "" []

/-- The attribute of the case `both-attributes-and-type`. -/
def bothAttribute : Attribute :=
  .mk (some StringType)
    (some (SingleNestedAttributes [("testing", .mk (some StringType) none false true false "" [])]))
    true false false "" []

/-- The attribute of the cases `deprecation-message-*`: an optional string
with a deprecation message. -/
def deprecatedAttribute : Attribute :=
  .mk (some StringType) none false true false "Use something else instead." []

/-- A deprecated optional list of strings: the attribute of the case
`config-error` with the deprecation message of the `deprecation-message-*`
cases. -/
def deprecatedListAttribute : Attribute :=
  .mk (some (ListType StringType)) none false true false "Use something else instead." []

/-- A deprecated optional single nested attribute whose one nested attribute
is the deprecated string of the `deprecation-message-*` cases. -/
def deprecatedNestedAttribute : Attribute :=
  .mk none (some (SingleNestedAttributes [("nested_attr", deprecatedAttribute)]))
    false true false "Use another block instead." []

/-- The deprecated string of the `deprecation-message-*` cases with one
validator, `testWarningAttributeValidator`. -/
def deprecatedValidatedAttribute : Attribute :=
  .mk (some StringType) none false true false "Use something else instead."
    [testWarningAttributeValidator]

/-- A required attribute of the type `NumberTypeWithValidateWarning`. -/
def numberWithWarningAttribute : Attribute :=
  .mk (some NumberTypeWithValidateWarning) none true false false "" []

/-- A required attribute of the type `NumberTypeWithValidateError`. -/
def numberWithErrorAttribute : Attribute :=
  .mk (some NumberTypeWithValidateError) none true false false "" []

/-- A required string of the type `StringTypeWithValidateWarning` with the two
validators of the case `errors`. -/
def warnedValidatedAttribute : Attribute :=
  .mk (some StringTypeWithValidateWarning) none true false false ""
    [testErrorAttributeValidator, testErrorAttributeValidator]

/-- The response after the validators of a list have run, in order, each on
the response the one before it left. -/
def validatorsResponse (path : Path) (v : Option AttrValue) (raw : TfValue)
    (vs : List AttributeValidator) (resp : ValidateAttributeResponse) :
    ValidateAttributeResponse :=
  vs.foldl (fun r validator => validator.Validate path v raw r) resp

/-- The nested phase of an attribute only appends to the log, and only calls
made for paths longer than the attribute's own. -/
def NestedDeeper (a : Attribute) (req : ValidateAttributeRequest) : Prop :=
  ∀ (v : AttrValue) (st : ValidateState), ∃ evs,
    (validateNestedAttributes a req v st).events = st.events ++ evs ∧
    ∀ e ∈ evs, req.AttributePath.length < e.path.length

/-- The state in which the validators of a structurally valid attribute start,
when its value was read as `v`: the response holds what it held before, the
diagnostics of the type's hook and the deprecation warning; the log holds the
calls of the read. -/
def stateBeforeValidators (a : Attribute) (req : ValidateAttributeRequest) (st : ValidateState)
    (v : AttrValue) : ValidateState :=
  { resp :=
      { Diagnostics := st.Diagnostics ++
          hookDiagnostics a.attributeType
            (ConfigTerraformValueAtPath req.Config.Raw a.attributeType req.AttributePath)
            req.AttributePath ++
          deprecationWarning a req.AttributePath v }
    events := st.events ++ [.ReadConfig req.AttributePath] ++
      hookEvents a.attributeType
        (ConfigTerraformValueAtPath req.Config.Raw a.attributeType req.AttributePath)
        req.AttributePath ++
      [.ValueFromTerraform req.AttributePath
        (ConfigTerraformValueAtPath req.Config.Raw a.attributeType req.AttributePath)] }

/-- A nested attribute as in the cases `nested-attr-*-validation`, for any
nesting kind, field name, field type and validator: the outer attribute has
the given presence flags, no deprecation message and no validators, and nests
one required field of type `t` that carries the one validator `w`. -/
def nestedAttributeWith (mode : NestingMode) (name : String) (t : AttrType)
    (w : AttributeValidator) (r o c : Bool) : Attribute :=
  .mk none (some (.mk mode [(name, .mk (some t) none true false false "" [w])])) r o c "" []

/-- The typed value of the nested object of the nested-attribute cases. -/
def nestedObjectAttrValue : AttrValue :=
  .ObjectValue false false [("nested_attr", .StringValue false false "testvalue")]
    [("nested_attr", .string)]

/-- The dynamic value that step 2 reads for an attribute: the value at the
request's path in the raw config, for the attribute's type. -/
def attributeTerraformValue (a : Attribute) (req : ValidateAttributeRequest) : TfValue :=
  ConfigTerraformValueAtPath req.Config.Raw a.attributeType req.AttributePath

/-! ## Calls made by the protocol conversions and by the state read -/

/-- A dynamic value of the wire protocol, `tfprotov6.DynamicValue`: the encoded
bytes in either encoding. -/
structure DynamicValue where
  MsgPack : List Nat
  JSON : List Nat
  deriving DecidableEq, Repr

/-- The method `DynamicValue.Unmarshal(typ)` of `tfprotov6`, a dependency that
is not among the sources: any decoder of a dynamic value against a wire type
descriptor. The conversions take it as a parameter. -/
abbrev Unmarshaler := DynamicValue → TfType → Except GoError TfValue

/-- A call made by a protocol conversion or by a state read to one of its
collaborators. The log of calls is kept beside the returned values so that what
did and did not run can be stated. -/
inductive Call where
  | Unmarshal (value : DynamicValue) (typ : TfType)
  | AttributeTypeAtPath (path : Path)
  | WalkAttributePath (raw : TfValue) (path : Path)
  | TypeValidate (raw : TfValue) (path : Path)
  | ValueFromTerraform (raw : TfValue)
  deriving Repr

/-- What a Go function with the results `(value, diag.Diagnostics)` returns,
with the log of the calls it made, oldest first. -/
structure Returned (α : Type) where
  value : α
  diags : Diagnostics
  calls : List Call

/-! ## Protocol containers (`internal/fromproto6`) -/

/-- Modelled from the spec: a plan, `tfsdk.Plan`: a raw dynamic value and its
schema. Package `tfsdk` has only tests among the sources. -/
structure Plan where
  Raw : TfValue
  Schema : Schema

/-- Modelled from the spec: a state, `tfsdk.State`: a raw dynamic value and its
schema. Package `tfsdk` has only tests among the sources. -/
structure State where
  Raw : TfValue
  Schema : Schema

/-- The lead of the detail of the diagnostics of a conversion from the protocol
type: `what` is "plan", "state" or "provider meta configuration". -/
def convertErrorLead (what : String) : String :=
  "An unexpected error was encountered when converting the " ++ what
    ++ " from the protocol type. "
    ++ "This is always an issue in the Terraform Provider SDK used to implement the provider "
    ++ "and should be reported to the provider developers.\n\n"
    ++ "Please report this to the provider developer:\n\n"

/-- Plan returns the `*tfsdk.Plan` for a `*tfprotov6.DynamicValue` and
`*tfsdk.Schema` (`internal/fromproto6/plan.go`). A nil pointer is `none`. -/
def fromproto6.Plan (unmarshal : Unmarshaler) (proto6DynamicValue : Option DynamicValue)
    (schema : Option Schema) : Returned (Option Fw.Plan) :=
  match proto6DynamicValue with
  | none => { value := none, diags := [], calls := [] }
  | some dv =>
    match schema with
    | none =>
      { value := none
        diags := Diagnostics.AddError [] "Unable to Convert Plan"
          (convertErrorLead "plan" ++ "Missing schema.")
        calls := [] }
    | some sch =>
      match unmarshal dv sch.TerraformType with
      | .error err =>
        { value := none
          diags := Diagnostics.AddError [] "Unable to Convert Plan"
            (convertErrorLead "plan" ++ err.Error)
          calls := [.Unmarshal dv sch.TerraformType] }
      | .ok proto6Value =>
        { value := some { Raw := proto6Value, Schema := sch }
          diags := []
          calls := [.Unmarshal dv sch.TerraformType] }

/-- State returns the `*tfsdk.State` for a `*tfprotov6.DynamicValue` and
`*tfsdk.Schema` (`internal/fromproto6/state.go`). A nil pointer is `none`. -/
def fromproto6.State (unmarshal : Unmarshaler) (proto6DynamicValue : Option DynamicValue)
    (schema : Option Schema) : Returned (Option Fw.State) :=
  match proto6DynamicValue with
  | none => { value := none, diags := [], calls := [] }
  | some dv =>
    match schema with
    | none =>
      { value := none
        diags := Diagnostics.AddError [] "Unable to Convert State"
          (convertErrorLead "state" ++ "Missing schema.")
        calls := [] }
    | some sch =>
      match unmarshal dv sch.TerraformType with
      | .error err =>
        { value := none
          diags := Diagnostics.AddError [] "Unable to Convert State"
            (convertErrorLead "state" ++ err.Error)
          calls := [.Unmarshal dv sch.TerraformType] }
      | .ok proto6Value =>
        { value := some { Raw := proto6Value, Schema := sch }
          diags := []
          calls := [.Unmarshal dv sch.TerraformType] }

/-- ProviderMeta returns the `*tfsdk.Config` for a `*tfprotov6.DynamicValue`
and `*tfsdk.Schema` (`internal/fromproto6/providermeta.go`). This data handling
is different than Config to simplify implementors, in that a missing schema
returns nil, rather than an error, and a missing dynamic value returns a nil
typed value, rather than an error. A nil pointer is `none`. -/
def fromproto6.ProviderMeta (unmarshal : Unmarshaler) (proto6DynamicValue : Option DynamicValue)
    (schema : Option Schema) : Returned (Option Config) :=
  match schema with
  | none => { value := none, diags := [], calls := [] }
  | some sch =>
    let fw : Config := { Raw := TfValue.NewNull sch.TerraformType, Schema := sch }
    match proto6DynamicValue with
    | none => { value := some fw, diags := [], calls := [] }
    | some dv =>
      match unmarshal dv sch.TerraformType with
      | .error err =>
        { value := none
          diags := Diagnostics.AddError [] "Unable to Convert Provider Meta Configuration"
            (convertErrorLead "provider meta configuration" ++ err.Error)
          calls := [.Unmarshal dv sch.TerraformType] }
      | .ok proto6Value =>
        { value := some { fw with Raw := proto6Value }
          diags := []
          calls := [.Unmarshal dv sch.TerraformType] }

/-! ## State reads (`internal/fwserver/state.go`) -/

/-- The first result of `tftypes.WalkAttributePath`, a Go `interface{}`: a
dynamic value, or something else, kept as its rendering. -/
inductive Walked where
  | Value (v : TfValue)
  | Other (text : String)
  deriving Repr

/-- The two collaborators of the state read that are not among the sources:
the lookup `Schema.AttributeTypeAtPath` of package `tfsdk` and the walk
`tftypes.WalkAttributePath` of terraform-plugin-go, which returns what it
reached, the steps that remain and an error if it stopped. The state read
takes them as parameters. -/
structure StateEnv where
  AttributeTypeAtPath : Schema → Path → Except GoError AttrType
  WalkAttributePath : TfValue → Path → Walked × Path × Option GoError

/-- The rendering of one path step. -/
def PathStep.render : PathStep → String
  | .AttributeName n => "AttributeName(\"" ++ n ++ "\")"
  | .ElementKeyInt i => "ElementKeyInt(" ++ toString i ++ ")"
  | .ElementKeyString k => "ElementKeyString(\"" ++ k ++ "\")"
  | .ElementKeyValue v => "ElementKeyValue(" ++ v.render ++ ")"

/-- The rendering of a path with the verb `%v`: its steps joined by dots. -/
def Path.render (p : Path) : String := ".".intercalate (p.map PathStep.render)

/-- A stand-in for the walk `tftypes.WalkAttributePath` of terraform-plugin-go,
a dependency that is neither among the sources nor described by the spec. It
is used for worked examples only: it takes the steps one by one and stops with
the error of the step that could not be taken, which in this stand-in is always
`ErrInvalidStep`; the walk of the library may fail with other errors too, and
the statements about the state read that hold for every walk take a `StateEnv`
instead. -/
def tftypesWalkAttributePath : TfValue → Path → Walked × Path × Option GoError
  | v, [] => (.Value v, [], none)
  | v, step :: rest =>
    match v.ApplyTerraform5AttributePathStep step with
    | .error err => (.Value v, step :: rest, some err)
    | .ok next => tftypesWalkAttributePath next rest

/-- The collaborators of the worked examples: a given schema lookup and the
stand-in `tftypesWalkAttributePath` for the walk, under which the state read
never meets a walk error other than an invalid step. -/
def tftypesEnv (lookup : Schema → Path → Except GoError AttrType) : StateEnv :=
  { AttributeTypeAtPath := lookup, WalkAttributePath := tftypesWalkAttributePath }

/-- StateTerraformValueAtPath is a duplicate of
`tfsdk.State.terraformValueAtPath` (`internal/fwserver/state.go`). The Go
results `(tftypes.Value, error)` are a pair, a nil error being `none`; a failed
walk returns the zero value and the walk's error wrapped with `%w`. -/
def StateTerraformValueAtPath (env : StateEnv) (s : State) (path : Path) :
    TfValue × Option GoError :=
  match env.WalkAttributePath s.Raw path with
  | (_, remaining, some err) =>
    (TfValue.zero, some (.wrap (remaining.render ++ " still remains in the path: ") err ""))
  | (.Value attrValue, _, none) => (attrValue, none)
  | (.Other text, _, none) =>
    (TfValue.zero, some (.plain ("got non-tftypes.Value result " ++ text)))

/-- The lead of the detail of a "State Read Error". -/
def stateReadErrorLead : String :=
  "An unexpected error was encountered trying to read an attribute from the state. "
    ++ "This is always an error in the provider. Please report the following to the provider "
    ++ "developer:\n\n"

/-- StateGetAttributeValue is a duplicate of `tfsdk.State.getAttributeValue`,
except it calls a local duplicate to `State.terraformValueAtPath` as well
(`internal/fwserver/state.go`). The returned `attr.Value` is `none` for nil. -/
def StateGetAttributeValue (env : StateEnv) (s : State) (path : Path) :
    Returned (Option AttrValue) :=
  match env.AttributeTypeAtPath s.Schema path with
  | .error err =>
    { value := none
      diags := Diagnostics.AddAttributeError [] path "State Read Error"
        (stateReadErrorLead ++
          (GoError.wrap "error getting attribute type in schema: " err "").Error)
      calls := [.AttributeTypeAtPath path] }
  | .ok attrType =>
    -- if the whole state is nil, the value of a valid attribute is also nil
    if s.Raw.IsNull then
      { value := none, diags := [], calls := [.AttributeTypeAtPath path] }
    else
      let walked := StateTerraformValueAtPath env s path
      let tfValue := walked.1
      let calls1 : List Call := [.AttributeTypeAtPath path, .WalkAttributePath s.Raw path]
      -- Ignoring ErrInvalidStep will allow this method to return a null value of the type.
      match walked.2 with
      | some err =>
        if !err.Is ErrInvalidStep then
          { value := none
            diags := Diagnostics.AddAttributeError [] path "State Read Error"
              (stateReadErrorLead ++ err.Error)
            calls := calls1 }
        else StateGetAttributeValue.construct attrType tfValue path calls1
      | none => StateGetAttributeValue.construct attrType tfValue path calls1
where
  /-- The rest of `StateGetAttributeValue` once the dynamic value is at hand:
  the type's `Validate` when the type implements `attr.TypeWithValidate`, with
  a return on an error of it, then `ValueFromTerraform`. -/
  construct (attrType : AttrType) (tfValue : TfValue) (path : Path) (calls1 : List Call) :
      Returned (Option AttrValue) :=
    let hooked : Diagnostics × List Call :=
      match attrType.Validate with
      | some validate =>
        (Diagnostics.Append [] (validate tfValue path), calls1 ++ [.TypeValidate tfValue path])
      | none => ([], calls1)
    if hooked.1.HasError then { value := none, diags := hooked.1, calls := hooked.2 }
    else
      match attrType.ValueFromTerraform tfValue with
      | .error err =>
        { value := none
          diags := Diagnostics.AddAttributeError hooked.1 path "State Read Error"
            (stateReadErrorLead ++ err.Error)
          calls := hooked.2 ++ [.ValueFromTerraform tfValue] }
      | .ok attrValue =>
        { value := some attrValue
          diags := hooked.1
          calls := hooked.2 ++ [.ValueFromTerraform tfValue] }

/-! ## Fixtures of the protocol conversions and of the state read -/

/-- The schema of `testServeDataSourceTypeTwo.GetSchema`
(`serve_data_source_two_test.go`). -/
def testServeDataSourceTypeTwoSchema : Schema :=
  { Attributes :=
      [("family", .mk (some StringType) none false true true "" []),
        ("name", .mk (some StringType) none false true true "" []),
        ("id", .mk (some StringType) none false false true "" [])] }

/-- The variable `testServeDataSourceTypeTwoType`
(`serve_data_source_two_test.go`). -/
def testServeDataSourceTypeTwoType : TfType :=
  .object [("family", .string), ("name", .string), ("id", .string)]

/-- The schema of `testServeResourceTypeOne.GetSchema`
(`serve_resource_one_test.go`). -/
def testServeResourceTypeOneSchema : Schema :=
  { Version := 1
    Attributes :=
      [("name", .mk (some StringType) none true false false "" []),
        ("favorite_colors", .mk (some (ListType StringType)) none false true false "" []),
        ("created_timestamp", .mk (some StringType) none false false true "" [])] }

/-- The sentinel `tfprotov6.ErrUnknownDynamicValueType`, the error of
`Unmarshal` on a dynamic value that holds no data. -/
def ErrUnknownDynamicValueType : GoError :=
  .sentinel "DynamicValue had no JSON or msgpack data set"

/-- A decoder for worked examples, restricted to the encodings of null: as
`Unmarshal` does, it fails with `ErrUnknownDynamicValueType` on a dynamic value
without data and decodes the JSON text `null` and the MessagePack byte `0xc0`
as the null value of the type; it decodes nothing else. -/
def nullUnmarshal : Unmarshaler := fun dv typ =>
  if dv.JSON = [] ∧ dv.MsgPack = [] then .error ErrUnknownDynamicValueType
  else if dv.JSON = [110, 117, 108, 108] ∨ (dv.JSON = [] ∧ dv.MsgPack = [192]) then
    .ok (TfValue.NewNull typ)
  else .error (.plain "not an encoding of null")

/-- A schema lookup for worked examples: the type of a top-level attribute of
the schema, for a path of one name step. -/
def topLevelAttributeType (s : Schema) (path : Path) : Except GoError AttrType :=
  match path with
  | [.AttributeName name] =>
    match lookup name s.Attributes with
    | some a => .ok a.attributeType
    | none => .error (.plain ("no attribute " ++ name ++ " in the schema"))
  | _ => .error (.plain "not a path of one attribute name")

/-- The dynamic value the state read goes on with: the first result of
`StateTerraformValueAtPath`. -/
def stateTerraformValue (env : StateEnv) (s : State) (path : Path) : TfValue :=
  (StateTerraformValueAtPath env s path).1

/-- The call of the type's validation hook by the state read, as logged;
nothing when the type has no hook. -/
def hookCalls (t : AttrType) (tfValue : TfValue) (path : Path) : List Call :=
  match t.Validate with
  | some _ => [.TypeValidate tfValue path]
  | none => []

/-- A schema with the one required attribute `test` of the given type. -/
def testSchema (t : AttrType) : Schema :=
  { Attributes := [("test", .mk (some t) none true false false "" [])] }

/-- A state of `testSchema` whose attribute `test` holds the given dynamic
value of the given wire type. -/
def testState (t : AttrType) (typ : TfType) (v : TfValue) : State :=
  { Raw := .object [("test", typ)] [("test", v)], Schema := testSchema t }

/-- A state of `testSchema` whose whole raw value is unknown. -/
def unknownState (t : AttrType) : State :=
  { Raw := .unknown (.object [("test", t.TerraformType)]), Schema := testSchema t }

/-- A state of the schema of `testServeResourceTypeOne` whose list
`favorite_colors` is unknown. -/
def resourceOneState : State :=
  { Raw := .object
      [("name", .string), ("favorite_colors", .list .string), ("created_timestamp", .string)]
      [("name", .string "hello"), ("favorite_colors", .unknown (.list .string)),
        ("created_timestamp", .string "now")]
    Schema := testServeResourceTypeOneSchema }

/-- A schema lookup for worked examples on the schema of
`testServeResourceTypeOne`: the type of a top-level attribute, and the string
type of an element of the list `favorite_colors`. -/
def resourceOneAttributeType (s : Schema) (path : Path) : Except GoError AttrType :=
  match path with
  | [.AttributeName "favorite_colors", .ElementKeyInt _] => .ok StringType
  | _ => topLevelAttributeType s path

/-- Modelled from the spec: `tfprotov6.RawState` of terraform-plugin-go, a
dependency that is not among the sources: the stored state of a resource as
JSON bytes or as a flatmap. -/
structure RawState where
  JSON : List Nat
  Flatmap : List (String × String)
  deriving DecidableEq, Repr

/-- Modelled from the spec: `tfprotov6.UpgradeResourceStateRequest` of
terraform-plugin-go, a dependency that is not among the sources: the request of
the protocol to upgrade a stored state. -/
structure tfprotov6.UpgradeResourceStateRequest where
  TypeName : String
  Version : Int
  RawState : Option Fw.RawState
  deriving DecidableEq, Repr

/-- Modelled from the spec: `fwserver.UpgradeResourceStateRequest` (its file is
not among the sources), with the four fields that the conversion sets. The Go
interface `tfsdk.ResourceType` is the type parameter `ρ`. -/
structure fwserver.UpgradeResourceStateRequest (ρ : Type) where
  RawState : Option Fw.RawState
  ResourceSchema : Schema
  ResourceType : ρ
  Version : Int

/-- The lead of the detail of the diagnostic "Unable to Create Empty State". -/
def emptyStateErrorLead : String :=
  "An unexpected error was encountered when creating the empty state. "
    ++ "This is always an issue in the Terraform Provider SDK used to implement the provider "
    ++ "and should be reported to the provider developers.\n\n"
    ++ "Please report this to the provider developer:\n\n"

/-- UpgradeResourceStateRequest returns the
`*fwserver.UpgradeResourceStateRequest` equivalent of a
`*tfprotov6.UpgradeResourceStateRequest`
(`internal/fromproto6/upgraderesourcestate.go`). A nil pointer is `none`; the
function calls none of its collaborators. -/
def fromproto6.UpgradeResourceStateRequest {ρ : Type}
    (proto6 : Option Fw.tfprotov6.UpgradeResourceStateRequest) (resourceType : ρ)
    (resourceSchema : Option Schema) :
    Returned (Option (Fw.fwserver.UpgradeResourceStateRequest ρ)) :=
  match proto6 with
  | none => { value := none, diags := [], calls := [] }
  | some req =>
    match resourceSchema with
    | none =>
      { value := none
        diags := Diagnostics.AddError [] "Unable to Create Empty State"
          (emptyStateErrorLead ++ "Missing schema.")
        calls := [] }
    | some sch =>
      { value := some
          { RawState := req.RawState
            ResourceSchema := sch
            ResourceType := resourceType
            Version := req.Version }
        diags := []
        calls := [] }

/-- A state of `testSchema` whose raw value is the null value of the schema's
wire type. -/
def nullState (t : AttrType) : State :=
  { Raw := TfValue.NewNull (testSchema t).TerraformType, Schema := testSchema t }

/-- A request of the protocol to upgrade a state of `test_resource` stored at
version 1 as a JSON object with the one member `name`. -/
def testUpgradeRequest : tfprotov6.UpgradeResourceStateRequest :=
  { TypeName := "test_resource"
    Version := 1
    RawState := some
      { JSON := [123, 34, 110, 97, 109, 101, 34, 58, 34, 120, 34, 125], Flatmap := [] } }

/-- Collaborators for worked examples whose walk stops at once with an error
that is not an invalid step, the case that `StateGetAttributeValue` reports as
a "State Read Error". -/
def brokenWalkEnv (lookup : Schema → Path → Except GoError AttrType) : StateEnv :=
  { AttributeTypeAtPath := lookup
    WalkAttributePath := fun v p => (.Value v, p, some (.plain "the walk is broken")) }

/-- A provider-defined type for worked examples: its hook reports one warning
at the path and its `ValueFromTerraform` fails on every dynamic value. -/
def RejectingTypeWithValidateWarning : AttrType :=
  { GoType := "testtypes.RejectingTypeWithValidateWarning"
    TerraformType := .string
    ValueFromTerraform := fun _ => .error (.plain "value rejected")
    Validate := some (fun _ path => [TestWarningDiagnostic path]) }

/-! # Theorems -/

/-! ## Unfolding lemmas -/

theorem AttributeValidate_unfold (a : Attribute) (req : ValidateAttributeRequest)
    (st : ValidateState) :
    AttributeValidate a req st =
      match structuralDefect a with
      | some detail =>
        st.append [NewAttributeErrorDiagnostic req.AttributePath "Invalid Attribute Definition" detail]
      | none =>
        match ConfigGetAttributeValue a.attributeType req.Config.Raw req.AttributePath st with
        | (none, st1) => st1
        | (some v, st1) =>
          validateNestedAttributes a req v
            (runValidators req.AttributePath (some v) req.Config.Raw a.Validators 0
              (st1.append (deprecationWarning a req.AttributePath v))) := by
  cases a with
  | mk t n r o c d vs =>
    cases n with
    | none => rfl
    | some na =>
      cases na with
      | mk mode children => rfl

theorem AttributeValidate_defect (a : Attribute) (req : ValidateAttributeRequest)
    (st : ValidateState) (detail : String) (h : structuralDefect a = some detail) :
    AttributeValidate a req st =
      { resp := { Diagnostics := st.Diagnostics ++
          [NewAttributeErrorDiagnostic req.AttributePath "Invalid Attribute Definition" detail] }
        events := st.events } := by
  rw [AttributeValidate_unfold, h]
  rfl

/-- C1. An attribute that violates a structural invariant gets exactly one
diagnostic appended and nothing else happens (the log of calls is unchanged: no
value read, no hook, no validator, no nested validation): the diagnostic is an
Error at the request's path with summary "Invalid Attribute Definition", whose
detail begins with the sentence of the violated invariant. -/
theorem AttributeValidate_structural_violation (a : Attribute)
    (req : ValidateAttributeRequest) (st : ValidateState)
    (h : (a.Type = none ∧ a.Attributes = none) ∨ (a.Type ≠ none ∧ a.Attributes ≠ none) ∨
      (a.Required = false ∧ a.Optional = false ∧ a.Computed = false)) :
    ∃ d : Diagnostic,
      AttributeValidate a req st =
        { resp := { Diagnostics := st.Diagnostics ++ [d] }, events := st.events } ∧
      d.Severity = .Error ∧ d.path = some req.AttributePath ∧
      d.Summary = "Invalid Attribute Definition" ∧
      (a.Type = none ∧ a.Attributes = none →
        d.Detail = "Attribute must define either Attributes or Type" ++ defectTail) ∧
      (a.Type ≠ none ∧ a.Attributes ≠ none →
        d.Detail = "Attribute cannot define both Attributes and Type" ++ defectTail) ∧
      (((a.Type = none ∧ a.Attributes ≠ none) ∨ (a.Type ≠ none ∧ a.Attributes = none)) ∧
        a.Required = false ∧ a.Optional = false ∧ a.Computed = false →
        d.Detail = "Attribute missing Required, Optional, or Computed definition" ++ defectTail) := by
  cases a with
  | mk t n r o c dm vs =>
    have key : ∀ detail, structuralDefect (.mk t n r o c dm vs) = some detail →
        AttributeValidate (.mk t n r o c dm vs) req st =
          { resp := { Diagnostics := st.Diagnostics ++
              [NewAttributeErrorDiagnostic req.AttributePath "Invalid Attribute Definition" detail] }
            events := st.events } :=
      fun detail hd => AttributeValidate_defect _ req st detail hd
    cases t with
    | none =>
      cases n with
      | none =>
        refine ⟨_, key _ rfl, rfl, rfl, rfl, fun _ => rfl, ?_, ?_⟩
        · intro hh; exact absurd rfl hh.1
        · intro hh
          rcases hh.1 with h1 | h1
          · exact absurd rfl h1.2
          · exact absurd rfl h1.1
      | some na =>
        rcases h with h | h | h
        · exact absurd h.2 (by simp [Attribute.Attributes])
        · exact absurd rfl h.1
        · simp only [Attribute.Required, Attribute.Optional, Attribute.Computed] at h
          obtain ⟨hr, ho, hc⟩ := h
          subst hr; subst ho; subst hc
          refine ⟨_, key _ rfl, rfl, rfl, rfl, ?_, ?_, fun _ => rfl⟩
          · intro hh; exact absurd hh.2 (by simp [Attribute.Attributes])
          · intro hh; exact absurd rfl hh.1
    | some ty =>
      cases n with
      | some na =>
        refine ⟨_, key _ rfl, rfl, rfl, rfl, ?_, fun _ => rfl, ?_⟩
        · intro hh; exact absurd hh.1 (by simp [Attribute.Type])
        · intro hh
          rcases hh.1 with h1 | h1
          · exact absurd h1.1 (by simp [Attribute.Type])
          · exact absurd h1.2 (by simp [Attribute.Attributes])
      | none =>
        rcases h with h | h | h
        · exact absurd h.1 (by simp [Attribute.Type])
        · exact absurd rfl h.2
        · simp only [Attribute.Required, Attribute.Optional, Attribute.Computed] at h
          obtain ⟨hr, ho, hc⟩ := h
          subst hr; subst ho; subst hc
          refine ⟨_, key _ rfl, rfl, rfl, rfl, ?_, ?_, fun _ => rfl⟩
          · intro hh; exact absurd hh.1 (by simp [Attribute.Type])
          · intro hh; exact absurd rfl hh.2

/-! ## The cases of `TestAttributeValidate`, run on the model

Each case of the table of `attribute_validation_test.go` is evaluated and
yields the response the test expects. -/

theorem TestAttributeValidate_no_attributes_or_type :
    (AttributeValidate (.mk none none true false false "" [])
      (testRequest (.mk none none true false false "" []) .string (.string "testvalue"))
      .fresh).Diagnostics =
    [NewAttributeErrorDiagnostic testPath "Invalid Attribute Definition"
      "Attribute must define either Attributes or Type. This is always a problem with the provider and should be reported to the provider developer."] := by
  rfl

theorem TestAttributeValidate_both_attributes_and_type :
    (AttributeValidate bothAttribute
      (testRequest bothAttribute .string (.string "testvalue")) .fresh).Diagnostics =
    [NewAttributeErrorDiagnostic testPath "Invalid Attribute Definition"
      "Attribute cannot define both Attributes and Type. This is always a problem with the provider and should be reported to the provider developer."] := by
  rfl

theorem TestAttributeValidate_missing_required_optional_and_computed :
    (AttributeValidate (.mk (some StringType) none false false false "" [])
      (testRequest (.mk (some StringType) none false false false "" []) .string
        (.string "testvalue"))
      .fresh).Diagnostics =
    [NewAttributeErrorDiagnostic testPath "Invalid Attribute Definition"
      "Attribute missing Required, Optional, or Computed definition. This is always a problem with the provider and should be reported to the provider developer."] := by
  rfl

theorem TestAttributeValidate_config_error :
    (AttributeValidate (.mk (some (ListType StringType)) none true false false "" [])
      (testRequest (.mk (some (ListType StringType)) none true false false "" []) .string
        (.string "testvalue"))
      .fresh).Diagnostics =
    [NewAttributeErrorDiagnostic testPath "Configuration Read Error"
      ("An unexpected error was encountered trying to read an attribute from the configuration. This is always an error in the provider. Please report the following to the provider developer:\n\n"
        ++ "can't use tftypes.String<\"testvalue\"> as value of List with ElementType types.primitive, can only use tftypes.String values")] := by
  rfl

theorem TestAttributeValidate_no_validation :
    (AttributeValidate (.mk (some StringType) none true false false "" [])
      (testRequest (.mk (some StringType) none true false false "" []) .string
        (.string "testvalue"))
      .fresh).Diagnostics = [] := by
  rfl

theorem TestAttributeValidate_deprecation_message_known :
    (AttributeValidate deprecatedAttribute
      (testRequest deprecatedAttribute .string (.string "testvalue")) .fresh).Diagnostics =
    [NewAttributeWarningDiagnostic testPath "Attribute Deprecated"
      "Use something else instead."] := by
  rfl

theorem TestAttributeValidate_deprecation_message_null :
    (AttributeValidate deprecatedAttribute
      (testRequest deprecatedAttribute .string (.NewNull .string)) .fresh).Diagnostics = [] := by
  rfl

theorem TestAttributeValidate_deprecation_message_unknown :
    (AttributeValidate deprecatedAttribute
      (testRequest deprecatedAttribute .string (.unknown .string)) .fresh).Diagnostics =
    [NewAttributeWarningDiagnostic testPath "Attribute Deprecated"
      "Use something else instead."] := by
  rfl

theorem TestAttributeValidate_warnings :
    (AttributeValidate
      (.mk (some StringType) none true false false ""
        [testWarningAttributeValidator, testWarningAttributeValidator])
      (testRequest (.mk (some StringType) none true false false ""
        [testWarningAttributeValidator, testWarningAttributeValidator]) .string
        (.string "testvalue"))
      .fresh).Diagnostics = [testWarningDiagnostic1, testWarningDiagnostic2] := by
  rfl

theorem TestAttributeValidate_errors :
    (AttributeValidate
      (.mk (some StringType) none true false false ""
        [testErrorAttributeValidator, testErrorAttributeValidator])
      (testRequest (.mk (some StringType) none true false false ""
        [testErrorAttributeValidator, testErrorAttributeValidator]) .string
        (.string "testvalue"))
      .fresh).Diagnostics = [testErrorDiagnostic1, testErrorDiagnostic2] := by
  rfl

theorem TestAttributeValidate_type_with_validate_error :
    (AttributeValidate (.mk (some StringTypeWithValidateError) none true false false "" [])
      (testRequest (.mk (some StringTypeWithValidateError) none true false false "" []) .string
        (.string "testvalue"))
      .fresh).Diagnostics = [TestErrorDiagnostic testPath] := by
  rfl

theorem TestAttributeValidate_type_with_validate_warning :
    (AttributeValidate (.mk (some StringTypeWithValidateWarning) none true false false "" [])
      (testRequest (.mk (some StringTypeWithValidateWarning) none true false false "" []) .string
        (.string "testvalue"))
      .fresh).Diagnostics = [TestWarningDiagnostic testPath] := by
  rfl

theorem TestAttributeValidate_nested_attr_no_validation :
    (AttributeValidate (nestedPlainAttribute .NestingModeList)
      (testRequest (nestedPlainAttribute .NestingModeList) (.list nestedObjectType)
        (.list nestedObjectType [nestedObjectValue])) .fresh).Diagnostics = [] ∧
    (AttributeValidate (nestedPlainAttribute .NestingModeMap)
      (testRequest (nestedPlainAttribute .NestingModeMap) (.map nestedObjectType)
        (.map nestedObjectType [("testkey", nestedObjectValue)])) .fresh).Diagnostics = [] ∧
    (AttributeValidate (nestedPlainAttribute .NestingModeSet)
      (testRequest (nestedPlainAttribute .NestingModeSet) (.set nestedObjectType)
        (.set nestedObjectType [nestedObjectValue])) .fresh).Diagnostics = [] ∧
    (AttributeValidate (nestedPlainAttribute .NestingModeSingle)
      (testRequest (nestedPlainAttribute .NestingModeSingle) nestedObjectType
        nestedObjectValue) .fresh).Diagnostics = [] := by
  refine ⟨?_, ?_, ?_, ?_⟩ <;> rfl

theorem TestAttributeValidate_nested_attr_validation :
    (AttributeValidate (nestedValidationAttribute .NestingModeList)
      (testRequest (nestedValidationAttribute .NestingModeList) (.list nestedObjectType)
        (.list nestedObjectType [nestedObjectValue])) .fresh).Diagnostics
      = [testErrorDiagnostic1] ∧
    (AttributeValidate (nestedValidationAttribute .NestingModeMap)
      (testRequest (nestedValidationAttribute .NestingModeMap) (.map nestedObjectType)
        (.map nestedObjectType [("testkey", nestedObjectValue)])) .fresh).Diagnostics
      = [testErrorDiagnostic1] ∧
    (AttributeValidate (nestedValidationAttribute .NestingModeSet)
      (testRequest (nestedValidationAttribute .NestingModeSet) (.set nestedObjectType)
        (.set nestedObjectType [nestedObjectValue])) .fresh).Diagnostics
      = [testErrorDiagnostic1] ∧
    (AttributeValidate (nestedValidationAttribute .NestingModeSingle)
      (testRequest (nestedValidationAttribute .NestingModeSingle) nestedObjectType
        nestedObjectValue) .fresh).Diagnostics = [testErrorDiagnostic1] := by
  refine ⟨?_, ?_, ?_, ?_⟩ <;> rfl

theorem TestValueAs_primitive :
    ValueAs (.StringValue false false "hello") (.GoString "") = (.GoString "hello", []) := by
  rfl

theorem TestValueAs_incompatible_type :
    (ValueAs (.StringValue false false "hello") (.GoInt64 0)).2 =
      [withPath
        { body := .DiagIntoIncompatibleType (.string "hello") "int64"
            (.plain "can't unmarshal tftypes.String into *big.Float, expected *big.Float")
          path := none } Path.New] := by
  rfl

theorem TestValueAs_different_type :
    (ValueAs (.StringValue false false "hello")
      (.Typed (.ProviderValue "testtypes.String" "testtypes.StringType"
        (.StringValue false false "")))).2 =
      [withPath
        { body := .DiagNewAttributeValueIntoWrongType "types.String" "testtypes.String"
            "types.StringType"
          path := none } Path.New] := by
  rfl

theorem TestValueAs_generic :
    ValueAs (.StringValue false false "hello") (.Generic none) =
      (.Generic (some (.StringValue false false "hello")), []) := by
  rfl

/-! ## Structural defects (C1) -/

/-- Witness of C1 on the case `no-attributes-or-type`: the attribute declares
neither a type nor nested attributes. -/
theorem AttributeValidate_structural_violation_witness :
    (((Attribute.mk none none true false false "" []).Type = none ∧
        (Attribute.mk none none true false false "" []).Attributes = none) ∨
      ((Attribute.mk none none true false false "" []).Type ≠ none ∧
        (Attribute.mk none none true false false "" []).Attributes ≠ none) ∨
      ((Attribute.mk none none true false false "" []).Required = false ∧
        (Attribute.mk none none true false false "" []).Optional = false ∧
        (Attribute.mk none none true false false "" []).Computed = false)) ∧
    ∃ d : Diagnostic,
      AttributeValidate (.mk none none true false false "" [])
          (testRequest (.mk none none true false false "" []) .string (.string "testvalue"))
          .fresh =
        { resp := { Diagnostics := ValidateState.fresh.Diagnostics ++ [d] }
          events := ValidateState.fresh.events } ∧
      d.Severity = .Error ∧ d.path = some testPath ∧
      d.Summary = "Invalid Attribute Definition" ∧
      d.Detail = "Attribute must define either Attributes or Type" ++ defectTail := by
  refine ⟨Or.inl ⟨rfl, rfl⟩, ?_⟩
  obtain ⟨d, h1, h2, h3, h4, h5, -, -⟩ :=
    AttributeValidate_structural_violation (.mk none none true false false "" [])
      (testRequest (.mk none none true false false "" []) .string (.string "testvalue"))
      .fresh (Or.inl ⟨rfl, rfl⟩)
  exact ⟨d, h1, h2, h3, h4, h5 ⟨rfl, rfl⟩⟩

/-! ## The read of the attribute's value (steps 2 to 4) -/

theorem ConfigGetAttributeValue_hookError (t : AttrType) (raw : TfValue) (path : Path)
    (st : ValidateState)
    (h : (hookDiagnostics t (ConfigTerraformValueAtPath raw t path) path).HasError = true) :
    ConfigGetAttributeValue t raw path st =
      (none,
        { resp := { Diagnostics := st.Diagnostics ++
            hookDiagnostics t (ConfigTerraformValueAtPath raw t path) path }
          events := st.events ++ [.ReadConfig path] ++
            hookEvents t (ConfigTerraformValueAtPath raw t path) path }) := by
  unfold ConfigGetAttributeValue
  unfold hookDiagnostics at h
  unfold hookDiagnostics hookEvents
  cases hv : t.Validate with
  | none => rw [hv] at h; simp [Diagnostics.HasError] at h
  | some hook =>
    rw [hv] at h
    simp only [h, if_true]
    simp [ValidateState.log, ValidateState.append, ValidateState.Diagnostics, Diagnostics.Append]

theorem ConfigGetAttributeValue_error (t : AttrType) (raw : TfValue) (path : Path)
    (st : ValidateState) (err : GoError)
    (h : (hookDiagnostics t (ConfigTerraformValueAtPath raw t path) path).HasError = false)
    (hv : t.ValueFromTerraform (ConfigTerraformValueAtPath raw t path) = .error err) :
    ConfigGetAttributeValue t raw path st =
      (none,
        { resp := { Diagnostics := st.Diagnostics ++
            hookDiagnostics t (ConfigTerraformValueAtPath raw t path) path ++
            [NewAttributeErrorDiagnostic path "Configuration Read Error"
              (configReadErrorLead ++ err.Error)] }
          events := st.events ++ [.ReadConfig path] ++
            hookEvents t (ConfigTerraformValueAtPath raw t path) path ++
            [.ValueFromTerraform path (ConfigTerraformValueAtPath raw t path)] }) := by
  unfold ConfigGetAttributeValue
  unfold hookDiagnostics at h
  unfold hookDiagnostics hookEvents
  cases hh : t.Validate with
  | none =>
    simp [hv, Diagnostics.HasError, ValidateState.log, ValidateState.append,
      ValidateState.Diagnostics, Diagnostics.Append]
  | some hook =>
    rw [hh] at h
    simp [h, hv, ValidateState.log, ValidateState.append, ValidateState.Diagnostics,
      Diagnostics.Append]

theorem ConfigGetAttributeValue_ok (t : AttrType) (raw : TfValue) (path : Path)
    (st : ValidateState) (v : AttrValue)
    (h : (hookDiagnostics t (ConfigTerraformValueAtPath raw t path) path).HasError = false)
    (hv : t.ValueFromTerraform (ConfigTerraformValueAtPath raw t path) = .ok v) :
    ConfigGetAttributeValue t raw path st =
      (some v,
        { resp := { Diagnostics := st.Diagnostics ++
            hookDiagnostics t (ConfigTerraformValueAtPath raw t path) path }
          events := st.events ++ [.ReadConfig path] ++
            hookEvents t (ConfigTerraformValueAtPath raw t path) path ++
            [.ValueFromTerraform path (ConfigTerraformValueAtPath raw t path)] }) := by
  unfold ConfigGetAttributeValue
  unfold hookDiagnostics at h
  unfold hookDiagnostics hookEvents
  cases hh : t.Validate with
  | none =>
    simp [hv, Diagnostics.HasError, ValidateState.log, ValidateState.append,
      ValidateState.Diagnostics, Diagnostics.Append]
  | some hook =>
    rw [hh] at h
    simp [h, hv, ValidateState.log, ValidateState.append, ValidateState.Diagnostics,
      Diagnostics.Append]

theorem hookDiagnostics_none (t : AttrType) (tfValue : TfValue) (path : Path)
    (h : t.Validate = none) : hookDiagnostics t tfValue path = [] := by
  simp [hookDiagnostics, h]

theorem hookEvents_none (t : AttrType) (tfValue : TfValue) (path : Path)
    (h : t.Validate = none) : hookEvents t tfValue path = [] := by
  simp [hookEvents, h]

/-! ## Present instances of null and unknown values -/

theorem presentInstances_null (mode : NestingMode) (v : AttrValue)
    (h : v.ToTerraformValue.IsNull = true) : presentInstances mode v = [] := by
  cases mode <;> cases v with
    | StringValue u n s => rfl
    | NumberValue u n s => rfl
    | BoolValue u n s => rfl
    | ProviderValue g s i => rfl
    | ListValue u n es t =>
      cases u <;> cases n <;>
        first | rfl | simp [AttrValue.ToTerraformValue, TfValue.IsNull, TfValue.NewNull] at h
    | SetValue u n es t =>
      cases u <;> cases n <;>
        first | rfl | simp [AttrValue.ToTerraformValue, TfValue.IsNull, TfValue.NewNull] at h
    | MapValue u n es t =>
      cases u <;> cases n <;>
        first | rfl | simp [AttrValue.ToTerraformValue, TfValue.IsNull, TfValue.NewNull] at h
    | ObjectValue u n es t =>
      cases u <;> cases n <;>
        first | rfl | simp [AttrValue.ToTerraformValue, TfValue.IsNull, TfValue.NewNull] at h

theorem presentInstances_unknown (mode : NestingMode) (v : AttrValue)
    (h : v.ToTerraformValue.IsKnown = false) : presentInstances mode v = [] := by
  cases mode <;> cases v with
    | StringValue u n s => rfl
    | NumberValue u n s => rfl
    | BoolValue u n s => rfl
    | ProviderValue g s i => rfl
    | ListValue u n es t =>
      cases u <;> cases n <;>
        first | rfl | simp [AttrValue.ToTerraformValue, TfValue.IsKnown, TfValue.NewNull] at h
    | SetValue u n es t =>
      cases u <;> cases n <;>
        first | rfl | simp [AttrValue.ToTerraformValue, TfValue.IsKnown, TfValue.NewNull] at h
    | MapValue u n es t =>
      cases u <;> cases n <;>
        first | rfl | simp [AttrValue.ToTerraformValue, TfValue.IsKnown, TfValue.NewNull] at h
    | ObjectValue u n es t =>
      cases u <;> cases n <;>
        first | rfl | simp [AttrValue.ToTerraformValue, TfValue.IsKnown, TfValue.NewNull] at h

theorem validateNestedAttributes_noInstances (a : Attribute) (req : ValidateAttributeRequest)
    (v : AttrValue) (st : ValidateState)
    (h : ∀ n, a.Attributes = some n → presentInstances n.GetNestingMode v = []) :
    validateNestedAttributes a req v st = st := by
  unfold validateNestedAttributes
  cases hn : a.Attributes with
  | none => rfl
  | some n => simp [h n hn]

theorem runValidators_nil (path : Path) (v : Option AttrValue) (raw : TfValue) (index : Nat)
    (st : ValidateState) : runValidators path v raw [] index st = st := rfl

/-- The result of `AttributeValidate` on a structurally valid attribute whose
value is read: the nested attributes (7) validated after the validators (6),
after the deprecation warning (5), from the state the read left. -/
theorem AttributeValidate_read (a : Attribute) (req : ValidateAttributeRequest)
    (st : ValidateState) (v : AttrValue)
    (hvalid : structuralDefect a = none)
    (hhook : (hookDiagnostics a.attributeType
      (ConfigTerraformValueAtPath req.Config.Raw a.attributeType req.AttributePath)
      req.AttributePath).HasError = false)
    (hread : a.attributeType.ValueFromTerraform
      (ConfigTerraformValueAtPath req.Config.Raw a.attributeType req.AttributePath) = .ok v) :
    AttributeValidate a req st =
      validateNestedAttributes a req v
        (runValidators req.AttributePath (some v) req.Config.Raw a.Validators 0
          { resp :=
              { Diagnostics := st.Diagnostics ++
                  hookDiagnostics a.attributeType
                    (ConfigTerraformValueAtPath req.Config.Raw a.attributeType req.AttributePath)
                    req.AttributePath ++
                  deprecationWarning a req.AttributePath v }
            events := st.events ++ [.ReadConfig req.AttributePath] ++
              hookEvents a.attributeType
                (ConfigTerraformValueAtPath req.Config.Raw a.attributeType req.AttributePath)
                req.AttributePath ++
              [.ValueFromTerraform req.AttributePath
                (ConfigTerraformValueAtPath req.Config.Raw a.attributeType req.AttributePath)] }) := by
  rw [AttributeValidate_unfold, hvalid]
  simp only [ConfigGetAttributeValue_ok _ _ _ st v hhook hread]
  rfl

/-! ## Deprecation warnings (C2, C3) -/

/-- Counterexample to C2 as stated. Both attributes are structurally valid,
carry a deprecation message, have no validator and no type hook, and their
config value is known. The list-of-strings attribute over the string
`"testvalue"` yields one diagnostic that is an Error ("Configuration Read
Error"), not the Warning; the single nested attribute over a known object
yields two warnings, its own and that of its nested attribute. -/
theorem AttributeValidate_deprecated_null_or_known_counterexample :
    (structuralDefect deprecatedListAttribute = none ∧
      deprecatedListAttribute.DeprecationMessage ≠ "" ∧
      deprecatedListAttribute.Validators = [] ∧
      deprecatedListAttribute.attributeType.Validate.isNone = true ∧
      WalkAttributePath
        (testRequest deprecatedListAttribute .string (.string "testvalue")).Config.Raw testPath
        = .ok (.string "testvalue") ∧
      (AttributeValidate deprecatedListAttribute
        (testRequest deprecatedListAttribute .string (.string "testvalue")) .fresh).Diagnostics =
        [NewAttributeErrorDiagnostic testPath "Configuration Read Error"
          (configReadErrorLead ++ (shapeError (.string "testvalue") "List" StringType).Error)] ∧
      (AttributeValidate deprecatedListAttribute
        (testRequest deprecatedListAttribute .string (.string "testvalue")) .fresh).Diagnostics ≠
        [NewAttributeWarningDiagnostic testPath "Attribute Deprecated"
          deprecatedListAttribute.DeprecationMessage]) ∧
    (structuralDefect deprecatedNestedAttribute = none ∧
      deprecatedNestedAttribute.DeprecationMessage ≠ "" ∧
      deprecatedNestedAttribute.Validators = [] ∧
      deprecatedNestedAttribute.attributeType.Validate.isNone = true ∧
      WalkAttributePath
        (testRequest deprecatedNestedAttribute nestedObjectType nestedObjectValue).Config.Raw
        testPath = .ok nestedObjectValue ∧
      (AttributeValidate deprecatedNestedAttribute
        (testRequest deprecatedNestedAttribute nestedObjectType nestedObjectValue)
        .fresh).Diagnostics.length = 2 ∧
      (AttributeValidate deprecatedNestedAttribute
        (testRequest deprecatedNestedAttribute nestedObjectType nestedObjectValue)
        .fresh).Diagnostics.length ≠ 1) := by
  refine ⟨⟨rfl, by decide, rfl, rfl, rfl, rfl, ?_⟩, ⟨rfl, by decide, rfl, rfl, rfl, rfl, ?_⟩⟩
  · have h : (AttributeValidate deprecatedListAttribute
        (testRequest deprecatedListAttribute .string (.string "testvalue")) .fresh).Diagnostics =
        [NewAttributeErrorDiagnostic testPath "Configuration Read Error"
          (configReadErrorLead ++ (shapeError (.string "testvalue") "List" StringType).Error)] :=
      rfl
    rw [h]
    simp [NewAttributeErrorDiagnostic, NewAttributeWarningDiagnostic, withPath,
      NewErrorDiagnostic, NewWarningDiagnostic]
  · have h : (AttributeValidate deprecatedNestedAttribute
        (testRequest deprecatedNestedAttribute nestedObjectType nestedObjectValue)
        .fresh).Diagnostics.length = 2 := rfl
    rw [h]
    decide

/-- C2, amended. A structurally valid attribute with a deprecation message,
no validators and no type hook, whose value is read without error as the typed
value `v`: when `v` is null nothing is appended; when `v` is not null and the
attribute has no nested attributes, exactly one diagnostic is appended, a
Warning at the path with summary "Attribute Deprecated" and the deprecation
message as detail. -/
theorem AttributeValidate_deprecated_null_or_known (a : Attribute) (req : ValidateAttributeRequest)
    (st : ValidateState) (v : AttrValue)
    (hvalid : structuralDefect a = none)
    (hdep : a.DeprecationMessage ≠ "")
    (hvals : a.Validators = [])
    (hhook : a.attributeType.Validate = none)
    (hread : a.attributeType.ValueFromTerraform
      (ConfigTerraformValueAtPath req.Config.Raw a.attributeType req.AttributePath) = .ok v) :
    (v.ToTerraformValue.IsNull = true →
      (AttributeValidate a req st).Diagnostics = st.Diagnostics) ∧
    (v.ToTerraformValue.IsNull = false → a.Attributes = none →
      (AttributeValidate a req st).Diagnostics = st.Diagnostics ++
        [NewAttributeWarningDiagnostic req.AttributePath "Attribute Deprecated"
          a.DeprecationMessage] ∧
      (NewAttributeWarningDiagnostic req.AttributePath "Attribute Deprecated"
        a.DeprecationMessage).Severity = .Warning) := by
  have hh : (hookDiagnostics a.attributeType
      (ConfigTerraformValueAtPath req.Config.Raw a.attributeType req.AttributePath)
      req.AttributePath).HasError = false := by
    rw [hookDiagnostics_none _ _ _ hhook]; rfl
  have hmain := AttributeValidate_read a req st v hvalid hh hread
  rw [hookDiagnostics_none _ _ _ hhook, hookEvents_none _ _ _ hhook, hvals,
    runValidators_nil] at hmain
  constructor
  · intro hnull
    rw [hmain, validateNestedAttributes_noInstances a req v _
      (fun n _ => presentInstances_null _ v hnull)]
    simp [ValidateState.Diagnostics, deprecationWarning, hnull]
  · intro hnn hnone
    refine ⟨?_, rfl⟩
    rw [hmain, validateNestedAttributes_noInstances a req v _
      (fun n hn => by rw [hnone] at hn; cases hn)]
    simp [ValidateState.Diagnostics, deprecationWarning, hnn, hdep]

/-- Witness of C2 (amended) on the case `deprecation-message-known`. -/
theorem AttributeValidate_deprecated_null_or_known_witness :
    (structuralDefect deprecatedAttribute = none ∧
      deprecatedAttribute.DeprecationMessage ≠ "" ∧
      deprecatedAttribute.Validators = [] ∧
      deprecatedAttribute.attributeType.Validate = none ∧
      deprecatedAttribute.attributeType.ValueFromTerraform
        (ConfigTerraformValueAtPath
          (testRequest deprecatedAttribute .string (.string "testvalue")).Config.Raw
          deprecatedAttribute.attributeType testPath) = .ok (.StringValue false false "testvalue") ∧
      (AttrValue.StringValue false false "testvalue").ToTerraformValue.IsNull = false ∧
      deprecatedAttribute.Attributes = none) ∧
    (AttributeValidate deprecatedAttribute
      (testRequest deprecatedAttribute .string (.string "testvalue")) .fresh).Diagnostics =
      ValidateState.fresh.Diagnostics ++
        [NewAttributeWarningDiagnostic testPath "Attribute Deprecated"
          deprecatedAttribute.DeprecationMessage] :=
  ⟨⟨rfl, by decide, rfl, rfl, rfl, rfl, rfl⟩,
    ((AttributeValidate_deprecated_null_or_known deprecatedAttribute
      (testRequest deprecatedAttribute .string (.string "testvalue")) .fresh
      (.StringValue false false "testvalue") rfl (by decide) rfl rfl rfl).2 rfl rfl).1⟩

theorem TfValue.isNull_of_unknown (v : TfValue) (h : v.IsKnown = false) : v.IsNull = false := by
  cases v <;> first | rfl | simp [TfValue.IsKnown] at h

/-- Counterexample to C3 as stated. Both attributes are structurally valid and
carry a deprecation message, and their config value is unknown. The string
with one validator yields two diagnostics, the deprecation warning and the
validator's; the list of strings over an unknown string yields one diagnostic
that is an Error ("Configuration Read Error"), not the Warning. -/
theorem AttributeValidate_deprecated_unknown_counterexample :
    (structuralDefect deprecatedValidatedAttribute = none ∧
      deprecatedValidatedAttribute.DeprecationMessage ≠ "" ∧
      WalkAttributePath
        (testRequest deprecatedValidatedAttribute .string (.unknown .string)).Config.Raw testPath
        = .ok (.unknown .string) ∧
      (AttributeValidate deprecatedValidatedAttribute
        (testRequest deprecatedValidatedAttribute .string (.unknown .string))
        .fresh).Diagnostics.length = 2) ∧
    (structuralDefect deprecatedListAttribute = none ∧
      deprecatedListAttribute.DeprecationMessage ≠ "" ∧
      WalkAttributePath
        (testRequest deprecatedListAttribute .string (.unknown .string)).Config.Raw testPath
        = .ok (.unknown .string) ∧
      (AttributeValidate deprecatedListAttribute
        (testRequest deprecatedListAttribute .string (.unknown .string)) .fresh).Diagnostics =
        [NewAttributeErrorDiagnostic testPath "Configuration Read Error"
          (configReadErrorLead ++ (shapeError (.unknown .string) "List" StringType).Error)] ∧
      (NewAttributeErrorDiagnostic testPath "Configuration Read Error"
          (configReadErrorLead ++ (shapeError (.unknown .string) "List" StringType).Error)).Severity
        = .Error) := by
  exact ⟨⟨rfl, by decide, rfl, rfl⟩, ⟨rfl, by decide, rfl, rfl, rfl⟩⟩

/-- C3, amended. A structurally valid attribute with a deprecation message,
no validators and no type hook, whose value is read without error as an
unknown typed value: exactly one diagnostic is appended, a Warning at the path
with summary "Attribute Deprecated" and the deprecation message as detail. -/
theorem AttributeValidate_deprecated_unknown (a : Attribute)
    (req : ValidateAttributeRequest) (st : ValidateState) (v : AttrValue)
    (hvalid : structuralDefect a = none)
    (hdep : a.DeprecationMessage ≠ "")
    (hvals : a.Validators = [])
    (hhook : a.attributeType.Validate = none)
    (hread : a.attributeType.ValueFromTerraform
      (ConfigTerraformValueAtPath req.Config.Raw a.attributeType req.AttributePath) = .ok v)
    (hunknown : v.ToTerraformValue.IsKnown = false) :
    (AttributeValidate a req st).Diagnostics = st.Diagnostics ++
      [NewAttributeWarningDiagnostic req.AttributePath "Attribute Deprecated"
        a.DeprecationMessage] ∧
    (NewAttributeWarningDiagnostic req.AttributePath "Attribute Deprecated"
      a.DeprecationMessage).Severity = .Warning ∧
    (NewAttributeWarningDiagnostic req.AttributePath "Attribute Deprecated"
      a.DeprecationMessage).path = some req.AttributePath := by
  have hh : (hookDiagnostics a.attributeType
      (ConfigTerraformValueAtPath req.Config.Raw a.attributeType req.AttributePath)
      req.AttributePath).HasError = false := by
    rw [hookDiagnostics_none _ _ _ hhook]; rfl
  have hmain := AttributeValidate_read a req st v hvalid hh hread
  rw [hookDiagnostics_none _ _ _ hhook, hookEvents_none _ _ _ hhook, hvals,
    runValidators_nil] at hmain
  refine ⟨?_, rfl, rfl⟩
  rw [hmain, validateNestedAttributes_noInstances a req v _
    (fun n _ => presentInstances_unknown _ v hunknown)]
  simp [ValidateState.Diagnostics, deprecationWarning, TfValue.isNull_of_unknown _ hunknown, hdep]

/-- Witness of C3 (amended) on the case `deprecation-message-unknown`. -/
theorem AttributeValidate_deprecated_unknown_witness :
    (structuralDefect deprecatedAttribute = none ∧
      deprecatedAttribute.DeprecationMessage ≠ "" ∧
      deprecatedAttribute.Validators = [] ∧
      deprecatedAttribute.attributeType.Validate = none ∧
      deprecatedAttribute.attributeType.ValueFromTerraform
        (ConfigTerraformValueAtPath
          (testRequest deprecatedAttribute .string (.unknown .string)).Config.Raw
          deprecatedAttribute.attributeType testPath) = .ok (.StringValue true false "") ∧
      (AttrValue.StringValue true false "").ToTerraformValue.IsKnown = false) ∧
    (AttributeValidate deprecatedAttribute
      (testRequest deprecatedAttribute .string (.unknown .string)) .fresh).Diagnostics =
      ValidateState.fresh.Diagnostics ++
        [NewAttributeWarningDiagnostic testPath "Attribute Deprecated"
          deprecatedAttribute.DeprecationMessage] :=
  ⟨⟨rfl, by decide, rfl, rfl, rfl, rfl⟩,
    (AttributeValidate_deprecated_unknown deprecatedAttribute
      (testRequest deprecatedAttribute .string (.unknown .string)) .fresh
      (.StringValue true false "") rfl (by decide) rfl rfl rfl rfl).1⟩

/-! ## The log of calls only grows, and nested validation logs deeper paths -/

theorem hookEvents_path (t : AttrType) (tfValue : TfValue) (path : Path) :
    ∀ e ∈ hookEvents t tfValue path, e.path = path := by
  intro e he
  unfold hookEvents at he
  cases hv : t.Validate with
  | none => rw [hv] at he; cases he
  | some hook =>
    rw [hv] at he
    simp only [List.mem_singleton] at he
    rw [he]; rfl

theorem ConfigGetAttributeValue_events (t : AttrType) (raw : TfValue) (path : Path)
    (st : ValidateState) :
    ∃ evs, (ConfigGetAttributeValue t raw path st).2.events = st.events ++ evs ∧
      ∀ e ∈ evs, e.path = path := by
  cases hh : (hookDiagnostics t (ConfigTerraformValueAtPath raw t path) path).HasError with
  | true =>
    rw [ConfigGetAttributeValue_hookError t raw path st hh]
    refine ⟨[.ReadConfig path] ++ hookEvents t (ConfigTerraformValueAtPath raw t path) path,
      by simp, ?_⟩
    intro e he
    rcases List.mem_append.mp he with h | h
    · simp only [List.mem_singleton] at h; rw [h]; rfl
    · exact hookEvents_path _ _ _ e h
  | false =>
    cases hv : t.ValueFromTerraform (ConfigTerraformValueAtPath raw t path) with
    | error err =>
      rw [ConfigGetAttributeValue_error t raw path st err hh hv]
      refine ⟨[.ReadConfig path] ++ hookEvents t (ConfigTerraformValueAtPath raw t path) path
        ++ [.ValueFromTerraform path (ConfigTerraformValueAtPath raw t path)], by simp, ?_⟩
      intro e he
      rcases List.mem_append.mp he with h | h
      · rcases List.mem_append.mp h with h | h
        · simp only [List.mem_singleton] at h; rw [h]; rfl
        · exact hookEvents_path _ _ _ e h
      · simp only [List.mem_singleton] at h; rw [h]; rfl
    | ok v =>
      rw [ConfigGetAttributeValue_ok t raw path st v hh hv]
      refine ⟨[.ReadConfig path] ++ hookEvents t (ConfigTerraformValueAtPath raw t path) path
        ++ [.ValueFromTerraform path (ConfigTerraformValueAtPath raw t path)], by simp, ?_⟩
      intro e he
      rcases List.mem_append.mp he with h | h
      · rcases List.mem_append.mp h with h | h
        · simp only [List.mem_singleton] at h; rw [h]; rfl
        · exact hookEvents_path _ _ _ e h
      · simp only [List.mem_singleton] at h; rw [h]; rfl

/-- The validators of step 6, characterised: the response is the declared
validators folded over the response in order, and the log gains one entry per
validator, in order, each with the diagnostics that validator found on
entry. -/
theorem runValidators_spec (path : Path) (v : Option AttrValue) (raw : TfValue) :
    ∀ (vs : List AttributeValidator) (index : Nat) (st : ValidateState),
      (runValidators path v raw vs index st).resp = validatorsResponse path v raw vs st.resp ∧
      (runValidators path v raw vs index st).events = st.events ++
        (List.range vs.length).map (fun k =>
          Event.Validator path (index + k)
            (validatorsResponse path v raw (vs.take k) st.resp).Diagnostics) := by
  intro vs
  induction vs with
  | nil => intro index st; exact ⟨rfl, by simp [runValidators]⟩
  | cons w rest ih =>
    intro index st
    obtain ⟨h1, h2⟩ := ih (index + 1)
      { resp := w.Validate path v raw st.resp
        events := st.events ++ [.Validator path index st.resp.Diagnostics] }
    constructor
    · simpa [runValidators, validatorsResponse] using h1
    · rw [runValidators, h2]
      simp only [List.length_cons, List.range_succ_eq_map, List.map_cons, List.map_map,
        List.append_assoc, List.singleton_append, List.take_zero, Nat.add_zero]
      congr 1
      congr 1
      · apply List.map_congr_left
        intro k _
        simp [validatorsResponse, Nat.add_assoc, Nat.add_comm 1 k]

theorem validateChildren_nil (req : ValidateAttributeRequest) (key : List PathStep)
    (st : ValidateState) : validateChildren [] req key st = st := rfl

theorem validateChildren_cons (name : String) (child : Attribute)
    (rest : List (String × Attribute)) (req : ValidateAttributeRequest) (key : List PathStep)
    (st : ValidateState) :
    validateChildren ((name, child) :: rest) req key st =
      validateChildren rest req key
        (AttributeValidate child
          { AttributePath := Path.WithAttributeName (req.AttributePath ++ key) name
            Config := req.Config }
          (st.log (.Nested (Path.WithAttributeName (req.AttributePath ++ key) name)))) := rfl

theorem instances_deeper (children : List (String × Attribute)) (req : ValidateAttributeRequest)
    (h : ∀ (key : List PathStep) (st : ValidateState), ∃ evs,
      (validateChildren children req key st).events = st.events ++ evs ∧
      ∀ e ∈ evs, req.AttributePath.length < e.path.length) :
    ∀ (keys : List (List PathStep)) (st : ValidateState), ∃ evs,
      (keys.foldl (fun acc key => validateChildren children req key acc) st).events
        = st.events ++ evs ∧
      ∀ e ∈ evs, req.AttributePath.length < e.path.length := by
  intro keys
  induction keys with
  | nil => intro st; exact ⟨[], by simp, by simp⟩
  | cons key rest ih =>
    intro st
    obtain ⟨e1, h1, g1⟩ := h key st
    obtain ⟨e2, h2, g2⟩ := ih (validateChildren children req key st)
    refine ⟨e1 ++ e2, ?_, ?_⟩
    · rw [List.foldl_cons, h2, h1, List.append_assoc]
    · intro e he
      rcases List.mem_append.mp he with h | h
      · exact g1 e h
      · exact g2 e h

/-- With the nested phase appending only deeper calls, a whole validation of
the attribute only appends to the log, calls for paths at least as long as
the attribute's. -/
theorem AttributeValidate_events_of_nested (a : Attribute) (req : ValidateAttributeRequest)
    (st : ValidateState) (hn : NestedDeeper a req) :
    ∃ evs, (AttributeValidate a req st).events = st.events ++ evs ∧
      ∀ e ∈ evs, req.AttributePath.length ≤ e.path.length := by
  rw [AttributeValidate_unfold]
  cases hd : structuralDefect a with
  | some detail => exact ⟨[], by simp [ValidateState.append], by simp⟩
  | none =>
    simp only
    obtain ⟨e1, h1, g1⟩ :=
      ConfigGetAttributeValue_events a.attributeType req.Config.Raw req.AttributePath st
    cases hc : ConfigGetAttributeValue a.attributeType req.Config.Raw req.AttributePath st with
    | mk ov st1 =>
      rw [hc] at h1
      cases ov with
      | none =>
        refine ⟨e1, h1, ?_⟩
        intro e he; rw [g1 e he]
      | some v =>
        simp only
        obtain ⟨e3, h3, g3⟩ := hn v
          (runValidators req.AttributePath (some v) req.Config.Raw a.Validators 0
            (st1.append (deprecationWarning a req.AttributePath v)))
        have h2 := (runValidators_spec req.AttributePath (some v) req.Config.Raw a.Validators 0
          (st1.append (deprecationWarning a req.AttributePath v))).2
        refine ⟨e1 ++ (List.range a.Validators.length).map (fun k =>
          Event.Validator req.AttributePath (0 + k)
            (validatorsResponse req.AttributePath (some v) req.Config.Raw (a.Validators.take k)
              (st1.append (deprecationWarning a req.AttributePath v)).resp).Diagnostics) ++ e3,
          ?_, ?_⟩
        · rw [h3, h2]
          simp only [ValidateState.append] at h1 ⊢
          rw [h1]
          simp only [List.append_assoc]
        · intro e he
          rcases List.mem_append.mp he with h | h
          · rcases List.mem_append.mp h with h | h
            · rw [g1 e h]
            · obtain ⟨k, _, hk⟩ := List.mem_map.mp h
              rw [← hk]; exact Nat.le_refl _
          · exact Nat.le_of_lt (g3 e h)

theorem nestedDeeper_none (t : Option AttrType) (r o c : Bool) (d : String)
    (vs : List AttributeValidator) (req : ValidateAttributeRequest) :
    NestedDeeper (.mk t none r o c d vs) req := by
  intro v st
  exact ⟨[], by simp [validateNestedAttributes, Attribute.Attributes], by simp⟩

mutual
theorem AttributeValidate_events : (a : Attribute) → ∀ (req : ValidateAttributeRequest)
    (st : ValidateState), ∃ evs, (AttributeValidate a req st).events = st.events ++ evs ∧
      ∀ e ∈ evs, req.AttributePath.length ≤ e.path.length
  | .mk t none r o c d vs, req, st =>
    AttributeValidate_events_of_nested _ req st (nestedDeeper_none t r o c d vs req)
  | .mk _ (some (.mk _ children)) _ _ _ _ _, req, st =>
    AttributeValidate_events_of_nested _ req st
      (fun _ st1 => instances_deeper children req
        (fun key st2 => validateChildren_events children req key st2) _ st1)
theorem validateChildren_events : (children : List (String × Attribute)) →
    ∀ (req : ValidateAttributeRequest) (key : List PathStep) (st : ValidateState), ∃ evs,
      (validateChildren children req key st).events = st.events ++ evs ∧
      ∀ e ∈ evs, req.AttributePath.length < e.path.length
  | [], req, key, st => ⟨[], by simp [validateChildren_nil], by simp⟩
  | (name, child) :: rest, req, key, st => by
    obtain ⟨e1, h1, g1⟩ := AttributeValidate_events child
      { AttributePath := Path.WithAttributeName (req.AttributePath ++ key) name
        Config := req.Config }
      (st.log (.Nested (Path.WithAttributeName (req.AttributePath ++ key) name)))
    obtain ⟨e2, h2, g2⟩ := validateChildren_events rest req key
      (AttributeValidate child
        { AttributePath := Path.WithAttributeName (req.AttributePath ++ key) name
          Config := req.Config }
        (st.log (.Nested (Path.WithAttributeName (req.AttributePath ++ key) name))))
    have hlen : req.AttributePath.length <
        (Path.WithAttributeName (req.AttributePath ++ key) name).length := by
      simp [Path.WithAttributeName]
    refine ⟨[.Nested (Path.WithAttributeName (req.AttributePath ++ key) name)] ++ e1 ++ e2,
      ?_, ?_⟩
    · rw [validateChildren_cons, h2, h1]
      simp [ValidateState.log]
    · intro e he
      rcases List.mem_append.mp he with h | h
      · rcases List.mem_append.mp h with h | h
        · simp only [List.mem_singleton] at h
          rw [h]; exact hlen
        · exact Nat.lt_of_lt_of_le hlen (g1 e h)
      · exact g2 e h
end

theorem nestedDeeper (a : Attribute) (req : ValidateAttributeRequest) : NestedDeeper a req := by
  cases a with
  | mk t n r o c d vs =>
    cases n with
    | none => exact nestedDeeper_none t r o c d vs req
    | some na =>
      cases na with
      | mk mode children =>
        intro v st
        exact instances_deeper children req
          (fun key st2 => validateChildren_events children req key st2) _ st

/-! ## Validators in declared order (C4) -/

/-- Counterexample to the last sentence of C4 as stated. The attribute is
structurally valid, its value is read, and it carries two validators that each
append the first error to an empty response and the second one otherwise; its
type `StringTypeWithValidateWarning` has a hook that reports a warning, kept
in the response before the validators run. The result begins with the hook's
warning and is not the list of the first and the second error. -/
theorem AttributeValidate_validators_in_order_counterexample :
    structuralDefect warnedValidatedAttribute = none ∧
    warnedValidatedAttribute.Validators =
      [testErrorAttributeValidator, testErrorAttributeValidator] ∧
    warnedValidatedAttribute.attributeType.ValueFromTerraform
      (attributeTerraformValue warnedValidatedAttribute
        (testRequest warnedValidatedAttribute .string (.string "testvalue")))
      = .ok (.ProviderValue "testtypes.String" "testtypes.StringTypeWithValidateWarning"
          (.StringValue false false "testvalue")) ∧
    (AttributeValidate warnedValidatedAttribute
      (testRequest warnedValidatedAttribute .string (.string "testvalue"))
      .fresh).Diagnostics.head? = some (TestWarningDiagnostic testPath) ∧
    (AttributeValidate warnedValidatedAttribute
      (testRequest warnedValidatedAttribute .string (.string "testvalue"))
      .fresh).Diagnostics ≠ [testErrorDiagnostic1, testErrorDiagnostic2] := by
  refine ⟨rfl, rfl, rfl, rfl, ?_⟩
  intro h
  have h2 := congrArg List.head? h
  have h3 : (AttributeValidate warnedValidatedAttribute
      (testRequest warnedValidatedAttribute .string (.string "testvalue"))
      .fresh).Diagnostics.head? = some (TestWarningDiagnostic testPath) := rfl
  rw [h3] at h2
  simp [TestWarningDiagnostic, testErrorDiagnostic1, NewAttributeWarningDiagnostic,
    NewErrorDiagnostic, NewWarningDiagnostic, withPath] at h2

/-- C4, amended. For a structurally valid attribute whose value is read as
`v`, the declared validators run one after the other on the one shared
response, each exactly once and in declared order: the response they leave is
the validators folded in order over the response the read left, the log gains
after the read one entry per validator, in order, each holding the diagnostics
that validator found on entry (those of the validators before it included),
and every later entry is for a longer path (a nested attribute). In particular
two validators that append a first diagnostic to an empty response and a second
one otherwise yield exactly those two, in that order, when the response is
empty when they start and the attribute has no nested attributes. -/
theorem AttributeValidate_validators_in_order (a : Attribute)
    (req : ValidateAttributeRequest) (st : ValidateState) (v : AttrValue)
    (hvalid : structuralDefect a = none)
    (hhook : (hookDiagnostics a.attributeType
      (ConfigTerraformValueAtPath req.Config.Raw a.attributeType req.AttributePath)
      req.AttributePath).HasError = false)
    (hread : a.attributeType.ValueFromTerraform
      (ConfigTerraformValueAtPath req.Config.Raw a.attributeType req.AttributePath) = .ok v) :
    AttributeValidate a req st =
      validateNestedAttributes a req v
        (runValidators req.AttributePath (some v) req.Config.Raw a.Validators 0
          (stateBeforeValidators a req st v)) ∧
    (runValidators req.AttributePath (some v) req.Config.Raw a.Validators 0
        (stateBeforeValidators a req st v)).resp =
      validatorsResponse req.AttributePath (some v) req.Config.Raw a.Validators
        (stateBeforeValidators a req st v).resp ∧
    (∃ later, (AttributeValidate a req st).events =
        (stateBeforeValidators a req st v).events ++
        (List.range a.Validators.length).map (fun k =>
          Event.Validator req.AttributePath k
            (validatorsResponse req.AttributePath (some v) req.Config.Raw (a.Validators.take k)
              (stateBeforeValidators a req st v).resp).Diagnostics) ++ later ∧
      ∀ e ∈ later, req.AttributePath.length < e.path.length) ∧
    (∀ (w : AttributeValidator) (d1 d2 : Diagnostic),
      (∀ p x raw resp, w.Validate p x raw resp =
        { Diagnostics := resp.Diagnostics ++ [if resp.Diagnostics.length = 0 then d1 else d2] }) →
      a.Validators = [w, w] → (stateBeforeValidators a req st v).Diagnostics = [] →
      a.Attributes = none →
      (AttributeValidate a req st).Diagnostics = [d1, d2]) := by
  have hmain : AttributeValidate a req st =
      validateNestedAttributes a req v
        (runValidators req.AttributePath (some v) req.Config.Raw a.Validators 0
          (stateBeforeValidators a req st v)) :=
    AttributeValidate_read a req st v hvalid hhook hread
  have hspec := runValidators_spec req.AttributePath (some v) req.Config.Raw a.Validators 0
    (stateBeforeValidators a req st v)
  refine ⟨hmain, hspec.1, ?_, ?_⟩
  · obtain ⟨later, h1, h2⟩ := nestedDeeper a req v
      (runValidators req.AttributePath (some v) req.Config.Raw a.Validators 0
        (stateBeforeValidators a req st v))
    refine ⟨later, ?_, h2⟩
    rw [hmain, h1, hspec.2]
    simp only [Nat.zero_add]
  · intro w d1 d2 hw hvs hempty hnone
    rw [hmain, validateNestedAttributes_noInstances a req v _
      (fun n hn => by rw [hnone] at hn; cases hn)]
    show (runValidators req.AttributePath (some v) req.Config.Raw a.Validators 0
        (stateBeforeValidators a req st v)).resp.Diagnostics = [d1, d2]
    rw [hspec.1, hvs]
    have he : (stateBeforeValidators a req st v).resp.Diagnostics = [] := hempty
    simp [validatorsResponse, hw, he]

/-- Witness of C4 (amended) on the case `errors`: two
`testErrorAttributeValidator` on a required string yield the first and then
the second error. -/
theorem AttributeValidate_validators_in_order_witness :
    (structuralDefect (Attribute.mk (some StringType) none true false false ""
        [testErrorAttributeValidator, testErrorAttributeValidator]) = none ∧
      (hookDiagnostics StringType (.string "testvalue") testPath).HasError = false ∧
      StringType.ValueFromTerraform (.string "testvalue")
        = .ok (.StringValue false false "testvalue")) ∧
    (AttributeValidate
      (.mk (some StringType) none true false false ""
        [testErrorAttributeValidator, testErrorAttributeValidator])
      (testRequest (.mk (some StringType) none true false false ""
        [testErrorAttributeValidator, testErrorAttributeValidator]) .string
        (.string "testvalue"))
      .fresh).Diagnostics = [testErrorDiagnostic1, testErrorDiagnostic2] :=
  ⟨⟨rfl, rfl, rfl⟩,
    (AttributeValidate_validators_in_order
      (.mk (some StringType) none true false false ""
        [testErrorAttributeValidator, testErrorAttributeValidator])
      (testRequest (.mk (some StringType) none true false false ""
        [testErrorAttributeValidator, testErrorAttributeValidator]) .string
        (.string "testvalue"))
      .fresh (.StringValue false false "testvalue") rfl rfl rfl).2.2.2
      testErrorAttributeValidator testErrorDiagnostic1 testErrorDiagnostic2
      (by
        intro p x raw resp
        show (if resp.Diagnostics.length = 0 then _ else _) = _
        by_cases h : resp.Diagnostics.length = 0 <;> simp [h, Diagnostics.Append])
      rfl rfl rfl⟩

/-! ## Paths of nested validation (C5) -/

/-- Counterexample to C5 as stated, on the cases `nested-attr-*-validation`
of the test table: for each nesting kind the one diagnostic is
`testErrorDiagnostic1`, which the validator made without a path, so it does
not carry the path of the nested field. -/
theorem AttributeValidate_nested_path_counterexample :
    (AttributeValidate (nestedValidationAttribute .NestingModeList)
      (testRequest (nestedValidationAttribute .NestingModeList) (.list nestedObjectType)
        (.list nestedObjectType [nestedObjectValue])) .fresh).Diagnostics
      = [testErrorDiagnostic1] ∧
    (AttributeValidate (nestedValidationAttribute .NestingModeMap)
      (testRequest (nestedValidationAttribute .NestingModeMap) (.map nestedObjectType)
        (.map nestedObjectType [("testkey", nestedObjectValue)])) .fresh).Diagnostics
      = [testErrorDiagnostic1] ∧
    (AttributeValidate (nestedValidationAttribute .NestingModeSet)
      (testRequest (nestedValidationAttribute .NestingModeSet) (.set nestedObjectType)
        (.set nestedObjectType [nestedObjectValue])) .fresh).Diagnostics
      = [testErrorDiagnostic1] ∧
    (AttributeValidate (nestedValidationAttribute .NestingModeSingle)
      (testRequest (nestedValidationAttribute .NestingModeSingle) nestedObjectType
        nestedObjectValue) .fresh).Diagnostics = [testErrorDiagnostic1] ∧
    testErrorDiagnostic1.path = none ∧
    testErrorDiagnostic1.path ≠
      some (((testPath.WithElementKeyInt 0).WithAttributeName "nested_attr")) ∧
    testErrorDiagnostic1.path ≠
      some (((testPath.WithElementKeyString "testkey").WithAttributeName "nested_attr")) ∧
    testErrorDiagnostic1.path ≠
      some (((testPath.WithElementKeyValue nestedObjectValue).WithAttributeName "nested_attr")) ∧
    testErrorDiagnostic1.path ≠ some (testPath.WithAttributeName "nested_attr") := by
  refine ⟨rfl, rfl, rfl, rfl, rfl, ?_, ?_, ?_, ?_⟩ <;>
    simp [testErrorDiagnostic1, NewErrorDiagnostic]

theorem presentInstances_one (mode : NestingMode) (v : AttrValue) (key : List PathStep)
    (h : presentInstances mode v = [key]) :
    (mode = .NestingModeSingle → key = []) ∧
    (mode = .NestingModeList → key = [.ElementKeyInt 0]) ∧
    (mode = .NestingModeMap →
      ∃ k e t, v = .MapValue false false [(k, e)] t ∧ key = [.ElementKeyString k]) ∧
    (mode = .NestingModeSet →
      ∃ e t, v = .SetValue false false [e] t ∧ key = [.ElementKeyValue e.ToTerraformValue]) := by
  cases mode <;> refine ⟨?_, ?_, ?_, ?_⟩ <;> intro hm <;> cases hm
  · cases v with
    | ObjectValue u n as ts =>
      cases u <;> cases n <;> simp [presentInstances] at h
      exact h
    | _ => simp [presentInstances] at h
  · cases v with
    | ListValue u n es t =>
      cases u <;> cases n <;> simp [presentInstances] at h
      have hlen := congrArg List.length h
      simp only [List.length_map, List.length_range, List.length_singleton] at hlen
      rw [hlen] at h
      simp [List.range_succ] at h
      exact h.symm
    | _ => simp [presentInstances] at h
  · cases v with
    | SetValue u n es t =>
      cases u <;> cases n <;> simp [presentInstances] at h
      cases es with
      | nil => simp at h
      | cons e rest =>
        cases rest with
        | nil => simp at h; exact ⟨e, t, rfl, h.symm⟩
        | cons e2 rest2 => simp at h
    | _ => simp [presentInstances] at h
  · cases v with
    | MapValue u n es t =>
      cases u <;> cases n <;> simp [presentInstances] at h
      cases es with
      | nil => simp at h
      | cons e rest =>
        cases rest with
        | nil => simp at h; exact ⟨e.1, e.2, t, rfl, h.symm⟩
        | cons e2 rest2 => simp at h
    | _ => simp [presentInstances] at h

/-- C5, amended. A nested attribute of any nesting kind, without validators
and deprecation message of its own, whose value is read with exactly one
present element, and whose one inner field is required, without deprecation
message, of a type without hook that reads the field's value without error,
and carries one validator: the validator is called once, on a request whose
path is the outer attribute's path, then the element-key step of the element
(none for Single, the index 0 for List, the key for Map, the element's value
for Set), then the name of the inner field; the response is what that
validator makes of the response, so the diagnostics are exactly the
validator's and carry the path the validator gives them. -/
theorem AttributeValidate_nested_path (mode : NestingMode) (name : String) (t : AttrType)
    (w : AttributeValidator) (r o c : Bool) (req : ValidateAttributeRequest)
    (st : ValidateState) (v cv : AttrValue) (key : List PathStep)
    (hflags : (r || o || c) = true)
    (hhook : t.Validate = none)
    (hread : (nestedAttributeWith mode name t w r o c).attributeType.ValueFromTerraform
      (ConfigTerraformValueAtPath req.Config.Raw
        (nestedAttributeWith mode name t w r o c).attributeType req.AttributePath) = .ok v)
    (hone : presentInstances mode v = [key])
    (hcread : t.ValueFromTerraform
      (ConfigTerraformValueAtPath req.Config.Raw t
        (Path.WithAttributeName (req.AttributePath ++ key) name)) = .ok cv) :
    (AttributeValidate (nestedAttributeWith mode name t w r o c) req st).resp =
      w.Validate (Path.WithAttributeName (req.AttributePath ++ key) name) (some cv)
        req.Config.Raw st.resp ∧
    (AttributeValidate (nestedAttributeWith mode name t w r o c) req st).events =
      st.events ++
        [.ReadConfig req.AttributePath,
          .ValueFromTerraform req.AttributePath
            (ConfigTerraformValueAtPath req.Config.Raw
              (nestedAttributeWith mode name t w r o c).attributeType req.AttributePath),
          .Nested (Path.WithAttributeName (req.AttributePath ++ key) name),
          .ReadConfig (Path.WithAttributeName (req.AttributePath ++ key) name),
          .ValueFromTerraform (Path.WithAttributeName (req.AttributePath ++ key) name)
            (ConfigTerraformValueAtPath req.Config.Raw t
              (Path.WithAttributeName (req.AttributePath ++ key) name)),
          .Validator (Path.WithAttributeName (req.AttributePath ++ key) name) 0
            st.Diagnostics] ∧
    (mode = .NestingModeSingle → key = []) ∧
    (mode = .NestingModeList → key = [.ElementKeyInt 0]) ∧
    (mode = .NestingModeMap →
      ∃ k e et, v = .MapValue false false [(k, e)] et ∧ key = [.ElementKeyString k]) ∧
    (mode = .NestingModeSet →
      ∃ e et, v = .SetValue false false [e] et ∧
        key = [.ElementKeyValue e.ToTerraformValue]) := by
  have hvalid : structuralDefect (nestedAttributeWith mode name t w r o c) = none := by
    cases r <;> cases o <;> cases c <;> first | rfl | simp at hflags
  have houter : (nestedAttributeWith mode name t w r o c).attributeType.Validate = none := by
    cases mode <;> rfl
  have hh : (hookDiagnostics (nestedAttributeWith mode name t w r o c).attributeType
      (ConfigTerraformValueAtPath req.Config.Raw
        (nestedAttributeWith mode name t w r o c).attributeType req.AttributePath)
      req.AttributePath).HasError = false := by
    rw [hookDiagnostics_none _ _ _ houter]; rfl
  have hmain := AttributeValidate_read _ req st v hvalid hh hread
  rw [hookDiagnostics_none _ _ _ houter, hookEvents_none _ _ _ houter] at hmain
  have hchild : structuralDefect (Attribute.mk (some t) none true false false "" [w]) = none :=
    rfl
  have hch : (hookDiagnostics (Attribute.mk (some t) none true false false "" [w]).attributeType
      (ConfigTerraformValueAtPath req.Config.Raw
        (Attribute.mk (some t) none true false false "" [w]).attributeType
        (Path.WithAttributeName (req.AttributePath ++ key) name))
      (Path.WithAttributeName (req.AttributePath ++ key) name)).HasError = false := by
    rw [hookDiagnostics_none _ _ _ (show (Attribute.mk (some t) none true false false ""
      [w]).attributeType.Validate = none from hhook)]; rfl
  have hsub := fun s => AttributeValidate_read (Attribute.mk (some t) none true false false "" [w])
    { AttributePath := Path.WithAttributeName (req.AttributePath ++ key) name
      Config := req.Config } s cv hchild hch hcread
  have hkeys := presentInstances_one mode v key hone
  refine ⟨?_, ?_, hkeys⟩
  · rw [hmain]
    simp only [validateNestedAttributes, nestedAttributeWith, Attribute.Attributes,
      NestedAttributes.GetNestingMode, NestedAttributes.GetAttributes, hone, List.foldl_cons,
      List.foldl_nil, validateChildren_cons, validateChildren_nil, Attribute.Validators,
      runValidators_nil, hsub]
    simp [runValidators, Attribute.Validators, Attribute.attributeType, hookDiagnostics, hhook,
      deprecationWarning, Attribute.DeprecationMessage, ValidateState.log,
      ValidateState.Diagnostics]
  · rw [hmain]
    simp only [validateNestedAttributes, nestedAttributeWith, Attribute.Attributes,
      NestedAttributes.GetNestingMode, NestedAttributes.GetAttributes, hone, List.foldl_cons,
      List.foldl_nil, validateChildren_cons, validateChildren_nil, Attribute.Validators,
      runValidators_nil, hsub]
    simp [runValidators, Attribute.Validators, Attribute.attributeType, hookDiagnostics, hhook,
      hookEvents, deprecationWarning, Attribute.DeprecationMessage, ValidateState.log,
      ValidateState.Diagnostics]

/-- Witness of C5 (amended) on the cases `nested-attr-*-validation`, one per
nesting kind: the validator of the nested field is called at the path of the
outer attribute, the element key and the field name, and the response is the
validator's `testErrorDiagnostic1`. -/
theorem AttributeValidate_nested_path_witness :
    ((true || false || false) = true ∧ StringType.Validate = none ∧
      presentInstances .NestingModeList
        (.ListValue false false [nestedObjectAttrValue] nestedObjectType)
        = [[.ElementKeyInt 0]] ∧
      presentInstances .NestingModeMap
        (.MapValue false false [("testkey", nestedObjectAttrValue)] nestedObjectType)
        = [[.ElementKeyString "testkey"]] ∧
      presentInstances .NestingModeSet
        (.SetValue false false [nestedObjectAttrValue] nestedObjectType)
        = [[.ElementKeyValue nestedObjectValue]] ∧
      presentInstances .NestingModeSingle nestedObjectAttrValue = [[]]) ∧
    (AttributeValidate (nestedValidationAttribute .NestingModeList)
      (testRequest (nestedValidationAttribute .NestingModeList) (.list nestedObjectType)
        (.list nestedObjectType [nestedObjectValue])) .fresh).resp =
      testErrorAttributeValidator.Validate
        (Path.WithAttributeName (testPath ++ [.ElementKeyInt 0]) "nested_attr")
        (some (.StringValue false false "testvalue"))
        (.object [("test", .list nestedObjectType)]
          [("test", .list nestedObjectType [nestedObjectValue])])
        { Diagnostics := [] } ∧
    (AttributeValidate (nestedValidationAttribute .NestingModeMap)
      (testRequest (nestedValidationAttribute .NestingModeMap) (.map nestedObjectType)
        (.map nestedObjectType [("testkey", nestedObjectValue)])) .fresh).resp =
      testErrorAttributeValidator.Validate
        (Path.WithAttributeName (testPath ++ [.ElementKeyString "testkey"]) "nested_attr")
        (some (.StringValue false false "testvalue"))
        (.object [("test", .map nestedObjectType)]
          [("test", .map nestedObjectType [("testkey", nestedObjectValue)])])
        { Diagnostics := [] } ∧
    (AttributeValidate (nestedValidationAttribute .NestingModeSet)
      (testRequest (nestedValidationAttribute .NestingModeSet) (.set nestedObjectType)
        (.set nestedObjectType [nestedObjectValue])) .fresh).resp =
      testErrorAttributeValidator.Validate
        (Path.WithAttributeName (testPath ++ [.ElementKeyValue nestedObjectValue]) "nested_attr")
        (some (.StringValue false false "testvalue"))
        (.object [("test", .set nestedObjectType)]
          [("test", .set nestedObjectType [nestedObjectValue])])
        { Diagnostics := [] } ∧
    (AttributeValidate (nestedValidationAttribute .NestingModeSingle)
      (testRequest (nestedValidationAttribute .NestingModeSingle) nestedObjectType
        nestedObjectValue) .fresh).resp =
      testErrorAttributeValidator.Validate
        (Path.WithAttributeName (testPath ++ []) "nested_attr")
        (some (.StringValue false false "testvalue"))
        (.object [("test", nestedObjectType)] [("test", nestedObjectValue)])
        { Diagnostics := [] } :=
  ⟨⟨rfl, rfl, rfl, rfl, rfl, rfl⟩,
    (AttributeValidate_nested_path .NestingModeList "nested_attr" StringType
      testErrorAttributeValidator true false false
      (testRequest (nestedValidationAttribute .NestingModeList) (.list nestedObjectType)
        (.list nestedObjectType [nestedObjectValue])) .fresh
      (.ListValue false false [nestedObjectAttrValue] nestedObjectType)
      (.StringValue false false "testvalue") [.ElementKeyInt 0] rfl rfl rfl rfl rfl).1,
    (AttributeValidate_nested_path .NestingModeMap "nested_attr" StringType
      testErrorAttributeValidator true false false
      (testRequest (nestedValidationAttribute .NestingModeMap) (.map nestedObjectType)
        (.map nestedObjectType [("testkey", nestedObjectValue)])) .fresh
      (.MapValue false false [("testkey", nestedObjectAttrValue)] nestedObjectType)
      (.StringValue false false "testvalue") [.ElementKeyString "testkey"]
      rfl rfl rfl rfl rfl).1,
    (AttributeValidate_nested_path .NestingModeSet "nested_attr" StringType
      testErrorAttributeValidator true false false
      (testRequest (nestedValidationAttribute .NestingModeSet) (.set nestedObjectType)
        (.set nestedObjectType [nestedObjectValue])) .fresh
      (.SetValue false false [nestedObjectAttrValue] nestedObjectType)
      (.StringValue false false "testvalue") [.ElementKeyValue nestedObjectValue]
      rfl rfl rfl rfl rfl).1,
    (AttributeValidate_nested_path .NestingModeSingle "nested_attr" StringType
      testErrorAttributeValidator true false false
      (testRequest (nestedValidationAttribute .NestingModeSingle) nestedObjectType
        nestedObjectValue) .fresh
      nestedObjectAttrValue
      (.StringValue false false "testvalue") [] rfl rfl rfl rfl rfl).1⟩

/-! ## The validation hook of the type (C6) and construction failures (C7) -/

/-- C6. For a structurally valid attribute whose type has a validation hook:
if the hook's diagnostics hold an Error, the response gains exactly the hook's
diagnostics and the log ends with the read and the hook call (no value
construction, no deprecation warning, no validator, no nested validation); if
they hold no Error they are kept and validation goes on with the value
construction, whose failure adds the one "Configuration Read Error" and whose
success lets the deprecation warning, the validators and the nested
attributes run on the response that holds the hook's warnings. -/
theorem AttributeValidate_type_hook (a : Attribute) (req : ValidateAttributeRequest)
    (st : ValidateState) (hook : TfValue → Path → Diagnostics)
    (hvalid : structuralDefect a = none)
    (hhook : a.attributeType.Validate = some hook) :
    ((hook (attributeTerraformValue a req) req.AttributePath).HasError = true →
      AttributeValidate a req st =
        { resp :=
            { Diagnostics := st.Diagnostics ++
                hook (attributeTerraformValue a req) req.AttributePath }
          events := st.events ++
            [.ReadConfig req.AttributePath,
              .TypeValidate req.AttributePath (attributeTerraformValue a req)] }) ∧
    ((hook (attributeTerraformValue a req) req.AttributePath).HasError = false →
      (∀ err, a.attributeType.ValueFromTerraform (attributeTerraformValue a req) = .error err →
        AttributeValidate a req st =
          { resp :=
              { Diagnostics := st.Diagnostics ++
                  hook (attributeTerraformValue a req) req.AttributePath ++
                  [NewAttributeErrorDiagnostic req.AttributePath "Configuration Read Error"
                    (configReadErrorLead ++ err.Error)] }
            events := st.events ++
              [.ReadConfig req.AttributePath,
                .TypeValidate req.AttributePath (attributeTerraformValue a req),
                .ValueFromTerraform req.AttributePath (attributeTerraformValue a req)] }) ∧
      (∀ v, a.attributeType.ValueFromTerraform (attributeTerraformValue a req) = .ok v →
        AttributeValidate a req st =
          validateNestedAttributes a req v
            (runValidators req.AttributePath (some v) req.Config.Raw a.Validators 0
              { resp :=
                  { Diagnostics := st.Diagnostics ++
                      hook (attributeTerraformValue a req) req.AttributePath ++
                      deprecationWarning a req.AttributePath v }
                events := st.events ++
                  [.ReadConfig req.AttributePath,
                    .TypeValidate req.AttributePath (attributeTerraformValue a req),
                    .ValueFromTerraform req.AttributePath
                      (attributeTerraformValue a req)] }))) := by
  have hd : ∀ tf p, hookDiagnostics a.attributeType tf p = hook tf p := by
    intro tf p; simp [hookDiagnostics, hhook]
  have he : ∀ tf p, hookEvents a.attributeType tf p = [.TypeValidate p tf] := by
    intro tf p; simp [hookEvents, hhook]
  unfold attributeTerraformValue
  refine ⟨?_, ?_⟩
  · intro herr
    rw [AttributeValidate_unfold, hvalid]
    simp only
    rw [ConfigGetAttributeValue_hookError _ _ _ st (by rw [hd]; exact herr), hd, he]
    simp
  · intro hok
    refine ⟨?_, ?_⟩
    · intro err hv
      rw [AttributeValidate_unfold, hvalid]
      simp only
      rw [ConfigGetAttributeValue_error _ _ _ st err (by rw [hd]; exact hok) hv, hd, he]
      simp
    · intro v hv
      rw [AttributeValidate_read a req st v hvalid (by rw [hd]; exact hok) hv, hd, he]
      simp

/-- Witness of C6 on the case `type-with-validate-error`: the hook of
`StringTypeWithValidateError` reports an error and the response is exactly
that error. -/
theorem AttributeValidate_type_hook_witness :
    (structuralDefect (Attribute.mk (some StringTypeWithValidateError) none true false false ""
        []) = none ∧
      (Attribute.mk (some StringTypeWithValidateError) none true false false ""
        []).attributeType.Validate = some (fun _ path => [TestErrorDiagnostic path]) ∧
      Diagnostics.HasError [TestErrorDiagnostic testPath] = true) ∧
    AttributeValidate (.mk (some StringTypeWithValidateError) none true false false "" [])
      (testRequest (.mk (some StringTypeWithValidateError) none true false false "" []) .string
        (.string "testvalue")) .fresh =
      { resp := { Diagnostics := ValidateState.fresh.Diagnostics ++ [TestErrorDiagnostic testPath] }
        events := ValidateState.fresh.events ++
          [.ReadConfig testPath, .TypeValidate testPath (.string "testvalue")] } :=
  ⟨⟨rfl, rfl, rfl⟩,
    (AttributeValidate_type_hook
      (.mk (some StringTypeWithValidateError) none true false false "" [])
      (testRequest (.mk (some StringTypeWithValidateError) none true false false "" []) .string
        (.string "testvalue")) .fresh (fun _ path => [TestErrorDiagnostic path]) rfl rfl).1 rfl⟩

/-- Counterexample to C7 as stated. Both attributes are structurally valid and
their number type cannot construct a value from the string `"testvalue"` at
the path. With `NumberTypeWithValidateWarning` the result holds two
diagnostics, the hook's warning and then the "Configuration Read Error"; with
`NumberTypeWithValidateError` it holds the hook's error alone and no
"Configuration Read Error". -/
theorem AttributeValidate_construction_failure_counterexample :
    (structuralDefect numberWithWarningAttribute = none ∧
      numberWithWarningAttribute.attributeType.ValueFromTerraform
        (attributeTerraformValue numberWithWarningAttribute
          (testRequest numberWithWarningAttribute .string (.string "testvalue")))
        = .error (unmarshalError (.string "testvalue") "*big.Float" "*big.Float") ∧
      (AttributeValidate numberWithWarningAttribute
        (testRequest numberWithWarningAttribute .string (.string "testvalue"))
        .fresh).Diagnostics =
        [TestWarningDiagnostic testPath,
          NewAttributeErrorDiagnostic testPath "Configuration Read Error"
            (configReadErrorLead ++
              (unmarshalError (.string "testvalue") "*big.Float" "*big.Float").Error)] ∧
      (AttributeValidate numberWithWarningAttribute
        (testRequest numberWithWarningAttribute .string (.string "testvalue"))
        .fresh).Diagnostics.length = 2) ∧
    (structuralDefect numberWithErrorAttribute = none ∧
      numberWithErrorAttribute.attributeType.ValueFromTerraform
        (attributeTerraformValue numberWithErrorAttribute
          (testRequest numberWithErrorAttribute .string (.string "testvalue")))
        = .error (unmarshalError (.string "testvalue") "*big.Float" "*big.Float") ∧
      (AttributeValidate numberWithErrorAttribute
        (testRequest numberWithErrorAttribute .string (.string "testvalue"))
        .fresh).Diagnostics = [TestErrorDiagnostic testPath] ∧
      (TestErrorDiagnostic testPath).Summary ≠ "Configuration Read Error") := by
  exact ⟨⟨rfl, rfl, rfl, rfl⟩, ⟨rfl, rfl, rfl, by decide⟩⟩

/-- C7, amended. For a structurally valid attribute whose type's hook, if it
has one, reported no Error, and whose type fails to construct a value from the
config value at the path: the response gains the hook's warnings and then
exactly one Error at the attribute's path with summary "Configuration Read
Error", whose detail ends with the text of the construction error; that is the
one diagnostic appended when the type has no hook. The log ends with the read,
the hook call if any and the construction: no validator and no nested
validation ran. -/
theorem AttributeValidate_construction_failure (a : Attribute)
    (req : ValidateAttributeRequest) (st : ValidateState) (err : GoError)
    (hvalid : structuralDefect a = none)
    (hhook : (hookDiagnostics a.attributeType (attributeTerraformValue a req)
      req.AttributePath).HasError = false)
    (herr : a.attributeType.ValueFromTerraform (attributeTerraformValue a req) = .error err) :
    AttributeValidate a req st =
      { resp :=
          { Diagnostics := st.Diagnostics ++
              hookDiagnostics a.attributeType (attributeTerraformValue a req) req.AttributePath ++
              [NewAttributeErrorDiagnostic req.AttributePath "Configuration Read Error"
                (configReadErrorLead ++ err.Error)] }
        events := st.events ++ [.ReadConfig req.AttributePath] ++
          hookEvents a.attributeType (attributeTerraformValue a req) req.AttributePath ++
          [.ValueFromTerraform req.AttributePath (attributeTerraformValue a req)] } ∧
    (a.attributeType.Validate = none →
      (AttributeValidate a req st).Diagnostics = st.Diagnostics ++
        [NewAttributeErrorDiagnostic req.AttributePath "Configuration Read Error"
          (configReadErrorLead ++ err.Error)]) ∧
    (NewAttributeErrorDiagnostic req.AttributePath "Configuration Read Error"
      (configReadErrorLead ++ err.Error)).Severity = .Error ∧
    (NewAttributeErrorDiagnostic req.AttributePath "Configuration Read Error"
      (configReadErrorLead ++ err.Error)).path = some req.AttributePath ∧
    (NewAttributeErrorDiagnostic req.AttributePath "Configuration Read Error"
      (configReadErrorLead ++ err.Error)).Detail = configReadErrorLead ++ err.Error := by
  have hmain : AttributeValidate a req st =
      { resp :=
          { Diagnostics := st.Diagnostics ++
              hookDiagnostics a.attributeType (attributeTerraformValue a req) req.AttributePath ++
              [NewAttributeErrorDiagnostic req.AttributePath "Configuration Read Error"
                (configReadErrorLead ++ err.Error)] }
        events := st.events ++ [.ReadConfig req.AttributePath] ++
          hookEvents a.attributeType (attributeTerraformValue a req) req.AttributePath ++
          [.ValueFromTerraform req.AttributePath (attributeTerraformValue a req)] } := by
    rw [AttributeValidate_unfold, hvalid]
    simp only
    rw [ConfigGetAttributeValue_error _ _ _ st err hhook herr]
    rfl
  refine ⟨hmain, ?_, rfl, rfl, rfl⟩
  intro hnone
  rw [hmain]
  simp [ValidateState.Diagnostics, hookDiagnostics_none _ _ _ hnone]

/-- Witness of C7 (amended) on the case `config-error`: a list of strings
over the string `"testvalue"`. -/
theorem AttributeValidate_construction_failure_witness :
    (structuralDefect (Attribute.mk (some (ListType StringType)) none true false false "" [])
        = none ∧
      (hookDiagnostics (ListType StringType) (.string "testvalue") testPath).HasError = false ∧
      (ListType StringType).ValueFromTerraform (.string "testvalue")
        = .error (shapeError (.string "testvalue") "List" StringType) ∧
      (ListType StringType).Validate = none) ∧
    (AttributeValidate (.mk (some (ListType StringType)) none true false false "" [])
      (testRequest (.mk (some (ListType StringType)) none true false false "" []) .string
        (.string "testvalue")) .fresh).Diagnostics =
      ValidateState.fresh.Diagnostics ++
        [NewAttributeErrorDiagnostic testPath "Configuration Read Error"
          (configReadErrorLead ++ (shapeError (.string "testvalue") "List" StringType).Error)] :=
  ⟨⟨rfl, rfl, rfl, rfl⟩,
    (AttributeValidate_construction_failure
      (.mk (some (ListType StringType)) none true false false "" [])
      (testRequest (.mk (some (ListType StringType)) none true false false "" []) .string
        (.string "testvalue")) .fresh (shapeError (.string "testvalue") "List" StringType)
      rfl rfl rfl).2.1 rfl⟩

/-! ## The conversion engine (C8, C9, C10) -/

/-- C8. Converting any attribute value into the generic `attr.Value` target
yields no diagnostics and leaves the target holding that value, whatever it
held before; converting again into the resulting target changes nothing. -/
theorem ValueAs_into_generic (val : AttrValue) (old : Option AttrValue) :
    ValueAs val (.Generic old) = (.Generic (some val), []) ∧
    ValueAs val (ValueAs val (.Generic old)).1 = ValueAs val (.Generic old) ∧
    (ValueAs val (ValueAs val (.Generic old)).1).2 = [] :=
  ⟨rfl, rfl, rfl⟩

/-- C9. Converting an attribute value whose dynamic value is a known string
into an `int64` target returns (it is a total function), leaves the target as
it was and yields exactly one diagnostic: an IncompatibleType diagnostic at the
root path that carries the string's dynamic value and the target type
`int64`. -/
theorem ValueAs_string_into_int64 (val : AttrValue) (s : String) (n : Int)
    (h : val.ToTerraformValue = .string s) :
    ValueAs val (.GoInt64 n) =
      (.GoInt64 n,
        [{ body := .DiagIntoIncompatibleType (.string s) "int64"
              (unmarshalError (.string s) "*big.Float" "*big.Float")
           path := some Path.New }]) ∧
    Path.New = ([] : Path) := by
  refine ⟨?_, rfl⟩
  unfold ValueAs
  simp only [h]
  rfl

/-- Witness of C9 on the case `incompatible-type` of `TestValueAs`. -/
theorem ValueAs_string_into_int64_witness :
    (AttrValue.StringValue false false "hello").ToTerraformValue = .string "hello" ∧
    ValueAs (.StringValue false false "hello") (.GoInt64 0) =
      (.GoInt64 0,
        [{ body := .DiagIntoIncompatibleType (.string "hello") "int64"
              (unmarshalError (.string "hello") "*big.Float" "*big.Float")
           path := some Path.New }]) :=
  ⟨rfl, (ValueAs_string_into_int64 (.StringValue false false "hello") "hello" 0 rfl).1⟩

/-- C10. Converting an attribute value into a target that is a typed value of
another concrete type leaves the target as it was and yields exactly one
diagnostic: a WrongType diagnostic at the root path that names the source's
concrete type, the target's concrete type and the source's schema type. -/
theorem ValueAs_wrong_type (val t : AttrValue) (h : val.GoType ≠ t.GoType) :
    ValueAs val (.Typed t) =
      (.Typed t,
        [{ body := .DiagNewAttributeValueIntoWrongType val.GoType t.GoType val.SchemaType
           path := some Path.New }]) ∧
    Path.New = ([] : Path) := by
  refine ⟨?_, rfl⟩
  unfold ValueAs
  simp only [h, if_false]
  rfl

/-- Witness of C10 on the case `different-type` of `TestValueAs`: a
`types.String` into a `testtypes.String`. -/
theorem ValueAs_wrong_type_witness :
    (AttrValue.StringValue false false "hello").GoType ≠
      (AttrValue.ProviderValue "testtypes.String" "testtypes.StringType"
        (.StringValue false false "")).GoType ∧
    ValueAs (.StringValue false false "hello")
      (.Typed (.ProviderValue "testtypes.String" "testtypes.StringType"
        (.StringValue false false ""))) =
      (.Typed (.ProviderValue "testtypes.String" "testtypes.StringType"
        (.StringValue false false "")),
        [{ body := .DiagNewAttributeValueIntoWrongType "types.String" "testtypes.String"
              "types.StringType"
           path := some Path.New }]) :=
  ⟨by decide,
    (ValueAs_wrong_type (.StringValue false false "hello")
      (.ProviderValue "testtypes.String" "testtypes.StringType" (.StringValue false false ""))
      (by decide)).1⟩

/-! ## Protocol containers: Plan and State (C11, C12, C13) -/

/-- C11. Called with a dynamic value and no schema, `fromproto6.Plan` and
`fromproto6.State` make no decode attempt (the log of calls is empty, whatever
the decoder) and return no container together with exactly one diagnostic, an
Error with summary "Unable to Convert Plan" (resp. "Unable to Convert State")
whose detail ends with "Missing schema.". -/
theorem fromproto6_missing_schema (unmarshal : Unmarshaler) (dv : DynamicValue) :
    fromproto6.Plan unmarshal (some dv) none =
      { value := none
        diags := [NewErrorDiagnostic "Unable to Convert Plan"
          (convertErrorLead "plan" ++ "Missing schema.")]
        calls := [] } ∧
    fromproto6.State unmarshal (some dv) none =
      { value := none
        diags := [NewErrorDiagnostic "Unable to Convert State"
          (convertErrorLead "state" ++ "Missing schema.")]
        calls := [] } ∧
    (NewErrorDiagnostic "Unable to Convert Plan"
      (convertErrorLead "plan" ++ "Missing schema.")).Severity = .Error ∧
    (NewErrorDiagnostic "Unable to Convert State"
      (convertErrorLead "state" ++ "Missing schema.")).Severity = .Error :=
  ⟨rfl, rfl, rfl, rfl⟩

/-- C12. Called with a dynamic value and a schema, when the decoding of the
value against the schema's wire type fails with the error `e`,
`fromproto6.Plan` and `fromproto6.State` return no container and exactly one
diagnostic, an Error with summary "Unable to Convert Plan" (resp. "Unable to
Convert State") whose detail ends with the text of `e`. -/
theorem fromproto6_decode_failure (unmarshal : Unmarshaler) (dv : DynamicValue)
    (schema : Schema) (e : GoError) (h : unmarshal dv schema.TerraformType = .error e) :
    fromproto6.Plan unmarshal (some dv) (some schema) =
      { value := none
        diags := [NewErrorDiagnostic "Unable to Convert Plan"
          (convertErrorLead "plan" ++ e.Error)]
        calls := [.Unmarshal dv schema.TerraformType] } ∧
    fromproto6.State unmarshal (some dv) (some schema) =
      { value := none
        diags := [NewErrorDiagnostic "Unable to Convert State"
          (convertErrorLead "state" ++ e.Error)]
        calls := [.Unmarshal dv schema.TerraformType] } ∧
    (NewErrorDiagnostic "Unable to Convert Plan"
      (convertErrorLead "plan" ++ e.Error)).Severity = .Error ∧
    (NewErrorDiagnostic "Unable to Convert Plan"
      (convertErrorLead "plan" ++ e.Error)).Detail = convertErrorLead "plan" ++ e.Error ∧
    (NewErrorDiagnostic "Unable to Convert State"
      (convertErrorLead "state" ++ e.Error)).Severity = .Error ∧
    (NewErrorDiagnostic "Unable to Convert State"
      (convertErrorLead "state" ++ e.Error)).Detail = convertErrorLead "state" ++ e.Error := by
  refine ⟨?_, ?_, rfl, rfl, rfl, rfl⟩
  · simp only [fromproto6.Plan, h]; rfl
  · simp only [fromproto6.State, h]; rfl

/-- Witness of C12: a dynamic value without data against the schema of
`testServeDataSourceTypeTwo`. -/
theorem fromproto6_decode_failure_witness :
    nullUnmarshal { MsgPack := [], JSON := [] } testServeDataSourceTypeTwoSchema.TerraformType
      = .error ErrUnknownDynamicValueType ∧
    fromproto6.Plan nullUnmarshal (some { MsgPack := [], JSON := [] })
        (some testServeDataSourceTypeTwoSchema) =
      { value := none
        diags := [NewErrorDiagnostic "Unable to Convert Plan"
          (convertErrorLead "plan" ++ ErrUnknownDynamicValueType.Error)]
        calls := [.Unmarshal { MsgPack := [], JSON := [] }
          testServeDataSourceTypeTwoSchema.TerraformType] } :=
  ⟨rfl, (fromproto6_decode_failure nullUnmarshal { MsgPack := [], JSON := [] }
    testServeDataSourceTypeTwoSchema ErrUnknownDynamicValueType rfl).1⟩

/-- C13. Called with a dynamic value and a schema, when the decoding of the
value against the schema's wire type succeeds with the value `v`,
`fromproto6.Plan` and `fromproto6.State` return a container whose raw value is
`v` and whose schema is the given one, with no diagnostics at all. -/
theorem fromproto6_decode_success (unmarshal : Unmarshaler) (dv : DynamicValue)
    (schema : Schema) (v : TfValue) (h : unmarshal dv schema.TerraformType = .ok v) :
    fromproto6.Plan unmarshal (some dv) (some schema) =
      { value := some { Raw := v, Schema := schema }
        diags := []
        calls := [.Unmarshal dv schema.TerraformType] } ∧
    fromproto6.State unmarshal (some dv) (some schema) =
      { value := some { Raw := v, Schema := schema }
        diags := []
        calls := [.Unmarshal dv schema.TerraformType] } := by
  refine ⟨?_, ?_⟩
  · simp only [fromproto6.Plan, h]
  · simp only [fromproto6.State, h]

/-- Witness of C13: the MessagePack encoding of null against the schema of
`testServeDataSourceTypeTwo`. -/
theorem fromproto6_decode_success_witness :
    nullUnmarshal { MsgPack := [192], JSON := [] }
        testServeDataSourceTypeTwoSchema.TerraformType
      = .ok (TfValue.NewNull testServeDataSourceTypeTwoSchema.TerraformType) ∧
    fromproto6.State nullUnmarshal (some { MsgPack := [192], JSON := [] })
        (some testServeDataSourceTypeTwoSchema) =
      { value := some { Raw := TfValue.NewNull testServeDataSourceTypeTwoSchema.TerraformType
                        Schema := testServeDataSourceTypeTwoSchema }
        diags := []
        calls := [.Unmarshal { MsgPack := [192], JSON := [] }
          testServeDataSourceTypeTwoSchema.TerraformType] } :=
  ⟨rfl, (fromproto6_decode_success nullUnmarshal { MsgPack := [192], JSON := [] }
    testServeDataSourceTypeTwoSchema
    (TfValue.NewNull testServeDataSourceTypeTwoSchema.TerraformType) rfl).2⟩

/-! ## Protocol containers: ProviderMeta (C14, C15, C16, C17) -/

/-- The wire type of the schema of `testServeDataSourceTypeTwo` is the type the
test file declares for it. -/
theorem testServeDataSourceTypeTwoSchema_TerraformType :
    testServeDataSourceTypeTwoSchema.TerraformType = testServeDataSourceTypeTwoType := rfl

/-- C14. Called without a schema, `fromproto6.ProviderMeta` returns no Config
and no diagnostics, whether the dynamic value is absent, well-formed or
malformed, and attempts no decode (the log of calls is empty, whatever the
decoder). -/
theorem ProviderMeta_missing_schema (unmarshal : Unmarshaler)
    (proto6DynamicValue : Option DynamicValue) :
    fromproto6.ProviderMeta unmarshal proto6DynamicValue none =
      { value := none, diags := [], calls := [] } :=
  rfl

/-- C15. Called with a schema and no dynamic value, `fromproto6.ProviderMeta`
returns no diagnostics and a Config whose schema is the given one and whose raw
value is the null value typed by the schema's wire type: it is null and its
type is the schema's wire type. -/
theorem ProviderMeta_missing_value_null (unmarshal : Unmarshaler) (schema : Schema) :
    fromproto6.ProviderMeta unmarshal none (some schema) =
      { value := some { Raw := TfValue.NewNull schema.TerraformType, Schema := schema }
        diags := []
        calls := [] } ∧
    (TfValue.NewNull schema.TerraformType).IsNull = true ∧
    (TfValue.NewNull schema.TerraformType).Type = some schema.TerraformType :=
  ⟨rfl, rfl, rfl⟩

/-- Counterexample to C16 as stated, on the schema of
`testServeDataSourceTypeTwo`: without a dynamic value the raw value of the
Config is the one null value of the object type, in which no attribute is
present: the walk to the attribute `id` stops at the first step with
`ErrInvalidStep`, and the raw value is not equal to the object whose three
attributes are present and null. -/
theorem ProviderMeta_missing_value_single_null_counterexample :
    (fromproto6.ProviderMeta nullUnmarshal none (some testServeDataSourceTypeTwoSchema)).value
      = some { Raw := .null (some testServeDataSourceTypeTwoType)
               Schema := testServeDataSourceTypeTwoSchema } ∧
    tftypesWalkAttributePath (.null (some testServeDataSourceTypeTwoType))
        (Path.New.WithAttributeName "id") =
      (.Value (.null (some testServeDataSourceTypeTwoType)),
        Path.New.WithAttributeName "id", some ErrInvalidStep) ∧
    tftypesWalkAttributePath
        (.object [("family", .string), ("name", .string), ("id", .string)]
          [("family", .NewNull .string), ("name", .NewNull .string), ("id", .NewNull .string)])
        (Path.New.WithAttributeName "id") = (.Value (.NewNull .string), [], none) ∧
    TfValue.Equal (.null (some testServeDataSourceTypeTwoType))
        (.object [("family", .string), ("name", .string), ("id", .string)]
          [("family", .NewNull .string), ("name", .NewNull .string), ("id", .NewNull .string)])
      = false :=
  ⟨rfl, rfl, rfl, rfl⟩

/-- C16, amended. Called with a schema and no dynamic value,
`fromproto6.ProviderMeta` returns, without diagnostics, a Config whose raw value
is one null value typed by the schema's wire type: the type is shaped by the
schema, but no attribute is present in the value, and a walk along any path
that is not empty stops at its first step with `ErrInvalidStep`. -/
theorem ProviderMeta_missing_value_single_null (unmarshal : Unmarshaler) (schema : Schema)
    (step : PathStep) (rest : Path) :
    (fromproto6.ProviderMeta unmarshal none (some schema)).value =
      some { Raw := .null (some schema.TerraformType), Schema := schema } ∧
    (fromproto6.ProviderMeta unmarshal none (some schema)).diags = [] ∧
    tftypesWalkAttributePath (.null (some schema.TerraformType)) (step :: rest) =
      (.Value (.null (some schema.TerraformType)), step :: rest, some ErrInvalidStep) :=
  ⟨rfl, rfl, rfl⟩

/-- C17. Called with a schema and a dynamic value: when the decoding fails with
the error `e`, `fromproto6.ProviderMeta` returns no Config (the Config built
with the null value is not returned) and exactly one diagnostic, an Error with
summary "Unable to Convert Provider Meta Configuration" whose detail ends with
the text of `e`; when the decoding succeeds with the value `v`, it returns a
Config whose raw value is `v` and whose schema is the given one, and no
diagnostics. -/
theorem ProviderMeta_decode_outcome (unmarshal : Unmarshaler) (dv : DynamicValue)
    (schema : Schema) :
    (∀ e, unmarshal dv schema.TerraformType = .error e →
      fromproto6.ProviderMeta unmarshal (some dv) (some schema) =
        { value := none
          diags := [NewErrorDiagnostic "Unable to Convert Provider Meta Configuration"
            (convertErrorLead "provider meta configuration" ++ e.Error)]
          calls := [.Unmarshal dv schema.TerraformType] } ∧
      (NewErrorDiagnostic "Unable to Convert Provider Meta Configuration"
        (convertErrorLead "provider meta configuration" ++ e.Error)).Severity = .Error ∧
      (NewErrorDiagnostic "Unable to Convert Provider Meta Configuration"
        (convertErrorLead "provider meta configuration" ++ e.Error)).Detail =
        convertErrorLead "provider meta configuration" ++ e.Error) ∧
    (∀ v, unmarshal dv schema.TerraformType = .ok v →
      fromproto6.ProviderMeta unmarshal (some dv) (some schema) =
        { value := some { Raw := v, Schema := schema }
          diags := []
          calls := [.Unmarshal dv schema.TerraformType] }) := by
  refine ⟨?_, ?_⟩
  · intro e h
    refine ⟨?_, rfl, rfl⟩
    simp only [fromproto6.ProviderMeta, h]; rfl
  · intro v h
    simp only [fromproto6.ProviderMeta, h]

/-- Witness of C17: a dynamic value without data, and the JSON text `null`,
against the schema of `testServeDataSourceTypeTwo`. -/
theorem ProviderMeta_decode_outcome_witness :
    (nullUnmarshal { MsgPack := [], JSON := [] } testServeDataSourceTypeTwoSchema.TerraformType
        = .error ErrUnknownDynamicValueType ∧
      nullUnmarshal { MsgPack := [], JSON := [110, 117, 108, 108] }
          testServeDataSourceTypeTwoSchema.TerraformType
        = .ok (TfValue.NewNull testServeDataSourceTypeTwoSchema.TerraformType)) ∧
    fromproto6.ProviderMeta nullUnmarshal (some { MsgPack := [], JSON := [] })
        (some testServeDataSourceTypeTwoSchema) =
      { value := none
        diags := [NewErrorDiagnostic "Unable to Convert Provider Meta Configuration"
          (convertErrorLead "provider meta configuration" ++ ErrUnknownDynamicValueType.Error)]
        calls := [.Unmarshal { MsgPack := [], JSON := [] }
          testServeDataSourceTypeTwoSchema.TerraformType] } ∧
    fromproto6.ProviderMeta nullUnmarshal (some { MsgPack := [], JSON := [110, 117, 108, 108] })
        (some testServeDataSourceTypeTwoSchema) =
      { value := some { Raw := TfValue.NewNull testServeDataSourceTypeTwoSchema.TerraformType
                        Schema := testServeDataSourceTypeTwoSchema }
        diags := []
        calls := [.Unmarshal { MsgPack := [], JSON := [110, 117, 108, 108] }
          testServeDataSourceTypeTwoSchema.TerraformType] } :=
  ⟨⟨rfl, rfl⟩,
    ((ProviderMeta_decode_outcome nullUnmarshal { MsgPack := [], JSON := [] }
      testServeDataSourceTypeTwoSchema).1 ErrUnknownDynamicValueType rfl).1,
    (ProviderMeta_decode_outcome nullUnmarshal { MsgPack := [], JSON := [110, 117, 108, 108] }
      testServeDataSourceTypeTwoSchema).2
      (TfValue.NewNull testServeDataSourceTypeTwoSchema.TerraformType) rfl⟩

/-! ## State reads: the walk and the construction -/

theorem ApplyTerraform5AttributePathStep_error (v : TfValue) (step : PathStep) (e : GoError)
    (h : v.ApplyTerraform5AttributePathStep step = .error e) : e = ErrInvalidStep := by
  unfold TfValue.ApplyTerraform5AttributePathStep at h
  split at h
  · split at h <;> simp at h
    exact h.symm
  · split at h <;> simp at h
    exact h.symm
  · split at h
    · simp at h; exact h.symm
    · split at h <;> simp at h
      exact h.symm
  · split at h <;> simp at h
    exact h.symm
  · simp at h; exact h.symm

/-- The stand-in walk over a dynamic value reaches a dynamic value or stops with
`ErrInvalidStep`: it has no other error. -/
theorem tftypesWalkAttributePath_outcome :
    ∀ (path : Path) (v : TfValue),
      (∃ reached, tftypesWalkAttributePath v path = (.Value reached, [], none)) ∨
      (∃ at_ remaining, tftypesWalkAttributePath v path =
        (.Value at_, remaining, some ErrInvalidStep)) := by
  intro path
  induction path with
  | nil => intro v; exact Or.inl ⟨v, rfl⟩
  | cons step rest ih =>
    intro v
    cases h : v.ApplyTerraform5AttributePathStep step with
    | error e =>
      right
      refine ⟨v, step :: rest, ?_⟩
      simp only [tftypesWalkAttributePath, h]
      rw [ApplyTerraform5AttributePathStep_error v step e h]
    | ok next =>
      simp only [tftypesWalkAttributePath, h]
      exact ih next

theorem GoError.is_wrap (pre post : String) (err target : GoError)
    (h : err.Is target = true) : (GoError.wrap pre err post).Is target = true := by
  unfold GoError.Is
  split
  · rfl
  · exact h

theorem GoError.is_refl (e : GoError) : e.Is e = true := by
  unfold GoError.Is
  simp

/-- With the stand-in walk the error of `StateTerraformValueAtPath`, when there
is one, wraps `ErrInvalidStep`. -/
theorem StateTerraformValueAtPath_tftypes (lookup : Schema → Path → Except GoError AttrType)
    (s : State) (path : Path) (err : GoError)
    (h : (StateTerraformValueAtPath (tftypesEnv lookup) s path).2 = some err) :
    err.Is ErrInvalidStep = true := by
  unfold StateTerraformValueAtPath at h
  rcases tftypesWalkAttributePath_outcome path s.Raw with ⟨reached, hw⟩ | ⟨at_, remaining, hw⟩
  · simp [tftypesEnv, hw] at h
  · simp [tftypesEnv, hw] at h
    rw [← h]
    exact GoError.is_wrap _ _ _ _ (GoError.is_refl _)

/-- The construction of the state read, by cases on the diagnostics of the
type's hook and on the outcome of `ValueFromTerraform`. -/
theorem StateGetAttributeValue_construct (attrType : AttrType) (tfValue : TfValue)
    (path : Path) (calls1 : List Call) :
    StateGetAttributeValue.construct attrType tfValue path calls1 =
      if (hookDiagnostics attrType tfValue path).HasError then
        { value := none
          diags := hookDiagnostics attrType tfValue path
          calls := calls1 ++ hookCalls attrType tfValue path }
      else
        match attrType.ValueFromTerraform tfValue with
        | .error err =>
          { value := none
            diags := hookDiagnostics attrType tfValue path ++
              [NewAttributeErrorDiagnostic path "State Read Error"
                (stateReadErrorLead ++ err.Error)]
            calls := calls1 ++ hookCalls attrType tfValue path ++ [.ValueFromTerraform tfValue] }
        | .ok attrValue =>
          { value := some attrValue
            diags := hookDiagnostics attrType tfValue path
            calls := calls1 ++ hookCalls attrType tfValue path ++
              [.ValueFromTerraform tfValue] } := by
  unfold StateGetAttributeValue.construct hookDiagnostics hookCalls
  cases hv : attrType.Validate with
  | none =>
    simp [Diagnostics.HasError, Diagnostics.AddAttributeError, Diagnostics.Append]
  | some validate =>
    simp only [Diagnostics.Append, List.nil_append, Diagnostics.AddAttributeError]

/-- The state read of a path that the schema resolves, in a state that is not
null, when the walk did not fail with an error other than an invalid step: the
construction on the dynamic value that `StateTerraformValueAtPath` returned. -/
theorem StateGetAttributeValue_walked (env : StateEnv) (s : State) (path : Path)
    (attrType : AttrType)
    (hlookup : env.AttributeTypeAtPath s.Schema path = .ok attrType)
    (hraw : s.Raw.IsNull = false)
    (hwalk : ∀ err, (StateTerraformValueAtPath env s path).2 = some err →
      err.Is ErrInvalidStep = true) :
    StateGetAttributeValue env s path =
      StateGetAttributeValue.construct attrType (stateTerraformValue env s path) path
        [.AttributeTypeAtPath path, .WalkAttributePath s.Raw path] := by
  unfold StateGetAttributeValue stateTerraformValue
  simp only [hlookup, hraw]
  cases hw : (StateTerraformValueAtPath env s path).2 with
  | none => simp
  | some err => simp [hwalk err hw]

/-- The state read over the stand-in walk, for a path that the schema resolves
in a state that is not null: every error of that walk is an invalid step, so
the read reaches the construction. -/
theorem StateGetAttributeValue_tftypes (lookup : Schema → Path → Except GoError AttrType)
    (s : State) (path : Path) (attrType : AttrType)
    (hlookup : lookup s.Schema path = .ok attrType)
    (hraw : s.Raw.IsNull = false) :
    StateGetAttributeValue (tftypesEnv lookup) s path =
      StateGetAttributeValue.construct attrType
        (stateTerraformValue (tftypesEnv lookup) s path) path
        [.AttributeTypeAtPath path, .WalkAttributePath s.Raw path] :=
  StateGetAttributeValue_walked (tftypesEnv lookup) s path attrType hlookup hraw
    (StateTerraformValueAtPath_tftypes lookup s path)

theorem hookDiagnostics_some (t : AttrType) (tfValue : TfValue) (path : Path)
    (validate : TfValue → Path → Diagnostics) (h : t.Validate = some validate) :
    hookDiagnostics t tfValue path = validate tfValue path := by
  simp [hookDiagnostics, h]

theorem hookCalls_some (t : AttrType) (tfValue : TfValue) (path : Path)
    (validate : TfValue → Path → Diagnostics) (h : t.Validate = some validate) :
    hookCalls t tfValue path = [.TypeValidate tfValue path] := by
  simp [hookCalls, h]

/-! ## State reads: a walk that fails with an invalid step (C18) -/

/-- C18 (counterexample). A state of a schema whose attribute `test` has the
type `NumberTypeWithValidateError`, with an unknown raw value: the state is not
null, the schema resolves the path, the walk fails with `ErrInvalidStep`, and
the read returns no value at all, with the Error of the type's hook, not
a null value of the attribute's type. -/
theorem StateGetAttributeValue_invalid_step_counterexample :
    (unknownState NumberTypeWithValidateError).Raw.IsNull = false ∧
    (topLevelAttributeType (unknownState NumberTypeWithValidateError).Schema testPath).toOption.map
      AttrType.GoType = some "testtypes.NumberTypeWithValidateError" ∧
    tftypesWalkAttributePath (unknownState NumberTypeWithValidateError).Raw testPath =
      (.Value (unknownState NumberTypeWithValidateError).Raw, testPath, some ErrInvalidStep) ∧
    StateGetAttributeValue (tftypesEnv topLevelAttributeType)
        (unknownState NumberTypeWithValidateError) testPath =
      { value := none
        diags := [TestErrorDiagnostic testPath]
        calls := [.AttributeTypeAtPath testPath,
          .WalkAttributePath (unknownState NumberTypeWithValidateError).Raw testPath,
          .TypeValidate TfValue.zero testPath] } ∧
    (TestErrorDiagnostic testPath).Severity = .Error :=
  ⟨rfl, rfl, rfl, rfl, rfl⟩

/-- C18 (amended). For a state with a non-null raw value and a path that the
schema resolves to the type `attrType`, when the walk of the raw value fails
with an error `err` that is an invalid step: the error that
`StateTerraformValueAtPath` returns still satisfies `Is ErrInvalidStep`, the
failure adds no diagnostic, and the read goes on with the zero dynamic value:
its result is the construction of the type on that value. So when the type's
hook (if any) reports no Error on the zero value and `ValueFromTerraform`
turns it into `v`, the read returns `v` with the hook's diagnostics only; for
the framework's string, number, bool and list types `v` is the null value of
the type. -/
theorem StateGetAttributeValue_invalid_step (env : StateEnv) (s : State) (path : Path)
    (attrType : AttrType) (reached : Walked) (remaining : Path) (err : GoError)
    (hlookup : env.AttributeTypeAtPath s.Schema path = .ok attrType)
    (hraw : s.Raw.IsNull = false)
    (hwalk : env.WalkAttributePath s.Raw path = (reached, remaining, some err))
    (hinvalid : err.Is ErrInvalidStep = true) :
    StateTerraformValueAtPath env s path =
      (TfValue.zero, some (.wrap (remaining.render ++ " still remains in the path: ") err "")) ∧
    (GoError.wrap (remaining.render ++ " still remains in the path: ") err "").Is ErrInvalidStep
      = true ∧
    StateGetAttributeValue env s path =
      StateGetAttributeValue.construct attrType TfValue.zero path
        [.AttributeTypeAtPath path, .WalkAttributePath s.Raw path] ∧
    ((hookDiagnostics attrType TfValue.zero path).HasError = false →
      ∀ v, attrType.ValueFromTerraform TfValue.zero = .ok v →
        StateGetAttributeValue env s path =
          { value := some v
            diags := hookDiagnostics attrType TfValue.zero path
            calls := [.AttributeTypeAtPath path, .WalkAttributePath s.Raw path] ++
              hookCalls attrType TfValue.zero path ++ [.ValueFromTerraform TfValue.zero] }) ∧
    StringType.ValueFromTerraform TfValue.zero = .ok (.StringValue false true "") ∧
    NumberType.ValueFromTerraform TfValue.zero = .ok (.NumberValue false true 0) ∧
    BoolType.ValueFromTerraform TfValue.zero = .ok (.BoolValue false true false) ∧
    (∀ elem : AttrType, (ListType elem).ValueFromTerraform TfValue.zero =
      .ok (.ListValue false true [] elem.TerraformType)) := by
  have hat : StateTerraformValueAtPath env s path =
      (TfValue.zero, some (.wrap (remaining.render ++ " still remains in the path: ") err "")) := by
    simp only [StateTerraformValueAtPath, hwalk]
  have hwrapped := GoError.is_wrap (remaining.render ++ " still remains in the path: ") "" err
    ErrInvalidStep hinvalid
  have hread : StateGetAttributeValue env s path =
      StateGetAttributeValue.construct attrType TfValue.zero path
        [.AttributeTypeAtPath path, .WalkAttributePath s.Raw path] := by
    have h := StateGetAttributeValue_walked env s path attrType hlookup hraw
      (by intro e he; rw [hat] at he; simp at he; rw [← he]; exact hwrapped)
    rw [h, stateTerraformValue, hat]
  refine ⟨hat, hwrapped, hread, ?_, rfl, rfl, rfl, fun _ => rfl⟩
  intro hhook v hv
  rw [hread, StateGetAttributeValue_construct]
  simp only [hhook, hv]
  simp

/-- Witness of C18 (amended): the first element of the unknown list
`favorite_colors` in a state of `testServeResourceTypeOne`; the read returns
the null string and no diagnostics. -/
theorem StateGetAttributeValue_invalid_step_witness :
    resourceOneAttributeType resourceOneState.Schema
      [.AttributeName "favorite_colors", .ElementKeyInt 0] = .ok StringType ∧
    resourceOneState.Raw.IsNull = false ∧
    tftypesWalkAttributePath resourceOneState.Raw
        [.AttributeName "favorite_colors", .ElementKeyInt 0] =
      (.Value (.unknown (.list .string)), [.ElementKeyInt 0], some ErrInvalidStep) ∧
    ErrInvalidStep.Is ErrInvalidStep = true ∧
    StateGetAttributeValue (tftypesEnv resourceOneAttributeType) resourceOneState
        [.AttributeName "favorite_colors", .ElementKeyInt 0] =
      { value := some (.StringValue false true "")
        diags := []
        calls := [.AttributeTypeAtPath [.AttributeName "favorite_colors", .ElementKeyInt 0],
          .WalkAttributePath resourceOneState.Raw
            [.AttributeName "favorite_colors", .ElementKeyInt 0],
          .ValueFromTerraform TfValue.zero] } :=
  ⟨rfl, rfl, rfl, rfl,
    (StateGetAttributeValue_invalid_step (tftypesEnv resourceOneAttributeType) resourceOneState
      [.AttributeName "favorite_colors", .ElementKeyInt 0] StringType
      (.Value (.unknown (.list .string))) [.ElementKeyInt 0] ErrInvalidStep
      rfl rfl rfl rfl).2.2.2.1 rfl (.StringValue false true "") rfl⟩

/-! ## State reads: the branches that end before the construction -/

/-- The state read of a path that the schema does not resolve: no value and one
error diagnostic with the wrapped lookup error, whatever the raw value. -/
theorem StateGetAttributeValue_unresolved (env : StateEnv) (s : State) (path : Path)
    (err : GoError) (hlookup : env.AttributeTypeAtPath s.Schema path = .error err) :
    StateGetAttributeValue env s path =
      { value := none
        diags := [NewAttributeErrorDiagnostic path "State Read Error"
          (stateReadErrorLead ++ ("error getting attribute type in schema: " ++ err.Error))]
        calls := [.AttributeTypeAtPath path] } := by
  unfold StateGetAttributeValue
  simp only [hlookup]
  simp [Diagnostics.AddAttributeError, Diagnostics.Append, GoError.Error]

/-- The state read of a path that the schema resolves, in a null state: no
value, no diagnostics, and only the schema lookup was made. -/
theorem StateGetAttributeValue_nullRaw (env : StateEnv) (s : State) (path : Path)
    (attrType : AttrType) (hlookup : env.AttributeTypeAtPath s.Schema path = .ok attrType)
    (hnull : s.Raw.IsNull = true) :
    StateGetAttributeValue env s path =
      { value := none, diags := [], calls := [.AttributeTypeAtPath path] } := by
  unfold StateGetAttributeValue
  simp only [hlookup, hnull]
  simp

/-- The state read when the walk fails with an error that is not an invalid
step: no value and one error diagnostic with that error. -/
theorem StateGetAttributeValue_walkError (env : StateEnv) (s : State) (path : Path)
    (attrType : AttrType) (err : GoError)
    (hlookup : env.AttributeTypeAtPath s.Schema path = .ok attrType)
    (hraw : s.Raw.IsNull = false)
    (hwalk : (StateTerraformValueAtPath env s path).2 = some err)
    (hother : err.Is ErrInvalidStep = false) :
    StateGetAttributeValue env s path =
      { value := none
        diags := [NewAttributeErrorDiagnostic path "State Read Error"
          (stateReadErrorLead ++ err.Error)]
        calls := [.AttributeTypeAtPath path, .WalkAttributePath s.Raw path] } := by
  unfold StateGetAttributeValue
  simp only [hlookup, hraw]
  simp [hwalk, hother, Diagnostics.AddAttributeError, Diagnostics.Append]

/-- Every state read ends in one of two ways: without a value, or with a value
and exactly the diagnostics of the type's hook, none of which is an error. -/
theorem StateGetAttributeValue_outcome (env : StateEnv) (s : State) (path : Path) :
    (StateGetAttributeValue env s path).value = none ∨
    ∃ attrType v, env.AttributeTypeAtPath s.Schema path = .ok attrType ∧
      attrType.ValueFromTerraform (stateTerraformValue env s path) = .ok v ∧
      (StateGetAttributeValue env s path).value = some v ∧
      (StateGetAttributeValue env s path).diags =
        hookDiagnostics attrType (stateTerraformValue env s path) path ∧
      (hookDiagnostics attrType (stateTerraformValue env s path) path).HasError = false := by
  cases hl : env.AttributeTypeAtPath s.Schema path with
  | error err => left; rw [StateGetAttributeValue_unresolved env s path err hl]
  | ok attrType =>
    cases hn : s.Raw.IsNull with
    | true => left; rw [StateGetAttributeValue_nullRaw env s path attrType hl hn]
    | false =>
      by_cases hw : ∀ err, (StateTerraformValueAtPath env s path).2 = some err →
          err.Is ErrInvalidStep = true
      · rw [StateGetAttributeValue_walked env s path attrType hl hn hw,
          StateGetAttributeValue_construct]
        cases hh : (hookDiagnostics attrType (stateTerraformValue env s path) path).HasError with
        | true => left; simp
        | false =>
          cases hv : attrType.ValueFromTerraform (stateTerraformValue env s path) with
          | error e => left; simp
          | ok v => right; exact ⟨attrType, v, rfl, hv, by simp, by simp, hh⟩
      · left
        push_neg at hw
        obtain ⟨err, hsome, hnot⟩ := hw
        rw [StateGetAttributeValue_walkError env s path attrType err hl hn hsome
          (by simpa using hnot)]

theorem Diagnostics.warnings_of_not_hasError (diags : Diagnostics)
    (h : diags.HasError = false) : ∀ d ∈ diags, d.Severity = .Warning := by
  intro d hd
  cases hs : d.Severity with
  | Warning => rfl
  | Error =>
    have hany : diags.HasError = true := by
      simp only [Diagnostics.HasError, List.any_eq_true]
      exact ⟨d, hd, by simp [hs]⟩
    rw [h] at hany
    exact Bool.noConfusion hany

/-! ## State reads: the null state (C21) -/

/-- C21. For a state whose raw value is null and a path that the schema
resolves, the state read returns no value and no diagnostics, and the schema
lookup is the only call it made: the raw value was not walked, the type's hook
was not called and `ValueFromTerraform` was not called. -/
theorem StateGetAttributeValue_null_state (env : StateEnv) (s : State) (path : Path)
    (attrType : AttrType)
    (hlookup : env.AttributeTypeAtPath s.Schema path = .ok attrType)
    (hnull : s.Raw.IsNull = true) :
    StateGetAttributeValue env s path =
      { value := none, diags := [], calls := [.AttributeTypeAtPath path] } ∧
    (∀ raw p, Call.WalkAttributePath raw p ∉ (StateGetAttributeValue env s path).calls) ∧
    (∀ raw p, Call.TypeValidate raw p ∉ (StateGetAttributeValue env s path).calls) ∧
    (∀ raw, Call.ValueFromTerraform raw ∉ (StateGetAttributeValue env s path).calls) := by
  rw [StateGetAttributeValue_nullRaw env s path attrType hlookup hnull]
  refine ⟨rfl, ?_, ?_, ?_⟩ <;> simp

/-- Witness of C21: the attribute `test` of type `NumberTypeWithValidateError`,
whose hook reports an error on every value, read from the null state of its
schema. -/
theorem StateGetAttributeValue_null_state_witness :
    (tftypesEnv topLevelAttributeType).AttributeTypeAtPath
      (nullState NumberTypeWithValidateError).Schema testPath
      = .ok NumberTypeWithValidateError ∧
    (nullState NumberTypeWithValidateError).Raw.IsNull = true ∧
    StateGetAttributeValue (tftypesEnv topLevelAttributeType)
        (nullState NumberTypeWithValidateError) testPath =
      { value := none, diags := [], calls := [.AttributeTypeAtPath testPath] } :=
  ⟨rfl, rfl,
    (StateGetAttributeValue_null_state (tftypesEnv topLevelAttributeType)
      (nullState NumberTypeWithValidateError) testPath NumberTypeWithValidateError rfl rfl).1⟩

/-! ## Protocol containers: the upgrade request and the nil dynamic value (C22, C23) -/

/-- C22. `fromproto6.UpgradeResourceStateRequest` returns nothing and no
diagnostics for a nil protocol request. For a protocol request and a nil schema
it returns nothing and exactly one diagnostic, an Error with summary "Unable to
Create Empty State" whose detail ends with "Missing schema."; for a protocol
request and a schema it returns, without diagnostics, the request whose raw
state and version are those of the protocol request and whose schema and
resource type are the arguments. So for a protocol request a request is
returned exactly when the schema is not nil. -/
theorem UpgradeResourceStateRequest_conversion {ρ : Type}
    (proto6 : tfprotov6.UpgradeResourceStateRequest) (resourceType : ρ) (schema : Schema)
    (resourceSchema : Option Schema) :
    fromproto6.UpgradeResourceStateRequest none resourceType resourceSchema =
      { value := none, diags := [], calls := [] } ∧
    fromproto6.UpgradeResourceStateRequest (some proto6) resourceType none =
      { value := none
        diags := [NewErrorDiagnostic "Unable to Create Empty State"
          (emptyStateErrorLead ++ "Missing schema.")]
        calls := [] } ∧
    (NewErrorDiagnostic "Unable to Create Empty State"
      (emptyStateErrorLead ++ "Missing schema.")).Severity = .Error ∧
    (NewErrorDiagnostic "Unable to Create Empty State"
      (emptyStateErrorLead ++ "Missing schema.")).Detail
      = emptyStateErrorLead ++ "Missing schema." ∧
    fromproto6.UpgradeResourceStateRequest (some proto6) resourceType (some schema) =
      { value := some
          { RawState := proto6.RawState
            ResourceSchema := schema
            ResourceType := resourceType
            Version := proto6.Version }
        diags := []
        calls := [] } ∧
    (fromproto6.UpgradeResourceStateRequest (some proto6) resourceType resourceSchema).value.isSome
      = resourceSchema.isSome := by
  refine ⟨rfl, rfl, rfl, rfl, rfl, ?_⟩
  cases resourceSchema <;> rfl

/-- The conversion on the request `testUpgradeRequest` for the schema of
`testServeResourceTypeOne`: the raw state and the version 1 are carried over. -/
theorem TestUpgradeResourceStateRequest_carried :
    (fromproto6.UpgradeResourceStateRequest (some testUpgradeRequest) "test_resource"
        (some testServeResourceTypeOneSchema)).value.map
      (fun fw => (fw.RawState, fw.Version, fw.ResourceType)) =
      some (testUpgradeRequest.RawState, 1, "test_resource") ∧
    (fromproto6.UpgradeResourceStateRequest (some testUpgradeRequest) "test_resource"
        (some testServeResourceTypeOneSchema)).diags = [] :=
  ⟨rfl, rfl⟩

/-- C23. Called with a nil dynamic value, `fromproto6.Plan` and
`fromproto6.State` return no container and no diagnostics for every schema, a
nil schema included, and make no decode attempt: the check of the value comes
first, so a missing schema is not reported then. -/
theorem fromproto6_nil_value_first (unmarshal : Unmarshaler) (schema : Option Schema) :
    fromproto6.Plan unmarshal none schema = { value := none, diags := [], calls := [] } ∧
    fromproto6.State unmarshal none schema = { value := none, diags := [], calls := [] } ∧
    fromproto6.Plan unmarshal none none = { value := none, diags := [], calls := [] } ∧
    fromproto6.State unmarshal none none = { value := none, diags := [], calls := [] } :=
  ⟨rfl, rfl, rfl, rfl⟩

/-! ## State reads: the schema lookup and the results as a whole (C24, C25) -/

/-- C24. For every state, whatever its raw value, when the schema does not
resolve the path (the lookup fails with `err`), the state read returns no value
and exactly one diagnostic: an Error at the requested path with summary "State
Read Error" whose detail is the fixed lead followed by "error getting attribute
type in schema: " and the text of `err`. The lookup is the only call made, so
it is decided before the raw value is looked at. -/
theorem StateGetAttributeValue_lookup_failure (env : StateEnv) (s : State) (path : Path)
    (err : GoError) (hlookup : env.AttributeTypeAtPath s.Schema path = .error err) :
    StateGetAttributeValue env s path =
      { value := none
        diags := [NewAttributeErrorDiagnostic path "State Read Error"
          (stateReadErrorLead ++ ("error getting attribute type in schema: " ++ err.Error))]
        calls := [.AttributeTypeAtPath path] } ∧
    (NewAttributeErrorDiagnostic path "State Read Error"
      (stateReadErrorLead ++ ("error getting attribute type in schema: " ++ err.Error))).Severity
      = .Error ∧
    (NewAttributeErrorDiagnostic path "State Read Error"
      (stateReadErrorLead ++ ("error getting attribute type in schema: " ++ err.Error))).path
      = some path ∧
    (NewAttributeErrorDiagnostic path "State Read Error"
      (stateReadErrorLead ++ ("error getting attribute type in schema: " ++ err.Error))).Summary
      = "State Read Error" ∧
    (NewAttributeErrorDiagnostic path "State Read Error"
      (stateReadErrorLead ++ ("error getting attribute type in schema: " ++ err.Error))).Detail
      = stateReadErrorLead ++ ("error getting attribute type in schema: " ++ err.Error) :=
  ⟨StateGetAttributeValue_unresolved env s path err hlookup, rfl, rfl, rfl, rfl⟩

/-- Witness of C24: the attribute `missing`, which the schema does not declare,
read from a null state: the error of the lookup is reported, the null state
does not hide it. -/
theorem StateGetAttributeValue_lookup_failure_witness :
    (tftypesEnv topLevelAttributeType).AttributeTypeAtPath (nullState StringType).Schema
      (Path.New.WithAttributeName "missing")
      = .error (.plain "no attribute missing in the schema") ∧
    (nullState StringType).Raw.IsNull = true ∧
    StateGetAttributeValue (tftypesEnv topLevelAttributeType) (nullState StringType)
        (Path.New.WithAttributeName "missing") =
      { value := none
        diags := [NewAttributeErrorDiagnostic (Path.New.WithAttributeName "missing")
          "State Read Error"
          (stateReadErrorLead ++
            "error getting attribute type in schema: no attribute missing in the schema")]
        calls := [.AttributeTypeAtPath (Path.New.WithAttributeName "missing")] } :=
  ⟨rfl, rfl,
    (StateGetAttributeValue_lookup_failure (tftypesEnv topLevelAttributeType)
      (nullState StringType) (Path.New.WithAttributeName "missing")
      (.plain "no attribute missing in the schema") rfl).1⟩

/-- C25. A state read never returns a value together with an Error diagnostic:
when the returned diagnostics hold an Error the returned value is nil, and
when a value is returned the diagnostics hold no Error, every one of them is a
warning, and they are exactly the diagnostics of the validation hook of the
attribute's type on the dynamic value at the path, in the hook's order (none
when the type has no hook). -/
theorem StateGetAttributeValue_value_or_error (env : StateEnv) (s : State) (path : Path) :
    ((StateGetAttributeValue env s path).diags.HasError = true →
      (StateGetAttributeValue env s path).value = none) ∧
    (∀ v, (StateGetAttributeValue env s path).value = some v →
      (StateGetAttributeValue env s path).diags.HasError = false ∧
      (∀ d ∈ (StateGetAttributeValue env s path).diags, d.Severity = .Warning) ∧
      ∃ attrType, env.AttributeTypeAtPath s.Schema path = .ok attrType ∧
        (StateGetAttributeValue env s path).diags =
          hookDiagnostics attrType (stateTerraformValue env s path) path) := by
  rcases StateGetAttributeValue_outcome env s path with hnone | ⟨attrType, w, hl, _, hv, hd, hh⟩
  · refine ⟨fun _ => hnone, ?_⟩
    intro v hv
    rw [hnone] at hv
    exact Option.noConfusion hv
  · refine ⟨?_, ?_⟩
    · intro herr
      rw [hd, hh] at herr
      exact Bool.noConfusion herr
    · intro v _
      refine ⟨by rw [hd, hh], ?_, attrType, hl, hd⟩
      rw [hd]
      exact Diagnostics.warnings_of_not_hasError _ hh

/-- Witness of C25: the number 1 read from a state whose attribute `test` has
the type `NumberTypeWithValidateWarning`: a value is returned, and the
diagnostics hold no Error. -/
theorem StateGetAttributeValue_value_or_error_witness :
    (StateGetAttributeValue (tftypesEnv topLevelAttributeType)
        (testState NumberTypeWithValidateWarning .number (.number 1)) testPath).value =
      some (.ProviderValue "testtypes.Number" "testtypes.NumberTypeWithValidateWarning"
        (.NumberValue false false 1)) ∧
    (StateGetAttributeValue (tftypesEnv topLevelAttributeType)
        (testState NumberTypeWithValidateWarning .number (.number 1)) testPath).diags.HasError
      = false :=
  ⟨rfl,
    ((StateGetAttributeValue_value_or_error (tftypesEnv topLevelAttributeType)
      (testState NumberTypeWithValidateWarning .number (.number 1)) testPath).2
      (.ProviderValue "testtypes.Number" "testtypes.NumberTypeWithValidateWarning"
        (.NumberValue false false 1)) rfl).1⟩

/-! ## State reads: the type's validation hook and the construction (C19, C20) -/

/-- Counterexample to C19 as stated. The state is not null, the schema resolves
the path to `NumberTypeWithValidateWarning`, a type with a validation hook, and
the walk fails with an error that is not an invalid step: the read returns at
once with one "State Read Error" that carries the walk's error, and the hook is
not called. -/
theorem StateGetAttributeValue_type_hook_counterexample :
    (testState NumberTypeWithValidateWarning .number (.number 1)).Raw.IsNull = false ∧
    ((brokenWalkEnv topLevelAttributeType).AttributeTypeAtPath
      (testState NumberTypeWithValidateWarning .number (.number 1)).Schema testPath).toOption.map
      AttrType.GoType = some "testtypes.NumberTypeWithValidateWarning" ∧
    (NumberTypeWithValidateWarning.Validate.map
      (fun validate => validate (.number 1) testPath)) = some [TestWarningDiagnostic testPath] ∧
    GoError.Is (.wrap (testPath.render ++ " still remains in the path: ")
      (.plain "the walk is broken") "") ErrInvalidStep = false ∧
    StateGetAttributeValue (brokenWalkEnv topLevelAttributeType)
        (testState NumberTypeWithValidateWarning .number (.number 1)) testPath =
      { value := none
        diags := [NewAttributeErrorDiagnostic testPath "State Read Error"
          (stateReadErrorLead ++ (GoError.wrap (testPath.render ++ " still remains in the path: ")
            (.plain "the walk is broken") "").Error)]
        calls := [.AttributeTypeAtPath testPath,
          .WalkAttributePath (testState NumberTypeWithValidateWarning .number (.number 1)).Raw
            testPath] } :=
  ⟨rfl, rfl, rfl, rfl, rfl⟩

/-- C19 (amended). For a state with a non-null raw value and a path that the
schema resolves to a type with a validation hook, whatever the lookup and the
walk. When `StateTerraformValueAtPath` returns no error, or an error that is an
invalid step, the read calls the hook on the dynamic value it returned (the
value the walk reached, when it reached one) before any construction, and calls
`ValueFromTerraform` if and only if the hook's diagnostics hold no Error: with
an Error it returns no value and exactly the hook's diagnostics; without one it
returns the constructed value together with the hook's diagnostics. When
`StateTerraformValueAtPath` returns any other error, the hook is not called:
the read returns no value and one "State Read Error" with that error. -/
theorem StateGetAttributeValue_type_hook (env : StateEnv) (s : State) (path : Path)
    (attrType : AttrType) (validate : TfValue → Path → Diagnostics)
    (hlookup : env.AttributeTypeAtPath s.Schema path = .ok attrType)
    (hraw : s.Raw.IsNull = false)
    (hhook : attrType.Validate = some validate) :
    (∀ reached remaining, env.WalkAttributePath s.Raw path = (.Value reached, remaining, none) →
      stateTerraformValue env s path = reached) ∧
    ((∀ err, (StateTerraformValueAtPath env s path).2 = some err →
        err.Is ErrInvalidStep = true) →
      ((validate (stateTerraformValue env s path) path).HasError = true →
        StateGetAttributeValue env s path =
          { value := none
            diags := validate (stateTerraformValue env s path) path
            calls := [.AttributeTypeAtPath path, .WalkAttributePath s.Raw path,
              .TypeValidate (stateTerraformValue env s path) path] }) ∧
      ((validate (stateTerraformValue env s path) path).HasError = false →
        (StateGetAttributeValue env s path).calls =
          [.AttributeTypeAtPath path, .WalkAttributePath s.Raw path,
            .TypeValidate (stateTerraformValue env s path) path,
            .ValueFromTerraform (stateTerraformValue env s path)] ∧
        ∀ v, attrType.ValueFromTerraform (stateTerraformValue env s path) = .ok v →
          (StateGetAttributeValue env s path).value = some v ∧
          (StateGetAttributeValue env s path).diags =
            validate (stateTerraformValue env s path) path) ∧
      (Call.ValueFromTerraform (stateTerraformValue env s path) ∈
          (StateGetAttributeValue env s path).calls ↔
        (validate (stateTerraformValue env s path) path).HasError = false)) ∧
    (∀ err, (StateTerraformValueAtPath env s path).2 = some err →
      err.Is ErrInvalidStep = false →
      StateGetAttributeValue env s path =
        { value := none
          diags := [NewAttributeErrorDiagnostic path "State Read Error"
            (stateReadErrorLead ++ err.Error)]
          calls := [.AttributeTypeAtPath path, .WalkAttributePath s.Raw path] }) := by
  refine ⟨?_, ?_, ?_⟩
  · intro reached remaining hw
    simp [stateTerraformValue, StateTerraformValueAtPath, hw]
  · intro hwalk
    have hread := StateGetAttributeValue_walked env s path attrType hlookup hraw hwalk
    rw [StateGetAttributeValue_construct,
      hookDiagnostics_some attrType _ path validate hhook,
      hookCalls_some attrType _ path validate hhook] at hread
    refine ⟨?_, ?_, ?_⟩
    · intro herr
      rw [hread]
      simp [herr]
    · intro hno
      rw [hread]
      simp only [hno]
      refine ⟨?_, ?_⟩
      · cases attrType.ValueFromTerraform (stateTerraformValue env s path) <;> simp
      · intro v hv
        simp [hv]
    · rw [hread]
      cases hd : (validate (stateTerraformValue env s path) path).HasError
      · cases attrType.ValueFromTerraform (stateTerraformValue env s path) <;> simp
      · simp
  · intro err hsome hother
    exact StateGetAttributeValue_walkError env s path attrType err hlookup hraw hsome hother

/-- Witness of C19 (amended): the number 1 read from a state whose attribute
`test` has the type `NumberTypeWithValidateWarning`; the walk reaches the
number without error, and the read returns the value of the provider's type
and the warning of the hook. -/
theorem StateGetAttributeValue_type_hook_witness :
    (tftypesEnv topLevelAttributeType).AttributeTypeAtPath
      (testState NumberTypeWithValidateWarning .number (.number 1)).Schema testPath
      = .ok NumberTypeWithValidateWarning ∧
    (testState NumberTypeWithValidateWarning .number (.number 1)).Raw.IsNull = false ∧
    StateTerraformValueAtPath (tftypesEnv topLevelAttributeType)
      (testState NumberTypeWithValidateWarning .number (.number 1)) testPath
      = (.number 1, none) ∧
    ((StateGetAttributeValue (tftypesEnv topLevelAttributeType)
        (testState NumberTypeWithValidateWarning .number (.number 1)) testPath).value =
      some (.ProviderValue "testtypes.Number" "testtypes.NumberTypeWithValidateWarning"
        (.NumberValue false false 1)) ∧
    (StateGetAttributeValue (tftypesEnv topLevelAttributeType)
        (testState NumberTypeWithValidateWarning .number (.number 1)) testPath).diags =
      [TestWarningDiagnostic testPath]) :=
  ⟨rfl, rfl, rfl,
    ((((StateGetAttributeValue_type_hook (tftypesEnv topLevelAttributeType)
      (testState NumberTypeWithValidateWarning .number (.number 1)) testPath
      NumberTypeWithValidateWarning (fun _ path => [TestWarningDiagnostic path])
      rfl rfl rfl).2.1
      (fun err h => absurd (show (none : Option GoError) = some err from h)
        (fun h2 => Option.noConfusion h2))).2.1 rfl).2)
      (.ProviderValue "testtypes.Number" "testtypes.NumberTypeWithValidateWarning"
        (.NumberValue false false 1)) rfl⟩

/-- Counterexample to C20 as stated. The state is not null, the schema resolves
the path to `RejectingTypeWithValidateWarning`, whose hook reports one warning
and no Error and whose `ValueFromTerraform` fails on every dynamic value with
"value rejected", and the walk fails with an error that is not an invalid
step: the diagnostics are one "State Read Error" that carries the walk's error,
without the hook's warning and without the error of `ValueFromTerraform`. -/
theorem StateGetAttributeValue_construction_failure_counterexample :
    (testState RejectingTypeWithValidateWarning .string (.string "hello")).Raw.IsNull = false ∧
    ((brokenWalkEnv topLevelAttributeType).AttributeTypeAtPath
      (testState RejectingTypeWithValidateWarning .string (.string "hello")).Schema
      testPath).toOption.map AttrType.GoType
      = some "testtypes.RejectingTypeWithValidateWarning" ∧
    hookDiagnostics RejectingTypeWithValidateWarning
      (stateTerraformValue (brokenWalkEnv topLevelAttributeType)
        (testState RejectingTypeWithValidateWarning .string (.string "hello")) testPath)
      testPath = [TestWarningDiagnostic testPath] ∧
    (TestWarningDiagnostic testPath).Severity = .Warning ∧
    RejectingTypeWithValidateWarning.ValueFromTerraform
      (stateTerraformValue (brokenWalkEnv topLevelAttributeType)
        (testState RejectingTypeWithValidateWarning .string (.string "hello")) testPath)
      = .error (.plain "value rejected") ∧
    RejectingTypeWithValidateWarning.ValueFromTerraform (.string "hello")
      = .error (.plain "value rejected") ∧
    StateGetAttributeValue (brokenWalkEnv topLevelAttributeType)
        (testState RejectingTypeWithValidateWarning .string (.string "hello")) testPath =
      { value := none
        diags := [NewAttributeErrorDiagnostic testPath "State Read Error"
          (stateReadErrorLead ++ (GoError.wrap (testPath.render ++ " still remains in the path: ")
            (.plain "the walk is broken") "").Error)]
        calls := [.AttributeTypeAtPath testPath,
          .WalkAttributePath
            (testState RejectingTypeWithValidateWarning .string (.string "hello")).Raw
            testPath] } ∧
    (GoError.wrap (testPath.render ++ " still remains in the path: ")
        (.plain "the walk is broken") "").Error
      = "AttributeName(\"test\") still remains in the path: the walk is broken" :=
  ⟨rfl, rfl, rfl, rfl, rfl, rfl, rfl, rfl⟩

/-- C20 (amended). For a state with a non-null raw value and a path that the
schema resolves, whatever the lookup and the walk: when
`StateTerraformValueAtPath` returns no error, or an error that is an invalid
step, the type's hook (if any) reports no Error on the dynamic value it
returned and `ValueFromTerraform` fails on that value with the error `e`, the
state read returns no value, and its diagnostics are the hook's diagnostics
(all warnings) followed by exactly one Error at the requested path with summary
"State Read Error" whose detail ends with the text of `e`. -/
theorem StateGetAttributeValue_construction_failure (env : StateEnv) (s : State)
    (path : Path) (attrType : AttrType) (e : GoError)
    (hlookup : env.AttributeTypeAtPath s.Schema path = .ok attrType)
    (hraw : s.Raw.IsNull = false)
    (hwalk : ∀ err, (StateTerraformValueAtPath env s path).2 = some err →
      err.Is ErrInvalidStep = true)
    (hhook : (hookDiagnostics attrType (stateTerraformValue env s path) path).HasError = false)
    (herr : attrType.ValueFromTerraform (stateTerraformValue env s path) = .error e) :
    (StateGetAttributeValue env s path).value = none ∧
    (StateGetAttributeValue env s path).diags =
      hookDiagnostics attrType (stateTerraformValue env s path) path ++
        [NewAttributeErrorDiagnostic path "State Read Error" (stateReadErrorLead ++ e.Error)] ∧
    (∀ d ∈ hookDiagnostics attrType (stateTerraformValue env s path) path,
      d.Severity = .Warning) ∧
    (StateGetAttributeValue env s path).calls =
      [.AttributeTypeAtPath path, .WalkAttributePath s.Raw path] ++
        hookCalls attrType (stateTerraformValue env s path) path ++
        [.ValueFromTerraform (stateTerraformValue env s path)] ∧
    (NewAttributeErrorDiagnostic path "State Read Error"
      (stateReadErrorLead ++ e.Error)).Severity = .Error ∧
    (NewAttributeErrorDiagnostic path "State Read Error"
      (stateReadErrorLead ++ e.Error)).path = some path ∧
    (NewAttributeErrorDiagnostic path "State Read Error"
      (stateReadErrorLead ++ e.Error)).Summary = "State Read Error" ∧
    (NewAttributeErrorDiagnostic path "State Read Error"
      (stateReadErrorLead ++ e.Error)).Detail = stateReadErrorLead ++ e.Error := by
  have hread := StateGetAttributeValue_walked env s path attrType hlookup hraw hwalk
  rw [StateGetAttributeValue_construct] at hread
  simp only [hhook, herr] at hread
  refine ⟨?_, ?_, Diagnostics.warnings_of_not_hasError _ hhook, ?_, rfl, rfl, rfl, rfl⟩
  · rw [hread]; simp
  · rw [hread]; simp
  · rw [hread]; simp

/-- Witness of C20 (amended): a string read from a state whose attribute `test`
has the type `NumberTypeWithValidateWarning`; the walk reaches the string
without error, and the read returns no value, the warning of the hook and then
the error of the construction. -/
theorem StateGetAttributeValue_construction_failure_witness :
    (tftypesEnv topLevelAttributeType).AttributeTypeAtPath
      (testState NumberTypeWithValidateWarning .string (.string "hello")).Schema testPath
      = .ok NumberTypeWithValidateWarning ∧
    (testState NumberTypeWithValidateWarning .string (.string "hello")).Raw.IsNull = false ∧
    StateTerraformValueAtPath (tftypesEnv topLevelAttributeType)
      (testState NumberTypeWithValidateWarning .string (.string "hello")) testPath
      = (.string "hello", none) ∧
    ((StateGetAttributeValue (tftypesEnv topLevelAttributeType)
        (testState NumberTypeWithValidateWarning .string (.string "hello")) testPath).value
      = none ∧
    (StateGetAttributeValue (tftypesEnv topLevelAttributeType)
        (testState NumberTypeWithValidateWarning .string (.string "hello")) testPath).diags =
      [TestWarningDiagnostic testPath,
        NewAttributeErrorDiagnostic testPath "State Read Error"
          (stateReadErrorLead ++
            (unmarshalError (.string "hello") "*big.Float" "*big.Float").Error)]) :=
  ⟨rfl, rfl, rfl,
    (StateGetAttributeValue_construction_failure (tftypesEnv topLevelAttributeType)
      (testState NumberTypeWithValidateWarning .string (.string "hello")) testPath
      NumberTypeWithValidateWarning
      (unmarshalError (.string "hello") "*big.Float" "*big.Float") rfl rfl
      (fun err h => absurd (show (none : Option GoError) = some err from h)
        (fun h2 => Option.noConfusion h2)) rfl rfl).1,
    (StateGetAttributeValue_construction_failure (tftypesEnv topLevelAttributeType)
      (testState NumberTypeWithValidateWarning .string (.string "hello")) testPath
      NumberTypeWithValidateWarning
      (unmarshalError (.string "hello") "*big.Float" "*big.Float") rfl rfl
      (fun err h => absurd (show (none : Option GoError) = some err from h)
        (fun h2 => Option.noConfusion h2)) rfl rfl).2.1⟩

end Fw
